import Mathlib

/-!
# Replanning pipeline of the autonomous-flight navigators

Shallow embedding of `navigation.cpp` (static navigator) and
`dynamicNavigation.cpp` (dynamic navigator).

Conventions of the embedding

* `double` values are exact rationals (`ℚ`); the decimal constants of the
  source (`0.2`, `3.0`, `0.1`, `0.8`, `0.05`) are the same decimals in `ℚ`.
* Every collaborator that lives outside the two files (map, detector,
  polynomial planner, B-spline optimizer, ROS clock, Eigen norm, `atan2`)
  is a field of `World`: the answers the collaborator gives during one
  callback invocation.
* Each callback is a function from the state before to the state after.
  The state carries `calls`, the collaborator calls and checks performed
  so far, in program order.
* `while (ros::ok())` loops recurse on `World.rosOkCount`, the number of
  `true` answers `ros::ok()` still gives before the node shuts down.
* A `for (t = t0; t <= T; t += dt)` loop that cannot end (`dt ≤ 0` with the
  guard true) makes the enclosing function return `none`.
* `stop()`, `moveToOrientation` and `updateTargetWithState` belong to the
  base class, whose implementation is not part of the two files; a call to
  one of them is recorded in `calls` and changes no modelled field.
-/

namespace AutoFlight

/-! ## Data model -/

/-- Eigen::Vector3d. -/
structure Vector3d where
  x : ℚ
  y : ℚ
  z : ℚ
deriving DecidableEq

namespace Vector3d

/-- Eigen::Vector3d (0.0, 0.0, 0.0). -/
def zero : Vector3d := ⟨0, 0, 0⟩

/-- Component-wise difference `a - b`. -/
def sub (a b : Vector3d) : Vector3d := ⟨a.x - b.x, a.y - b.y, a.z - b.z⟩

/-- Product `v * k` of a vector with a scalar. -/
def smul (v : Vector3d) (k : ℚ) : Vector3d := ⟨v.x * k, v.y * k, v.z * k⟩

/-- Quotient `v / k` of a vector by a scalar. -/
def sdiv (v : Vector3d) (k : ℚ) : Vector3d := ⟨v.x / k, v.y / k, v.z / k⟩

/-- Dot product. -/
def dot (a b : Vector3d) : ℚ := a.x * b.x + a.y * b.y + a.z * b.z

end Vector3d

/-- Eigen::Matrix3d, by rows. -/
structure Matrix3d where
  row0 : Vector3d
  row1 : Vector3d
  row2 : Vector3d
deriving DecidableEq

/-- Matrix-vector product `m * v`. -/
def Matrix3d.mulVec (m : Matrix3d) (v : Vector3d) : Vector3d :=
  ⟨Vector3d.dot m.row0 v, Vector3d.dot m.row1 v, Vector3d.dot m.row2 v⟩

/-- geometry_msgs::Quaternion; a default-constructed message is all zero. -/
structure Quaternion where
  x : ℚ
  y : ℚ
  z : ℚ
  w : ℚ
deriving DecidableEq

/-- geometry_msgs::Pose (the header of a PoseStamped is not modelled). -/
structure Pose where
  position : Vector3d
  orientation : Quaternion
deriving DecidableEq

/-- The `poses` vector of a nav_msgs::Path. -/
abbrev Path := List Pose

/-- A default-constructed PoseStamped whose position is then assigned. -/
def poseAt (p : Vector3d) : Pose := ⟨p, ⟨0, 0, 0, 0⟩⟩

/-- trajPlanner::bspline as the navigators use it: `at(t)`,
`getDerivative().at(t)`, `getDerivative().getDerivative().at(t)` and
`getDuration()`. -/
structure bspline where
  atTime : ℚ → Vector3d
  derivativeAt : ℚ → Vector3d
  derivative2At : ℚ → Vector3d
  getDuration : ℚ

/-- The polynomial planned by `polyTraj_->updatePath` followed by
`polyTraj_->makePlan`: its sampling `getTrajectory(dt)`, `getVel(t)`,
`getAcc(t)` and the message written by `makePlan(nav_msgs::Path&)`. -/
structure polyTraj where
  getTrajectory : ℚ → Path
  getVel : ℚ → Vector3d
  getAcc : ℚ → Vector3d
  planMsg : Path

/-- onboard_vision::Obstacle. -/
structure Obstacle where
  px : ℚ
  py : ℚ
  pz : ℚ
  vx : ℚ
  vy : ℚ
  vz : ℚ
  xsize : ℚ
  ysize : ℚ
  zsize : ℚ
deriving DecidableEq

/-- The part of the `bsplineTraj_` optimizer object the navigators write
and read: the input bound by `updatePath`, the obstacle set bound by
`updateDynamicObstacles`, and the results read back through
`getTrajectory()` and `getLinearFactor()`. The navigator sources do not
show what the optimizer does with a bound obstacle set afterwards; the
field `updatePathObstacles` stands for it. -/
structure bsplineTraj where
  inputPath : Path
  startEndConditions : List Vector3d
  ts : Option ℚ
  obstaclesPos : List Vector3d
  obstaclesVel : List Vector3d
  obstaclesSize : List Vector3d
  trajectory : bspline
  linearFactor : ℚ
  /-- the positions, velocities and sizes the optimizer holds when
  `updatePath` returns, given the three lists this record held for it
  before the call -/
  updatePathObstacles : List Vector3d → List Vector3d → List Vector3d →
    List Vector3d × List Vector3d × List Vector3d

/-- tracking_controller::Target. -/
structure Target where
  position : Vector3d
  velocity : Vector3d
  acceleration : Vector3d
  yaw : ℚ
deriving DecidableEq

/-- Collaborator calls and policy checks, recorded in program order. -/
inductive Call where
  | moveToOrientation (yaw angularVel : ℚ)
  | stop
  | reachCheck
  | hasCollision
  | computeExecutionDistance
  | hasDynamicObstacle
  | rrtMakePlan (start goal : Pose)
  | polyUpdatePath (waypoints : Path) (conditions : List Vector3d)
  | polyMakePlan
  | inputPathCheck (path : Path) (dt : ℚ)
  | bsplineUpdatePath (path : Path) (conditions : List Vector3d) (dt : Option ℚ)
  | updateDynamicObstacles (pos vel size : List Vector3d)
  | bsplineMakePlan
  | updateTargetWithState (target : Target)
deriving DecidableEq

/-- The four policy checks of `replanCheckCB`. -/
def Call.isPolicyCheck : Call → Bool
  | Call.reachCheck => true
  | Call.hasCollision => true
  | Call.computeExecutionDistance => true
  | Call.hasDynamicObstacle => true
  | _ => false

/-- Answers of the collaborators during one callback invocation. -/
structure World where
  /-- number of `true` answers of `ros::ok()` before shutdown -/
  rosOkCount : Nat
  /-- successive readings of `ros::Time::now()`, in seconds -/
  now : Nat → ℚ
  /-- value found in an uninitialised `double` -/
  uninitDouble : ℚ
  /-- Eigen `.norm()` -/
  norm : Vector3d → ℚ
  /-- `atan2(y, x)` -/
  atan2 : ℚ → ℚ → ℚ
  /-- `trajPlanner::angleBetweenVectors` -/
  angleBetweenVectors : Vector3d → Vector3d → ℚ
  /-- the constant `PI_const` -/
  PI_const : ℚ
  /-- `map_->isInflatedOccupied(p)` -/
  isInflatedOccupied : Vector3d → Bool
  /-- `detector_->getObstaclesInSensorRange(fov, msg)` -/
  getObstaclesInSensorRange : ℚ → List Obstacle
  /-- `rrtPlanner_->makePlan` for the given start and goal -/
  rrtMakePlan : Pose → Pose → Path
  /-- `polyTraj_->updatePath(waypoints, conditions)` then `makePlan` -/
  polyPlan : Path → List Vector3d → polyTraj
  /-- `bsplineTraj_->getInitTs()` -/
  getInitTs : ℚ
  /-- `bsplineTraj_->inputPathCheck(path, adjustedPath, dt, finalTime)`:
  the Boolean answer with the new contents of the two reference
  arguments `adjustedPath` and `finalTime` -/
  inputPathCheck : Path → Path → ℚ → ℚ → Bool × Path × ℚ
  /-- answer of `bsplineTraj_->updatePath` -/
  updatePath : Path → List Vector3d → Option ℚ → Bool
  /-- `bsplineTraj_->makePlan(msg)`: success flag, the message, and the
  spline and linear factor held by the optimizer afterwards -/
  makePlan : bsplineTraj → Bool × Path × bspline × ℚ
  /-- `bsplineTraj_->getLinearReparamTime(t)` -/
  getLinearReparamTime : bsplineTraj → ℚ → ℚ
  /-- `AutoFlight::rpy_from_quaternion(q)`, the yaw of an orientation -/
  rpy_from_quaternion : Quaternion → ℚ
  /-- `AutoFlight::quat2RotMatrix(q)` -/
  quat2RotMatrix : Quaternion → Matrix3d

/-! ## Loops over sample times -/

/-- Iterations available to `for (t = t0; t <= T; t += dt)` when `dt > 0`:
the loop body runs `⌊(T - t0)/dt⌋ + 1` times when `t0 ≤ T`. -/
def sampleBound (t0 T dt : ℚ) : Nat := (Int.toNat ⌊(T - t0) / dt⌋) + 1

/-- `for (double t = t0; t <= T; t += dt) out.push_back(f(t))`, with the
additions carried out exactly. -/
def sampleLoop (f : ℚ → Pose) (T dt : ℚ) : Nat → ℚ → Path
  | 0, _ => []
  | n + 1, t => if t ≤ T then f t :: sampleLoop f T dt n (t + dt) else []

/-- Loop of `hasCollision`:
`for (t = trajTime_; t <= duration; t += 0.1) if (occupied(at(t))) return true;`,
with the additions carried out exactly; `hasCollisionLoopDouble` is the same
loop with the additions rounded to binary64. -/
def hasCollisionLoop (W : World) (traj : bspline) : Nat → ℚ → Bool
  | 0, _ => false
  | n + 1, t =>
    if t ≤ traj.getDuration then
      if W.isInflatedOccupied (traj.atTime t) then true
      else hasCollisionLoop W traj n (t + 0.1)
    else false

/-- Loop of `computeExecutionDistance`: local variables `firstTime`,
`prevP`, `totalDistance`; returns `totalDistance` at loop exit. The
additions `t += 0.1` are carried out exactly. -/
def executionDistanceLoop (W : World) (traj : bspline) (trajTime : ℚ) :
    Nat → ℚ → Bool → Vector3d → ℚ → ℚ
  | 0, _, _, _, totalDistance => totalDistance
  | n + 1, t, firstTime, prevP, totalDistance =>
    if t ≤ trajTime then
      let currP := traj.atTime t
      let totalDistance1 :=
        if firstTime then totalDistance
        else totalDistance + W.norm (Vector3d.sub currP prevP)
      executionDistanceLoop W traj trajTime n (t + 0.1) false currP totalDistance1
    else totalDistance

/-- A `for (t = t0; t <= T; t += dt)` loop that fills a path. It leaves
the loop after finitely many rounds exactly when `dt > 0` or the guard
already fails at `t0`; otherwise the call never returns (`none`). -/
def samplePath (f : ℚ → Pose) (t0 T dt : ℚ) : Option Path :=
  if t0 ≤ T ∧ dt ≤ 0 then none
  else some (sampleLoop f T dt (sampleBound t0 T dt) t0)

/-- Locals of one knot-spacing loop of `plannerCB`: `satisfyDistanceCheck`,
the adjusted path, `dtTemp`, `finalTimeTemp`, together with the index of
the next clock reading and the calls made so far. -/
structure SpacingState where
  satisfyDistanceCheck : Bool
  adjusted : Path
  dtTemp : ℚ
  finalTimeTemp : ℚ
  tick : Nat
  calls : List Call

/-! ## Static navigator (`navigation.cpp`) -/

/-- Members of class `navigation` (with those inherited from `flightBase`)
that the callbacks read or write. -/
structure navigation where
  useGlobalPlanner_ : Bool
  noYawTurning_ : Bool
  useYawControl_ : Bool
  desiredVel_ : ℚ
  desiredAcc_ : ℚ
  desiredAngularVel_ : ℚ
  /-- `odom_.pose.pose` -/
  odom_ : Pose
  /-- `goal_.pose` -/
  goal_ : Pose
  firstGoal_ : Bool
  goalReceived_ : Bool
  replan_ : Bool
  trajectoryReady_ : Bool
  needGlobalPlan_ : Bool
  globalPlanReady_ : Bool
  firstTimeSave_ : Bool
  currVel_ : Vector3d
  currAcc_ : Vector3d
  trajectory_ : bspline
  trajStartTime_ : ℚ
  trajTime_ : ℚ
  rrtPathMsg_ : Path
  polyTrajMsg_ : Path
  bsplineTrajMsg_ : Path
  inputTrajMsg_ : Path
  polyTraj_ : polyTraj
  bsplineTraj_ : bsplineTraj
  /-- collaborator calls and checks performed so far -/
  calls : List Call

namespace navigation

/-- navigation::getStartEndConditions: pushes `currVel`, `endVel`,
`currAcc`, `endAcc` onto the vector passed by reference. -/
def getStartEndConditions (s : navigation) (startEndConditions : List Vector3d) :
    List Vector3d :=
  let currVel := s.currVel_
  let currAcc := s.currAcc_
  let endVel := Vector3d.zero
  let endAcc := Vector3d.zero
  (((startEndConditions ++ [currVel]) ++ [endVel]) ++ [currAcc]) ++ [endAcc]

/-- navigation::hasCollision. -/
def hasCollision (W : World) (s : navigation) : Bool :=
  if s.trajectoryReady_ then
    hasCollisionLoop W s.trajectory_
      (sampleBound s.trajTime_ s.trajectory_.getDuration 0.1) s.trajTime_
  else false

/-- navigation::computeExecutionDistance. -/
def computeExecutionDistance (W : World) (s : navigation) : ℚ :=
  if s.trajectoryReady_ && !s.replan_ then
    executionDistanceLoop W s.trajectory_ s.trajTime_
      (sampleBound 0 s.trajTime_ 0.1) 0 true Vector3d.zero 0
  else -1

/-- navigation::replanCheckCB. -/
def replanCheckCB (W : World) (s : navigation) : navigation :=
  if s.goalReceived_ then
    let s := { s with replan_ := false }
    let s := { s with trajectoryReady_ := false }
    let s :=
      if !s.noYawTurning_ && !s.useYawControl_ then
        let yaw := W.atan2 (s.goal_.position.y - s.odom_.position.y)
          (s.goal_.position.x - s.odom_.position.x)
        { s with calls := s.calls ++ [Call.moveToOrientation yaw s.desiredAngularVel_] }
      else s
    let s := { s with firstTimeSave_ := true }
    let s := { s with replan_ := true }
    let s := { s with goalReceived_ := false }
    let s :=
      if s.useGlobalPlanner_ then
        { s with needGlobalPlan_ := true, globalPlanReady_ := false }
      else s
    s
  else if s.trajectoryReady_ then
    let s := { s with calls := s.calls ++ [Call.hasCollision] }
    if hasCollision W s then
      { s with replan_ := true }
    else
      let s := { s with calls := s.calls ++ [Call.computeExecutionDistance] }
      if computeExecutionDistance W s ≥ 3.0 then
        { s with replan_ := true }
      else s
  else s

end navigation

/-! ## Dynamic navigator (`dynamicNavigation.cpp`) -/

/-- Members of class `dynamicNavigation` (with those inherited from
`flightBase`) that the callbacks read or write. -/
structure dynamicNavigation where
  useGlobalPlanner_ : Bool
  useYawControl_ : Bool
  desiredVel_ : ℚ
  desiredAcc_ : ℚ
  desiredAngularVel_ : ℚ
  /-- `odom_.pose.pose` -/
  odom_ : Pose
  /-- `odom_.twist.twist.linear` -/
  odomTwistLinear_ : Vector3d
  /-- `goal_.pose` -/
  goal_ : Pose
  firstGoal_ : Bool
  goalReceived_ : Bool
  replan_ : Bool
  trajectoryReady_ : Bool
  stateUpdateFirstTime_ : Bool
  currVel_ : Vector3d
  currAcc_ : Vector3d
  prevVel_ : Vector3d
  prevStateTime_ : ℚ
  trajectory_ : bspline
  trajStartTime_ : ℚ
  trajTime_ : ℚ
  rrtPathMsg_ : Path
  polyTrajMsg_ : Path
  bsplineTrajMsg_ : Path
  inputTrajMsg_ : Path
  polyTraj_ : polyTraj
  bsplineTraj_ : bsplineTraj
  /-- collaborator calls and checks performed so far -/
  calls : List Call

namespace dynamicNavigation

/-- dynamicNavigation::getStartEndCondition: pushes `currVel`, `endVel`,
`currAcc`, `endAcc` onto the vector passed by reference. -/
def getStartEndCondition (s : dynamicNavigation) (startEndCondition : List Vector3d) :
    List Vector3d :=
  let currVel := if s.trajectoryReady_ then s.currVel_ else Vector3d.zero
  let currAcc := if s.trajectoryReady_ then s.currAcc_ else Vector3d.zero
  let endVel := Vector3d.zero
  let endAcc := Vector3d.zero
  (((startEndCondition ++ [currVel]) ++ [endVel]) ++ [currAcc]) ++ [endAcc]

/-- dynamicNavigation::hasCollision. -/
def hasCollision (W : World) (s : dynamicNavigation) : Bool :=
  if s.trajectoryReady_ then
    hasCollisionLoop W s.trajectory_
      (sampleBound s.trajTime_ s.trajectory_.getDuration 0.1) s.trajTime_
  else false

/-- dynamicNavigation::computeExecutionDistance. -/
def computeExecutionDistance (W : World) (s : dynamicNavigation) : ℚ :=
  if s.trajectoryReady_ && !s.replan_ then
    executionDistanceLoop W s.trajectory_ s.trajTime_
      (sampleBound 0 s.trajTime_ 0.1) 0 true Vector3d.zero 0
  else -1

/-- dynamicNavigation::getDynamicObstacles: appends position, velocity and
size of every obstacle of the in-FOV snapshot to the three vectors passed
by reference. -/
def getDynamicObstacles (W : World)
    (obstaclesPos obstaclesVel obstaclesSize : List Vector3d) :
    List Vector3d × List Vector3d × List Vector3d :=
  let msg := W.getObstaclesInSensorRange W.PI_const
  msg.foldl
    (fun acc ob =>
      (acc.1 ++ [⟨ob.px, ob.py, ob.pz⟩],
       acc.2.1 ++ [⟨ob.vx, ob.vy, ob.vz⟩],
       acc.2.2 ++ [⟨ob.xsize, ob.ysize, ob.zsize⟩]))
    (obstaclesPos, obstaclesVel, obstaclesSize)

/-- dynamicNavigation::hasDynamicObstacle. -/
def hasDynamicObstacle (W : World) : Bool :=
  let obstaclesPos := (getDynamicObstacles W [] [] []).1
  if obstaclesPos.length = 0 then false else true

/-- dynamicNavigation::replanCheckCB. -/
def replanCheckCB (W : World) (s : dynamicNavigation) : dynamicNavigation :=
  if s.goalReceived_ then
    let s := { s with replan_ := false }
    let s := { s with trajectoryReady_ := false }
    let s :=
      if !s.useYawControl_ then
        let yaw := W.atan2 (s.goal_.position.y - s.odom_.position.y)
          (s.goal_.position.x - s.odom_.position.x)
        { s with calls := s.calls ++ [Call.moveToOrientation yaw s.desiredAngularVel_] }
      else s
    let s := { s with replan_ := true }
    let s := { s with goalReceived_ := false }
    s
  else if s.trajectoryReady_ then
    let currPos := s.odom_.position
    let goalPos := s.goal_.position
    let s := { s with calls := s.calls ++ [Call.reachCheck] }
    if W.norm (Vector3d.sub currPos goalPos) ≤ 0.2 then
      let s := { s with replan_ := false }
      let s := { s with trajectoryReady_ := false }
      let s := { s with goalReceived_ := false }
      s
    else
      let s := { s with calls := s.calls ++ [Call.hasCollision] }
      if hasCollision W s then
        { s with replan_ := true }
      else
        let s := { s with calls := s.calls ++ [Call.computeExecutionDistance] }
        if computeExecutionDistance W s ≥ 3.0 then
          { s with replan_ := true }
        else
          let s := { s with calls := s.calls ++ [Call.hasDynamicObstacle] }
          if hasDynamicObstacle W then
            { s with replan_ := true }
          else s
  else s

end dynamicNavigation

/-! ## Planner orchestrator of the static navigator -/

namespace navigation

/-- navigation::getCurrentTraj(dt); the clock is read once, for the header
stamp. -/
def getCurrentTraj (s : navigation) (dt : ℚ) (tick : Nat) : Option (Path × Nat) :=
  if s.trajectoryReady_ then
    match samplePath (fun t => poseAt (s.trajectory_.atTime t))
        s.trajTime_ s.trajectory_.getDuration dt with
    | none => none
    | some poses => some (poses, tick + 1)
  else some ([], tick + 1)

/-- One round of the search loop of `getRestGlobalPath`; the accumulator is
`(nextIdx, minDist)`, with `none` for the initial infinite `minDist`. -/
def restPathStep (W : World) (poses : Path) (pCurr : Vector3d)
    (acc : Nat × Option ℚ) (i : Nat) : Nat × Option ℚ :=
  let pEig := (poses.getD i (poseAt Vector3d.zero)).position
  let pDiff := Vector3d.sub pCurr pEig
  let pEigNext := (poses.getD (i + 1) (poseAt Vector3d.zero)).position
  let diffToNext := Vector3d.sub pEigNext pEig
  let dist := W.norm (Vector3d.sub pEig pCurr)
  if W.angleBetweenVectors diffToNext pDiff > W.PI_const * 3.0 / 4.0 then
    match acc.2 with
    | none => (i, some dist)
    | some minDist => if dist < minDist then (i, some dist) else acc
  else acc

/-- navigation::getRestGlobalPath. With an empty stored path the unsigned
`size()-1` wraps around and the loop reads beyond the vector (`none`). -/
def getRestGlobalPath (W : World) (s : navigation) : Option Path :=
  if s.rrtPathMsg_.length = 0 then none
  else
    let nextIdx :=
      ((List.range (s.rrtPathMsg_.length - 1)).foldl
        (restPathStep W s.rrtPathMsg_ s.odom_.position)
        (s.rrtPathMsg_.length - 1, none)).1
    some (s.odom_ :: s.rrtPathMsg_.drop nextIdx)

/-- A knot-spacing loop of navigation::plannerCB:
`while (ros::ok())`, leave when 0.05 s have elapsed since `startTime`, build
the input path for `dtTemp`, ask `inputPathCheck`, leave when it accepts,
otherwise `dtTemp *= 0.8`. The first argument counts the remaining `true`
answers of `ros::ok()`. -/
def spacingLoop (W : World) (startTime : ℚ) (input : ℚ → Nat → Option (Path × Nat)) :
    Nat → SpacingState → Option SpacingState
  | 0, r => some r
  | life + 1, r =>
    let currTime := W.now r.tick
    if currTime - startTime ≥ 0.05 then some { r with tick := r.tick + 1 }
    else
      match input r.dtTemp (r.tick + 1) with
      | none => none
      | some (path, tick1) =>
        let chk := W.inputPathCheck path r.adjusted r.dtTemp r.finalTimeTemp
        let r1 : SpacingState :=
          { satisfyDistanceCheck := chk.1
            adjusted := chk.2.1
            dtTemp := r.dtTemp
            finalTimeTemp := chk.2.2
            tick := tick1
            calls := r.calls ++ [Call.inputPathCheck path r.dtTemp] }
        if chk.1 then some r1
        else spacingLoop W startTime input life { r1 with dtTemp := r.dtTemp * 0.8 }

/-- The declarations before a knot-spacing loop (`satisfyDistanceCheck =
false`, empty adjusted path, `dtTemp = initTs`, `finalTimeTemp`
uninitialised, `startTime = ros::Time::now()`) followed by the loop. -/
def runSpacing (W : World) (calls : List Call) (input : ℚ → Nat → Option (Path × Nat)) :
    Option SpacingState :=
  spacingLoop W (W.now 0) input W.rosOkCount
    { satisfyDistanceCheck := false
      adjusted := []
      dtTemp := W.getInitTs
      finalTimeTemp := W.uninitDouble
      tick := 1
      calls := calls }

/-- Locals of navigation::plannerCB when control reaches
`this->inputTrajMsg_ = inputTraj`. -/
structure PlanInput where
  state : navigation
  inputTraj : Path
  startEndConditions : List Vector3d
  tick : Nat

/-- State after `polyTraj_->updatePath(waypoints, conditions)` and
`polyTraj_->makePlan(false)`. -/
def planPoly (W : World) (s : navigation) (waypoints : Path)
    (conditions : List Vector3d) : navigation :=
  { s with
    polyTraj_ := W.polyPlan waypoints conditions
    calls := s.calls ++ [Call.polyUpdatePath waypoints conditions, Call.polyMakePlan] }

/-- The global-planner round of plannerCB (`needGlobalPlan_` set): plan with
the RRT planner, keep the path when it has at least two poses, clear
`needGlobalPlan_`. -/
def globalPlan (W : World) (s : navigation) : navigation :=
  let rrtPathMsgTemp := W.rrtMakePlan s.odom_ s.goal_
  if rrtPathMsgTemp.length ≥ 2 then
    { s with
      rrtPathMsg_ := rrtPathMsgTemp
      globalPlanReady_ := true
      needGlobalPlan_ := false
      calls := s.calls ++ [Call.rrtMakePlan s.odom_ s.goal_] }
  else
    { s with
      needGlobalPlan_ := false
      calls := s.calls ++ [Call.rrtMakePlan s.odom_ s.goal_] }

/-- Input path of the combined loop: the residual samples followed by the
polynomial samples from index 1 on. -/
def combinedInput (s : navigation) (poly : polyTraj) (dt : ℚ) (tick : Nat) :
    Option (Path × Nat) :=
  match getCurrentTraj s dt tick with
  | none => none
  | some (inputRestTraj, tick1) =>
    some (inputRestTraj ++ (poly.getTrajectory dt).drop 1, tick1)

/-- The assignments after a knot-spacing loop that sampled a polynomial:
`inputTraj = adjusted`, `finalTime = finalTimeTemp - offset`,
`startEndConditions[1] = getVel(finalTime)`,
`startEndConditions[3] = getAcc(finalTime)`. -/
def closeWithPoly (s : navigation) (poly : polyTraj) (offset : ℚ)
    (startEndConditions : List Vector3d) (r : SpacingState) : PlanInput :=
  let finalTime := r.finalTimeTemp - offset
  { state := { s with calls := r.calls }
    inputTraj := r.adjusted
    startEndConditions :=
      (startEndConditions.set 1 (poly.getVel finalTime)).set 3 (poly.getAcc finalTime)
    tick := r.tick }

/-- First part of navigation::plannerCB, entered with `replan_` set: the
construction of the input path and of the boundary conditions. -/
def plannerInput (W : World) (s : navigation) : Option PlanInput :=
  let startEndConditions := getStartEndConditions s []
  if s.useGlobalPlanner_ then
    if s.needGlobalPlan_ then
      some ⟨globalPlan W s, [], startEndConditions, 0⟩
    else if s.globalPlanReady_ then
      match getRestGlobalPath W s with
      | none => none
      | some restPath =>
        let s1 := planPoly W s restPath startEndConditions
        let s2 := { s1 with polyTrajMsg_ := s1.polyTraj_.planMsg }
        match runSpacing W s2.calls
            (fun dt tick => some (s2.polyTraj_.getTrajectory dt, tick)) with
        | none => none
        | some r => some (closeWithPoly s2 s2.polyTraj_ 0 startEndConditions r)
    else some ⟨s, [], startEndConditions, 0⟩
  else
    if !s.trajectoryReady_ then
      let waypoints : Path := [s.odom_, s.goal_]
      let s1 := planPoly W s waypoints startEndConditions
      match runSpacing W s1.calls
          (fun dt tick => some (s1.polyTraj_.getTrajectory dt, tick)) with
      | none => none
      | some r => some (closeWithPoly s1 s1.polyTraj_ 0 startEndConditions r)
    else
      let bsplineLastPos := s.trajectory_.atTime s.trajectory_.getDuration
      let lastPs := poseAt bsplineLastPos
      let goalPos := s.goal_.position
      if W.norm (Vector3d.sub bsplineLastPos goalPos) ≥ 0.2 then
        let waypoints : Path := [lastPs, s.goal_]
        let polyStartVel := s.trajectory_.derivativeAt s.trajectory_.getDuration
        let polyEndVel := Vector3d.zero
        let polyStartAcc := s.trajectory_.derivative2At s.trajectory_.getDuration
        let polyEndAcc := Vector3d.zero
        let polyStartEndConditions := [polyStartVel, polyEndVel, polyStartAcc, polyEndAcc]
        let s1 := planPoly W s waypoints polyStartEndConditions
        match runSpacing W s1.calls (combinedInput s1 s1.polyTraj_) with
        | none => none
        | some r =>
          some (closeWithPoly s1 s1.polyTraj_ s.trajectory_.getDuration
            startEndConditions r)
      else
        match runSpacing W s.calls (getCurrentTraj s) with
        | none => none
        | some r => some ⟨{ s with calls := r.calls }, r.adjusted, startEndConditions, r.tick⟩

/-- State after `this->inputTrajMsg_ = inputTraj` and
`bsplineTraj_->updatePath(inputTraj, startEndConditions)`. -/
def bindInput (i : PlanInput) : navigation :=
  { i.state with
    inputTrajMsg_ := i.inputTraj
    bsplineTraj_ := { i.state.bsplineTraj_ with
      inputPath := i.inputTraj
      startEndConditions := i.startEndConditions
      ts := none
      obstaclesPos := (i.state.bsplineTraj_.updatePathObstacles
        i.state.bsplineTraj_.obstaclesPos i.state.bsplineTraj_.obstaclesVel
        i.state.bsplineTraj_.obstaclesSize).1
      obstaclesVel := (i.state.bsplineTraj_.updatePathObstacles
        i.state.bsplineTraj_.obstaclesPos i.state.bsplineTraj_.obstaclesVel
        i.state.bsplineTraj_.obstaclesSize).2.1
      obstaclesSize := (i.state.bsplineTraj_.updatePathObstacles
        i.state.bsplineTraj_.obstaclesPos i.state.bsplineTraj_.obstaclesVel
        i.state.bsplineTraj_.obstaclesSize).2.2 }
    calls := i.state.calls ++ [Call.bsplineUpdatePath i.inputTraj i.startEndConditions none] }

/-- State after `bsplineTraj_->makePlan(bsplineTrajMsgTemp)`: the optimizer
holds the spline and linear factor of this attempt. -/
def storePlan (s : navigation) (plan : Bool × Path × bspline × ℚ) : navigation :=
  { s with
    bsplineTraj_ := { s.bsplineTraj_ with
      trajectory := plan.2.2.1
      linearFactor := plan.2.2.2 }
    calls := s.calls ++ [Call.bsplineMakePlan] }

/-- The assignments of the `planSuccess` branch. -/
def acceptPlan (s : navigation) (bsplineTrajMsgTemp : Path) (now : ℚ) : navigation :=
  { s with
    bsplineTrajMsg_ := bsplineTrajMsgTemp
    trajStartTime_ := now
    trajTime_ := 0.0
    trajectory_ := s.bsplineTraj_.trajectory
    trajectoryReady_ := true
    replan_ := false }

/-- The branch taken when `makePlan` fails. -/
def rejectPlan (W : World) (s : navigation) : navigation :=
  if hasCollision W s then
    { s with
      trajectoryReady_ := false
      calls := s.calls ++ [Call.hasCollision, Call.stop] }
  else
    { s with
      replan_ := false
      calls := s.calls ++ [Call.hasCollision] }

/-- Second part of navigation::plannerCB, from
`this->inputTrajMsg_ = inputTraj` to the end. After a successful plan the
trajectory is sampled for the trajectory divider by
`for (t = 0.0; t * linearReparamFactor <= duration; t += 0.1)`, a loop that
never ends when `duration ≥ 0` and the factor is not positive (`none`); the
divider only feeds the console. -/
def plannerFinish (W : World) (i : PlanInput) : Option navigation :=
  let updateSuccess := W.updatePath i.inputTraj i.startEndConditions none
  if updateSuccess then
    let plan := W.makePlan (bindInput i).bsplineTraj_
    let planSuccess := plan.1
    if planSuccess then
      let linearReparamFactor := plan.2.2.2
      if 0 ≤ plan.2.2.1.getDuration ∧ linearReparamFactor ≤ 0 then none
      else some (acceptPlan (storePlan (bindInput i) plan) plan.2.1 (W.now i.tick))
    else some (rejectPlan W (storePlan (bindInput i) plan))
  else some (bindInput i)

/-- navigation::plannerCB; `none` when the invocation does not return: a
sampling loop that never ends, or the out-of-bounds read of
`getRestGlobalPath`. -/
def plannerCB (W : World) (s : navigation) : Option navigation :=
  if !s.firstGoal_ then some s
  else if s.replan_ then
    match plannerInput W s with
    | none => none
    | some i => plannerFinish W i
  else some s

end navigation

/-! ## Planner orchestrator of the dynamic navigator -/

namespace dynamicNavigation

/-- dynamicNavigation::getCurrentTraj(dt): the clock is read for the header
stamp and, with a trajectory ready, once more for the trajectory time
`now - trajStartTime_` at which the sampling starts. -/
def getCurrentTraj (W : World) (s : dynamicNavigation) (dt : ℚ) (tick : Nat) :
    Option (Path × Nat) :=
  if s.trajectoryReady_ then
    let currTime := W.now (tick + 1)
    let trajTime := currTime - s.trajStartTime_
    match samplePath (fun t => poseAt (s.trajectory_.atTime t))
        trajTime s.trajectory_.getDuration dt with
    | none => none
    | some poses => some (poses, tick + 2)
  else some ([], tick + 1)

/-- A knot-spacing loop of dynamicNavigation::plannerCB:
`while (ros::ok())`, build the input path for `dtTemp`, ask
`inputPathCheck`, leave when it accepts, otherwise `dtTemp *= 0.8`. The
first argument counts the remaining `true` answers of `ros::ok()`. -/
def spacingLoop (W : World) (input : ℚ → Nat → Option (Path × Nat)) :
    Nat → SpacingState → Option SpacingState
  | 0, r => some r
  | life + 1, r =>
    match input r.dtTemp r.tick with
    | none => none
    | some (path, tick1) =>
      let chk := W.inputPathCheck path r.adjusted r.dtTemp r.finalTimeTemp
      let r1 : SpacingState :=
        { satisfyDistanceCheck := chk.1
          adjusted := chk.2.1
          dtTemp := r.dtTemp
          finalTimeTemp := chk.2.2
          tick := tick1
          calls := r.calls ++ [Call.inputPathCheck path r.dtTemp] }
      if chk.1 then some r1
      else spacingLoop W input life { r1 with dtTemp := r.dtTemp * 0.8 }

/-- The declarations before a knot-spacing loop (`satisfyDistanceCheck =
false`, empty adjusted path, `dtTemp = initTs`, `finalTimeTemp`
uninitialised) followed by the loop. -/
def runSpacing (W : World) (calls : List Call) (input : ℚ → Nat → Option (Path × Nat)) :
    Option SpacingState :=
  spacingLoop W input W.rosOkCount
    { satisfyDistanceCheck := false
      adjusted := []
      dtTemp := W.getInitTs
      finalTimeTemp := W.uninitDouble
      tick := 0
      calls := calls }

/-- Locals of dynamicNavigation::plannerCB when control reaches
`this->inputTrajMsg_ = inputTraj`. -/
structure PlanInput where
  state : dynamicNavigation
  inputTraj : Path
  startEndCondition : List Vector3d
  dt : ℚ
  tick : Nat

/-- State after `polyTraj_->updatePath(waypoints, conditions)` and
`polyTraj_->makePlan(false)`. -/
def planPoly (W : World) (s : dynamicNavigation) (waypoints : Path)
    (conditions : List Vector3d) : dynamicNavigation :=
  { s with
    polyTraj_ := W.polyPlan waypoints conditions
    calls := s.calls ++ [Call.polyUpdatePath waypoints conditions, Call.polyMakePlan] }

/-- Input path of the combined loop: the residual samples followed by the
polynomial samples from index 1 on. -/
def combinedInput (W : World) (s : dynamicNavigation) (poly : polyTraj) (dt : ℚ)
    (tick : Nat) : Option (Path × Nat) :=
  match getCurrentTraj W s dt tick with
  | none => none
  | some (inputRestTraj, tick1) =>
    some (inputRestTraj ++ (poly.getTrajectory dt).drop 1, tick1)

/-- The assignments after a knot-spacing loop that sampled a polynomial:
`dt = dtTemp`, `inputTraj = adjusted`, `finalTime = finalTimeTemp - offset`,
`startEndCondition[2] = getVel(finalTime)`,
`startEndCondition[3] = getAcc(finalTime)`. -/
def closeWithPoly (s : dynamicNavigation) (poly : polyTraj) (offset : ℚ)
    (startEndCondition : List Vector3d) (r : SpacingState) : PlanInput :=
  let finalTime := r.finalTimeTemp - offset
  { state := { s with calls := r.calls }
    inputTraj := r.adjusted
    startEndCondition :=
      (startEndCondition.set 2 (poly.getVel finalTime)).set 3 (poly.getAcc finalTime)
    dt := r.dtTemp
    tick := r.tick }

/-- First part of dynamicNavigation::plannerCB, entered with `replan_` set:
the construction of the input path and of the boundary conditions. -/
def plannerInput (W : World) (s : dynamicNavigation) : Option PlanInput :=
  let startEndCondition := getStartEndCondition s []
  if !s.trajectoryReady_ then
    let waypoints : Path := [s.odom_, s.goal_]
    let s1 := planPoly W s waypoints startEndCondition
    match runSpacing W s1.calls
        (fun dt tick => some (s1.polyTraj_.getTrajectory dt, tick)) with
    | none => none
    | some r => some (closeWithPoly s1 s1.polyTraj_ 0 startEndCondition r)
  else
    let bsplineLastPos := s.trajectory_.atTime s.trajectory_.getDuration
    let lastPs := poseAt bsplineLastPos
    let goalPos := s.goal_.position
    if W.norm (Vector3d.sub bsplineLastPos goalPos) ≥ 0.2 then
      let waypoints : Path := [lastPs, s.goal_]
      let polyStartVel := s.trajectory_.derivativeAt s.trajectory_.getDuration
      let polyEndVel := Vector3d.zero
      let polyStartAcc := s.trajectory_.derivative2At s.trajectory_.getDuration
      let polyEndAcc := Vector3d.zero
      let polyStartEndCondition := [polyStartVel, polyEndVel, polyStartAcc, polyEndAcc]
      let s1 := planPoly W s waypoints polyStartEndCondition
      match runSpacing W s1.calls (combinedInput W s1 s1.polyTraj_) with
      | none => none
      | some r =>
        some (closeWithPoly s1 s1.polyTraj_ s.trajectory_.getDuration
          startEndCondition r)
    else
      match runSpacing W s.calls (getCurrentTraj W s) with
      | none => none
      | some r =>
        some ⟨{ s with calls := r.calls }, r.adjusted, startEndCondition, r.dtTemp, r.tick⟩

/-- State after `this->inputTrajMsg_ = inputTraj` and
`bsplineTraj_->updatePath(inputTraj, startEndCondition, dt)`. -/
def bindInput (i : PlanInput) : dynamicNavigation :=
  { i.state with
    inputTrajMsg_ := i.inputTraj
    bsplineTraj_ := { i.state.bsplineTraj_ with
      inputPath := i.inputTraj
      startEndConditions := i.startEndCondition
      ts := some i.dt
      obstaclesPos := (i.state.bsplineTraj_.updatePathObstacles
        i.state.bsplineTraj_.obstaclesPos i.state.bsplineTraj_.obstaclesVel
        i.state.bsplineTraj_.obstaclesSize).1
      obstaclesVel := (i.state.bsplineTraj_.updatePathObstacles
        i.state.bsplineTraj_.obstaclesPos i.state.bsplineTraj_.obstaclesVel
        i.state.bsplineTraj_.obstaclesSize).2.1
      obstaclesSize := (i.state.bsplineTraj_.updatePathObstacles
        i.state.bsplineTraj_.obstaclesPos i.state.bsplineTraj_.obstaclesVel
        i.state.bsplineTraj_.obstaclesSize).2.2 }
    calls := i.state.calls ++
      [Call.bsplineUpdatePath i.inputTraj i.startEndCondition (some i.dt)] }

/-- State after the obstacle hand-over that follows a successful
`updatePath`: `getDynamicObstacles` fills three fresh vectors, and
`bsplineTraj_->updateDynamicObstacles` is called only when the position
vector is not empty. -/
def pushObstacles (W : World) (s : dynamicNavigation) : dynamicNavigation :=
  let obs := getDynamicObstacles W [] [] []
  if obs.1.length ≠ 0 then
    { s with
      bsplineTraj_ := { s.bsplineTraj_ with
        obstaclesPos := obs.1
        obstaclesVel := obs.2.1
        obstaclesSize := obs.2.2 }
      calls := s.calls ++ [Call.updateDynamicObstacles obs.1 obs.2.1 obs.2.2] }
  else s

/-- State after `bsplineTraj_->makePlan(bsplineTrajMsgTemp)`: the optimizer
holds the spline and linear factor of this attempt. -/
def storePlan (s : dynamicNavigation) (plan : Bool × Path × bspline × ℚ) :
    dynamicNavigation :=
  { s with
    bsplineTraj_ := { s.bsplineTraj_ with
      trajectory := plan.2.2.1
      linearFactor := plan.2.2.2 }
    calls := s.calls ++ [Call.bsplineMakePlan] }

/-- The assignments of the `planSuccess` branch. -/
def acceptPlan (s : dynamicNavigation) (bsplineTrajMsgTemp : Path) (now : ℚ) :
    dynamicNavigation :=
  { s with
    bsplineTrajMsg_ := bsplineTrajMsgTemp
    trajStartTime_ := now
    trajectory_ := s.bsplineTraj_.trajectory
    trajectoryReady_ := true
    replan_ := false }

/-- The branch taken when `makePlan` fails. -/
def rejectPlan (W : World) (s : dynamicNavigation) : dynamicNavigation :=
  if hasCollision W s then
    { s with
      trajectoryReady_ := false
      calls := s.calls ++ [Call.hasCollision, Call.stop] }
  else
    { s with
      replan_ := false
      calls := s.calls ++ [Call.hasCollision] }

/-- Second part of dynamicNavigation::plannerCB, from
`this->inputTrajMsg_ = inputTraj` to the end. -/
def plannerFinish (W : World) (i : PlanInput) : dynamicNavigation :=
  let updateSuccess := W.updatePath i.inputTraj i.startEndCondition (some i.dt)
  if updateSuccess then
    let s := pushObstacles W (bindInput i)
    let plan := W.makePlan s.bsplineTraj_
    let planSuccess := plan.1
    if planSuccess then
      acceptPlan (storePlan s plan) plan.2.1 (W.now i.tick)
    else rejectPlan W (storePlan s plan)
  else bindInput i

/-- dynamicNavigation::plannerCB; `none` when the invocation does not return
because a sampling loop never ends. The block
`if (useGlobalPlanner_) { if (goalReceived_) { } }` of the source is empty
and has no counterpart here. -/
def plannerCB (W : World) (s : dynamicNavigation) : Option dynamicNavigation :=
  if !s.firstGoal_ then some s
  else if s.replan_ then
    match plannerInput W s with
    | none => none
    | some i => some (plannerFinish W i)
  else some s

end dynamicNavigation

/-! ## Trajectory executors and state estimator -/

namespace navigation

/-- The target built by navigation::trajExeCB once `trajTime_` has been
updated: position, velocity and acceleration sampled at `trajTime_`, the
yaw choice, and the zeroing near and after the terminal time. -/
def exeTarget (W : World) (s : navigation) : Target :=
  let linearReparamFactor := s.bsplineTraj_.linearFactor
  let pos := s.trajectory_.atTime s.trajTime_
  let vel := (s.trajectory_.derivativeAt s.trajTime_).smul linearReparamFactor
  let acc := (s.trajectory_.derivative2At s.trajTime_).smul (linearReparamFactor ^ 2)
  let yaw :=
    if s.noYawTurning_ || !s.useYawControl_ then W.rpy_from_quaternion s.odom_.orientation
    else W.atan2 vel.y vel.x
  if |s.trajTime_ - s.trajectory_.getDuration| ≤ 0.3 ∨
      s.trajTime_ > s.trajectory_.getDuration then
    { position := pos
      velocity := vel.smul 0
      acceleration := acc.smul 0
      yaw := W.rpy_from_quaternion s.odom_.orientation }
  else
    { position := pos, velocity := vel, acceleration := acc, yaw := yaw }

/-- The assignment `trajTime_ = bsplineTraj_->getLinearReparamTime(now -
trajStartTime_)` of navigation::trajExeCB. -/
def exeTime (W : World) (s : navigation) : navigation :=
  { s with trajTime_ := W.getLinearReparamTime s.bsplineTraj_ (W.now 0 - s.trajStartTime_) }

/-- navigation::trajExeCB. -/
def trajExeCB (W : World) (s : navigation) : navigation :=
  if s.trajectoryReady_ then
    { exeTime W s with
      calls := s.calls ++ [Call.updateTargetWithState (exeTarget W (exeTime W s))] }
  else s

end navigation

namespace dynamicNavigation

/-- The target built by dynamicNavigation::trajExeCB once `trajTime_` has
been updated. -/
def exeTarget (W : World) (s : dynamicNavigation) : Target :=
  let pos := s.trajectory_.atTime s.trajTime_
  let vel := s.trajectory_.derivativeAt s.trajTime_
  let acc := s.trajectory_.derivative2At s.trajTime_
  { position := pos
    velocity := vel
    acceleration := acc
    yaw :=
      if !s.useYawControl_ then W.rpy_from_quaternion s.odom_.orientation
      else W.atan2 vel.y vel.x }

/-- The assignment `trajTime_ = (now - trajStartTime_).toSec()` of
dynamicNavigation::trajExeCB. -/
def exeTime (W : World) (s : dynamicNavigation) : dynamicNavigation :=
  { s with trajTime_ := W.now 0 - s.trajStartTime_ }

/-- dynamicNavigation::trajExeCB. -/
def trajExeCB (W : World) (s : dynamicNavigation) : dynamicNavigation :=
  if s.trajectoryReady_ then
    { exeTime W s with
      calls := s.calls ++ [Call.updateTargetWithState (exeTarget W (exeTime W s))] }
  else s

/-- dynamicNavigation::stateUpdateCB. -/
def stateUpdateCB (W : World) (s : dynamicNavigation) : dynamicNavigation :=
  let currVelBody := s.odomTwistLinear_
  let orientationRot := W.quat2RotMatrix s.odom_.orientation
  let currVel := orientationRot.mulVec currVelBody
  let currTime := W.now 0
  if s.stateUpdateFirstTime_ then
    { s with
      currVel_ := currVel
      currAcc_ := Vector3d.zero
      prevStateTime_ := currTime
      stateUpdateFirstTime_ := false }
  else
    let dt := currTime - s.prevStateTime_
    { s with
      currVel_ := currVel
      currAcc_ := (Vector3d.sub currVel s.prevVel_).sdiv dt
      prevVel_ := currVel
      prevStateTime_ := currTime }

end dynamicNavigation

/-! ## Concrete worlds and states

Small instances on which the theorems below are applied. All points lie on
the x axis, where the sum of the absolute coordinates is the Euclidean
norm. -/

/-- A spline flying along the x axis at unit speed for one second. -/
def demoSpline : bspline :=
  { atTime := fun t => ⟨t, 0, 0⟩
    derivativeAt := fun _ => ⟨1, 0, 0⟩
    derivative2At := fun _ => Vector3d.zero
    getDuration := 1 }

/-- A polynomial with two samples, velocity `(2,0,0)` and acceleration
`(3,0,0)` at every time. -/
def demoPoly : polyTraj :=
  { getTrajectory := fun _ => [poseAt ⟨1, 0, 0⟩, poseAt ⟨5, 0, 0⟩]
    getVel := fun _ => ⟨2, 0, 0⟩
    getAcc := fun _ => ⟨3, 0, 0⟩
    planMsg := [] }

/-- An optimizer object with nothing bound, whose `updatePath` leaves a
bound obstacle set in place. -/
def demoOptimizer : bsplineTraj :=
  { inputPath := []
    startEndConditions := []
    ts := none
    obstaclesPos := []
    obstaclesVel := []
    obstaclesSize := []
    trajectory := demoSpline
    linearFactor := 1
    updatePathObstacles := fun pos vel size => (pos, vel, size) }

/-- A world whose spacing check, `updatePath` and `makePlan` answer
`checkOk`, `updateOk` and `planOk`, whose map is occupied everywhere or
nowhere, and whose detector sees the given obstacles. -/
def demoWorld (checkOk updateOk planOk occupied : Bool) (obstacles : List Obstacle) :
    World :=
  { rosOkCount := 3
    now := fun n => (n : ℚ) / 100
    uninitDouble := 0
    norm := fun v => |v.x| + |v.y| + |v.z|
    atan2 := fun _ _ => 0
    angleBetweenVectors := fun _ _ => 0
    PI_const := 355 / 113
    isInflatedOccupied := fun _ => occupied
    getObstaclesInSensorRange := fun _ => obstacles
    rrtMakePlan := fun start goal => [start, goal]
    polyPlan := fun _ _ => demoPoly
    getInitTs := 1 / 2
    inputPathCheck := fun path _ dt _ => (checkOk, path, dt)
    updatePath := fun _ _ _ => updateOk
    makePlan := fun b => (planOk, b.inputPath, demoSpline, 1)
    getLinearReparamTime := fun b t => b.linearFactor * t
    rpy_from_quaternion := fun q => q.z
    quat2RotMatrix := fun _ => ⟨⟨1, 0, 0⟩, ⟨0, 1, 0⟩, ⟨0, 0, 1⟩⟩ }

/-- A static-navigator state at the origin with the goal at `(5,0,0)`, the
three policy flags as given and the first goal already received. -/
def demoNav (goalReceived replan trajectoryReady : Bool) : navigation :=
  { useGlobalPlanner_ := false
    noYawTurning_ := false
    useYawControl_ := false
    desiredVel_ := 1
    desiredAcc_ := 1
    desiredAngularVel_ := 1
    odom_ := poseAt ⟨0, 0, 0⟩
    goal_ := poseAt ⟨5, 0, 0⟩
    firstGoal_ := true
    goalReceived_ := goalReceived
    replan_ := replan
    trajectoryReady_ := trajectoryReady
    needGlobalPlan_ := false
    globalPlanReady_ := false
    firstTimeSave_ := false
    currVel_ := ⟨1, 0, 0⟩
    currAcc_ := ⟨4, 0, 0⟩
    trajectory_ := demoSpline
    trajStartTime_ := 0
    trajTime_ := 0
    rrtPathMsg_ := []
    polyTrajMsg_ := []
    bsplineTrajMsg_ := []
    inputTrajMsg_ := []
    polyTraj_ := demoPoly
    bsplineTraj_ := demoOptimizer
    calls := [] }

/-- A dynamic-navigator state at the origin with the goal at `(5,0,0)`, the
three policy flags as given and the first goal already received. -/
def demoDyn (goalReceived replan trajectoryReady : Bool) : dynamicNavigation :=
  { useGlobalPlanner_ := false
    useYawControl_ := false
    desiredVel_ := 1
    desiredAcc_ := 1
    desiredAngularVel_ := 1
    odom_ := poseAt ⟨0, 0, 0⟩
    odomTwistLinear_ := ⟨1, 0, 0⟩
    goal_ := poseAt ⟨5, 0, 0⟩
    firstGoal_ := true
    goalReceived_ := goalReceived
    replan_ := replan
    trajectoryReady_ := trajectoryReady
    stateUpdateFirstTime_ := false
    currVel_ := ⟨1, 0, 0⟩
    currAcc_ := ⟨4, 0, 0⟩
    prevVel_ := ⟨1, 0, 0⟩
    prevStateTime_ := 0
    trajectory_ := demoSpline
    trajStartTime_ := 0
    trajTime_ := 0
    rrtPathMsg_ := []
    polyTrajMsg_ := []
    bsplineTrajMsg_ := []
    inputTrajMsg_ := []
    polyTraj_ := demoPoly
    bsplineTraj_ := demoOptimizer
    calls := [] }

/-- An obstacle one metre ahead on the x axis. -/
def demoObstacle : Obstacle := ⟨1, 0, 0, 0, 0, 0, 1, 1, 1⟩

/-- A dynamic-navigator state already within 0.2 of its goal, with a
trajectory ready. -/
def demoDynAtGoal : dynamicNavigation :=
  { demoDyn false true true with odom_ := poseAt ⟨5, 0, 0⟩ }

/-- The locals of the static `plannerCB` at `updatePath` when it starts from
`demoNav false true false` in a world whose first spacing check succeeds. -/
def demoNavInput : navigation.PlanInput :=
  { state := { demoNav false true false with
      polyTraj_ := demoPoly
      calls := [Call.polyUpdatePath [poseAt ⟨0, 0, 0⟩, poseAt ⟨5, 0, 0⟩]
          [⟨1, 0, 0⟩, Vector3d.zero, ⟨4, 0, 0⟩, Vector3d.zero], Call.polyMakePlan,
        Call.inputPathCheck [poseAt ⟨1, 0, 0⟩, poseAt ⟨5, 0, 0⟩] (1 / 2)] }
    inputTraj := [poseAt ⟨1, 0, 0⟩, poseAt ⟨5, 0, 0⟩]
    startEndConditions := [⟨1, 0, 0⟩, ⟨2, 0, 0⟩, ⟨4, 0, 0⟩, ⟨3, 0, 0⟩]
    tick := 2 }

/-- The locals of the dynamic `plannerCB` at `updatePath` when it starts
from `demoDyn false true false` in a world whose first spacing check
succeeds. -/
def demoDynInput : dynamicNavigation.PlanInput :=
  { state := { demoDyn false true false with
      polyTraj_ := demoPoly
      calls := [Call.polyUpdatePath [poseAt ⟨0, 0, 0⟩, poseAt ⟨5, 0, 0⟩]
          [Vector3d.zero, Vector3d.zero, Vector3d.zero, Vector3d.zero], Call.polyMakePlan,
        Call.inputPathCheck [poseAt ⟨1, 0, 0⟩, poseAt ⟨5, 0, 0⟩] (1 / 2)] }
    inputTraj := [poseAt ⟨1, 0, 0⟩, poseAt ⟨5, 0, 0⟩]
    startEndCondition := [Vector3d.zero, Vector3d.zero, ⟨2, 0, 0⟩, ⟨3, 0, 0⟩]
    dt := 1 / 2
    tick := 0 }

/-! ## Fields the input construction leaves alone -/

/-- The flags and the active-trajectory record agree in two static
navigator states. -/
def navigation.sameFlight (s t : navigation) : Prop :=
  t.firstGoal_ = s.firstGoal_ ∧ t.goalReceived_ = s.goalReceived_ ∧
  t.replan_ = s.replan_ ∧ t.trajectoryReady_ = s.trajectoryReady_ ∧
  t.trajectory_ = s.trajectory_ ∧ t.trajStartTime_ = s.trajStartTime_ ∧
  t.trajTime_ = s.trajTime_

/-- The flags and the active-trajectory record agree in two dynamic
navigator states. -/
def dynamicNavigation.sameFlight (s t : dynamicNavigation) : Prop :=
  t.firstGoal_ = s.firstGoal_ ∧ t.goalReceived_ = s.goalReceived_ ∧
  t.replan_ = s.replan_ ∧ t.trajectoryReady_ = s.trajectoryReady_ ∧
  t.trajectory_ = s.trajectory_ ∧ t.trajStartTime_ = s.trajStartTime_ ∧
  t.trajTime_ = s.trajTime_

/-- Calls of `moveToOrientation`. -/
def Call.isMoveToOrientation : Call → Bool
  | Call.moveToOrientation _ _ => true
  | _ => false

/-- The demo world with every collaborator succeeding, a free map, no
obstacle in view, and a clock that reads `t` at every call. -/
def demoWorldAt (t : ℚ) : World :=
  { demoWorld true true true false [] with now := fun _ => t }

/-- A static navigator flying `demoSpline` whose plan started one second
before time zero. -/
def demoNavNearEnd : navigation :=
  { demoNav false false true with trajStartTime_ := -1 }

/-- A dynamic navigator before its first state update: body velocity
`(1,0,0)`, and `prevVel_` still at its initial value `(0,0,0)`. -/
def demoDynFresh : dynamicNavigation :=
  { demoDyn false false false with
    stateUpdateFirstTime_ := true
    odomTwistLinear_ := ⟨1, 0, 0⟩
    currVel_ := Vector3d.zero
    currAcc_ := Vector3d.zero
    prevVel_ := Vector3d.zero }

/-- A static navigator flying `demoSpline` with the vehicle exactly at its
goal `(5,0,0)` and no replan pending. -/
def demoNavAtGoal : navigation :=
  { demoNav false false true with odom_ := poseAt ⟨5, 0, 0⟩ }

/-- Calls of the spacing check `inputPathCheck`. -/
def Call.isInputPathCheck : Call → Bool
  | Call.inputPathCheck _ _ => true
  | _ => false

/-- A static navigator that has just accepted a goal coincident with its
current position, the origin. -/
def demoNavCoincident : navigation :=
  { demoNav true false false with goal_ := poseAt ⟨0, 0, 0⟩ }

/-- A dynamic navigator that has just accepted a goal coincident with its
current position, the origin. -/
def demoDynCoincident : dynamicNavigation :=
  { demoDyn true false false with goal_ := poseAt ⟨0, 0, 0⟩ }

/-- The demo world with every collaborator succeeding, whose clock advances
by 0.06 s between two consecutive readings. -/
def demoWorldSlow : World :=
  { demoWorld true true true false [] with now := fun n => (n : ℚ) * 0.06 }

/-- A static navigator flying `demoSpline` with a replan pending, whose
goal `(6/5,0,0)` is exactly 0.2 away from the terminal point `(1,0,0)`. -/
def demoNavBoundary : navigation :=
  { demoNav false true true with goal_ := poseAt ⟨6 / 5, 0, 0⟩ }

/-- A dynamic navigator flying `demoSpline` with a replan pending, whose
goal `(6/5,0,0)` is exactly 0.2 away from the terminal point `(1,0,0)`. -/
def demoDynBoundary : dynamicNavigation :=
  { demoDyn false true true with goal_ := poseAt ⟨6 / 5, 0, 0⟩ }

/-- The guard of the search loop of `getRestGlobalPath` at vertex `i`:
`angleBetweenVectors(p[i+1] - p[i], pCurr - p[i]) > PI_const*3.0/4.0`. -/
def navigation.restGuard (W : World) (poses : Path) (pCurr : Vector3d) (i : Nat) : Prop :=
  W.angleBetweenVectors
    (Vector3d.sub (poses.getD (i + 1) (poseAt Vector3d.zero)).position
      (poses.getD i (poseAt Vector3d.zero)).position)
    (Vector3d.sub pCurr (poses.getD i (poseAt Vector3d.zero)).position)
    > W.PI_const * 3.0 / 4.0

/-- The distance `(p[i] - pCurr).norm()` computed by the search loop of
`getRestGlobalPath` at vertex `i`. -/
def navigation.restDist (W : World) (poses : Path) (pCurr : Vector3d) (i : Nat) : ℚ :=
  W.norm (Vector3d.sub (poses.getD i (poseAt Vector3d.zero)).position pCurr)

/-- A world in which the angle between two vectors is reported as more
than 135 degrees exactly when their x components have opposite signs. -/
def demoWorldAngles : World :=
  { demoWorld true true true false [] with
    angleBetweenVectors := fun a b => if a.x * b.x < 0 then 3 else 0 }

/-- A static navigator at `(3/2,0,0)` holding the global plan
`(0,0,0), (1,0,0), (2,0,0), (3,0,0)`. -/
def demoNavOnPath : navigation :=
  { demoNav false true false with
    useGlobalPlanner_ := true
    globalPlanReady_ := true
    odom_ := poseAt ⟨3 / 2, 0, 0⟩
    rrtPathMsg_ := [poseAt ⟨0, 0, 0⟩, poseAt ⟨1, 0, 0⟩, poseAt ⟨2, 0, 0⟩, poseAt ⟨3, 0, 0⟩] }

/-- Calls of the RRT planner `rrtPlanner_->makePlan`. -/
def Call.isRrtMakePlan : Call → Bool
  | Call.rrtMakePlan _ _ => true
  | _ => false

namespace navigation

/-- One event on the static navigator: a firing of one of its three timers
in the world that answers it, or a write of the subscribers of `flightBase`
to the members they own (odometry pose, goal, `firstGoal_`,
`goalReceived_`), which may leave any values there. -/
inductive Event where
  | plannerCB (W : World)
  | replanCheckCB (W : World)
  | trajExeCB (W : World)
  | subscribers (odom goal : Pose) (firstGoal goalReceived : Bool)

/-- The state after one event; `none` when the planner callback does not
return. -/
def step (s : navigation) : Event → Option navigation
  | Event.plannerCB W => plannerCB W s
  | Event.replanCheckCB W => some (replanCheckCB W s)
  | Event.trajExeCB W => some (trajExeCB W s)
  | Event.subscribers odom goal firstGoal goalReceived =>
    some { s with
      odom_ := odom
      goal_ := goal
      firstGoal_ := firstGoal
      goalReceived_ := goalReceived }

/-- The state after a sequence of events. -/
def run : navigation → List Event → Option navigation
  | s, [] => some s
  | s, e :: es =>
    match step s e with
    | none => none
    | some s1 => run s1 es

/-- A new-goal step: a firing of `replanCheckCB` that finds `goalReceived_`
set. -/
def isNewGoalStep (s : navigation) : Event → Bool
  | Event.replanCheckCB _ => s.goalReceived_
  | _ => false

/-- No event of the sequence, run from `s`, is a new-goal step. -/
def noNewGoalStep : navigation → List Event → Bool
  | _, [] => true
  | s, e :: es =>
    !isNewGoalStep s e &&
      match step s e with
      | none => true
      | some s1 => noNewGoalStep s1 es

/-- Number of RRT planner calls logged so far. -/
def rrtCalls (s : navigation) : Nat := s.calls.countP Call.isRrtMakePlan

end navigation

/-- A static navigator with the global planner on that has just run its
new-goal step. -/
def demoNavNewGoal : navigation :=
  { demoNav false true false with
    useGlobalPlanner_ := true
    needGlobalPlan_ := true }

/-- A world whose RRT planner fails: it returns an empty path. -/
def demoWorldNoRrt : World :=
  { demoWorld true true true false [] with rrtMakePlan := fun _ _ => [] }

/-- The world of `demoWorldNoRrt` with an optimizer that refuses every
input path, so that `replan_` stays set. -/
def demoWorldNoRrtNoUpdate : World :=
  { demoWorld true false true false [] with rrtMakePlan := fun _ _ => [] }

/-- Limits handed to the trajectory planners by `initModules`: the
arguments of `polyTraj_->updateDesiredVel`, `polyTraj_->updateDesiredAcc`,
`bsplineTraj_->updateMaxVel` and `bsplineTraj_->updateMaxAcc`. -/
structure PlannerLimits where
  updateDesiredVel : ℚ
  updateDesiredAcc : ℚ
  updateMaxVel : ℚ
  updateMaxAcc : ℚ
deriving DecidableEq

/-- navigation::initModules, as far as the planner limits go. -/
def navigation.initModules (s : navigation) : PlannerLimits :=
  { updateDesiredVel := s.desiredVel_
    updateDesiredAcc := s.desiredVel_
    updateMaxVel := s.desiredVel_
    updateMaxAcc := s.desiredAcc_ }

/-- dynamicNavigation::initModules, as far as the planner limits go. -/
def dynamicNavigation.initModules (s : dynamicNavigation) : PlannerLimits :=
  { updateDesiredVel := s.desiredVel_
    updateDesiredAcc := s.desiredAcc_
    updateMaxVel := s.desiredVel_
    updateMaxAcc := s.desiredAcc_ }

/-- A static navigator configured with desired velocity 1 and desired
acceleration 2. -/
def demoNavLimits : navigation :=
  { demoNav false false false with desiredVel_ := 1, desiredAcc_ := 2 }

/-- The divisor `dt = (currTime - prevStateTime_).toSec()` of the
acceleration estimate of dynamicNavigation::stateUpdateCB. -/
def dynamicNavigation.stateUpdateDt (W : World) (s : dynamicNavigation) : ℚ :=
  W.now 0 - s.prevStateTime_

/-- The value of a 32-bit two's-complement `int` an integer wraps to. -/
def toInt32 (x : Int) : Int := (x + 2 ^ 31) % 2 ^ 32 - 2 ^ 31

/-- Members of struct `trajData`; a stamped pose is represented by its
pose. -/
structure trajData where
  /-- `trajectory.poses` -/
  trajectory : Path
  /-- `currTrajectory.poses` -/
  currTrajectory : Path
  startTime : ℚ
  tCurr : ℚ
  duration : ℚ
  timestep : ℚ
  init : Bool
  forwardIdx : Int
  minIdx : Int

namespace trajData

/-- trajData::getCurrIdx: the index returned and the state with `tCurr`
updated. -/
def getCurrIdx (W : World) (d : trajData) : Int × trajData :=
  let currTime := W.now 0
  let tCurr := (currTime - d.startTime) + d.timestep
  let tCurr := if tCurr > d.duration then d.duration else tCurr
  let idx := toInt32 ⌊tCurr / d.timestep⌋
  (idx, { d with tCurr := tCurr })

/-- The local `idx` after `idx = std::max(idx+forwardIdx, minIdx)`. -/
def aheadIdx (d : trajData) (idx : Int) : Int :=
  max (toInt32 (idx + d.forwardIdx)) d.minIdx

/-- The local `newIdx = std::min(idx, int(trajectory.poses.size()-1))`. -/
def newIdx (d : trajData) (idx : Int) : Int :=
  min idx (toInt32 ((d.trajectory.length : Int) - 1))

/-- The poses pushed by `for (size_t i=idx; i<trajectory.poses.size(); ++i)`;
a negative `idx` converts to a `size_t` beyond every size. -/
def restFrom (d : trajData) (idx : Int) : Path :=
  if idx < 0 then [] else d.trajectory.drop idx.toNat

/-- The read `trajectory.poses[newIdx]`; `none` outside the vector. -/
def poseAtIdx (d : trajData) (newIdx : Int) : Option Pose :=
  if newIdx < 0 then none else d.trajectory.get? newIdx.toNat

/-- trajData::getPose(): the pose returned and the state left. -/
def getPose (W : World) (d : trajData) : Option (Pose × trajData) :=
  let d1 := (getCurrIdx W d).2
  let idx := aheadIdx d1 (getCurrIdx W d).1
  let newIdx := newIdx d1 idx
  let pathVec := restFrom d1 idx
  match poseAtIdx d1 newIdx with
  | none => none
  | some ps => some (ps, { d1 with currTrajectory := pathVec })

/-- trajData::getPose(psCurr): the pose returned and the state left. -/
def getPoseCurr (W : World) (d : trajData) (psCurr : Pose) : Option (Pose × trajData) :=
  let d1 := (getCurrIdx W d).2
  let idx := aheadIdx d1 (getCurrIdx W d).1
  let newIdx := newIdx d1 idx
  let psFirst := psCurr
  let pathVec := psFirst :: restFrom d1 idx
  match poseAtIdx d1 newIdx with
  | none => none
  | some ps => some (ps, { d1 with currTrajectory := pathVec })

/-- trajData::getPoseWithoutYaw(psCurr): the target returned and the state
left. -/
def getPoseWithoutYaw (W : World) (d : trajData) (psCurr : Pose) :
    Option (Pose × trajData) :=
  let d1 := (getCurrIdx W d).2
  let idx := aheadIdx d1 (getCurrIdx W d).1
  let newIdx := newIdx d1 idx
  let psFirst := psCurr
  let pathVec := psFirst :: restFrom d1 idx
  match poseAtIdx d1 newIdx with
  | none => none
  | some ps =>
    let psTarget := { ps with orientation := psCurr.orientation }
    some (psTarget, { d1 with currTrajectory := pathVec })

end trajData

/-- Trajectory data of ten poses `(0,0,0) .. (9,0,0)` spaced one second
apart, started at time zero. -/
def demoTrajData : trajData :=
  { trajectory :=
      [poseAt ⟨0, 0, 0⟩, poseAt ⟨1, 0, 0⟩, poseAt ⟨2, 0, 0⟩, poseAt ⟨3, 0, 0⟩,
        poseAt ⟨4, 0, 0⟩, poseAt ⟨5, 0, 0⟩, poseAt ⟨6, 0, 0⟩, poseAt ⟨7, 0, 0⟩,
        poseAt ⟨8, 0, 0⟩, poseAt ⟨9, 0, 0⟩]
    currTrajectory := []
    startTime := 0
    tCurr := 0
    duration := 9
    timestep := 1
    init := true
    forwardIdx := 5
    minIdx := 3 }
/-! ## Inspection (`inspection.cpp`) -/

/-- The value of `(int) x` for a `double` x: truncation toward zero,
wrapped to 32 bits. -/
def truncInt (x : ℚ) : Int := toInt32 (if 0 ≤ x then ⌊x⌋ else ⌈x⌉)

/-- Answers of the collaborators of the inspector: the octree `map_`, the
geometry of `octomap::point3d`, `tan`, `ros::ok()`, and the default value of
the second argument of `checkCollision`, which is declared in the class
header. -/
structure InspectionWorld where
  /-- `map_->search(p)`: `none` for NULL, otherwise `isNodeOccupied` of the
  node found -/
  search : Vector3d → Option Bool
  /-- the points `map_->computeRay(p, pCheck, ray)` leaves in `ray` -/
  computeRay : Vector3d → Vector3d → List Vector3d
  /-- `p.distance(q)` -/
  distance : Vector3d → Vector3d → ℚ
  /-- `a.angleTo(b)` -/
  angleTo : Vector3d → Vector3d → ℚ
  /-- `tan(x)` -/
  tan : ℚ → ℚ
  /-- number of `true` answers of `ros::ok()` before shutdown -/
  rosOkCount : Nat
  /-- default of `ignoreUnknown` in `checkCollision(p, ignoreUnknown)` -/
  ignoreUnknownDefault : Bool

/-- Members of class `inspector` read by the functions below. -/
structure inspector where
  mapRes_ : ℚ
  /-- the three entries of `collisionBox_` -/
  collisionBox_ : Vector3d
  safeDist_ : ℚ
  maxTargetWidth_ : ℚ
  sensorRange_ : ℚ
  sensorVerticalAngle_ : ℚ

namespace inspector

/-- The values of `id` in `for (id=0; id<=num; ++id)`. -/
def idsUpTo (num : Int) : List Nat := List.range (num + 1).toNat

/-- The values of `id` in `for (int id=0; id<count; ++id)`. -/
def idsBelow (count : Int) : List Nat := List.range count.toNat

/-- inspector::checkCollisionPoint. -/
def checkCollisionPoint (T : InspectionWorld) (p : Vector3d) (ignoreUnknown : Bool) : Bool :=
  match T.search p with
  | none => if !ignoreUnknown then true else false
  | some occupied => occupied

/-- inspector::checkCollision: the first colliding grid point of the box
around `p` ends the search with `true`. -/
def checkCollision (T : InspectionWorld) (I : inspector) (p : Vector3d)
    (ignoreUnknown : Bool) : Bool :=
  let xmin := p.x - I.collisionBox_.x / 2.0
  let xmax := p.x + I.collisionBox_.x / 2.0
  let ymin := p.y - I.collisionBox_.y / 2.0
  let ymax := p.y + I.collisionBox_.y / 2.0
  let zmin := p.z - I.collisionBox_.z / 2.0
  let zmax := p.z + I.collisionBox_.z / 2.0
  let xNum := truncInt ((xmax - xmin) / I.mapRes_)
  let yNum := truncInt ((ymax - ymin) / I.mapRes_)
  let zNum := truncInt ((zmax - zmin) / I.mapRes_)
  (idsUpTo xNum).any fun (xID : Nat) =>
    (idsUpTo yNum).any fun (yID : Nat) =>
      (idsUpTo zNum).any fun (zID : Nat) =>
        checkCollisionPoint T
          ⟨xmin + (xID : ℚ) * I.mapRes_, ymin + (yID : ℚ) * I.mapRes_,
            zmin + (zID : ℚ) * I.mapRes_⟩ ignoreUnknown

/-- inspector::inSensorRange. -/
def inSensorRange (T : InspectionWorld) (I : inspector) (p pCheck : Vector3d) : Bool :=
  if T.distance p pCheck ≥ I.sensorRange_ then false
  else
    let pCheckRay := Vector3d.sub pCheck p
    let pPlaneRay := { pCheckRay with z := p.z }
    let angleVertical := T.angleTo pCheckRay pPlaneRay
    if angleVertical ≥ I.sensorVerticalAngle_ then false
    else true

/-- The loop of `hasOcclusion` over the ray points, with the `return`
statements of the source. -/
def hasOcclusionLoop (T : InspectionWorld) (I : inspector) : List Vector3d → Bool
  | [] => true
  | pRay :: rest =>
    let hasCollision := checkCollision T I pRay T.ignoreUnknownDefault
    if hasCollision then false
    else hasOcclusionLoop T I rest

/-- inspector::hasOcclusion. -/
def hasOcclusion (T : InspectionWorld) (I : inspector) (p pCheck : Vector3d) : Bool :=
  let ray := T.computeRay p pCheck
  hasOcclusionLoop T I ray

/-- The body of the innermost loop of `evaluateSample` at the grid point
`pCheck`: the new value of `countUnknown`. -/
def countSample (T : InspectionWorld) (I : inspector) (p pCheck : Vector3d)
    (countUnknown : Nat) : Nat :=
  if inSensorRange T I p pCheck then
    match T.search pCheck with
    | none => if !hasOcclusion T I p pCheck then countUnknown + 1 else countUnknown
    | some _ => countUnknown
  else countUnknown

/-- inspector::evaluateSample. -/
def evaluateSample (T : InspectionWorld) (I : inspector) (p : Vector3d) : Nat :=
  let xmin := p.x
  let ymin := p.y - I.sensorRange_
  let zRange := I.sensorRange_ * T.tan I.sensorVerticalAngle_
  let zmin := p.z
  let xCount := toInt32 (truncInt (I.sensorRange_ / I.mapRes_) + 1)
  let yCount := toInt32 (truncInt (2 * I.sensorRange_ / I.mapRes_) + 1)
  let zCount := toInt32 (truncInt (zRange / I.mapRes_) + 1)
  (idsBelow xCount).foldl
    (fun (c : Nat) (xID : Nat) =>
      (idsBelow yCount).foldl
        (fun (c : Nat) (yID : Nat) =>
          (idsBelow zCount).foldl
            (fun (c : Nat) (zID : Nat) =>
              countSample T I p
                ⟨xmin + (xID : ℚ) * I.mapRes_, ymin + (yID : ℚ) * I.mapRes_,
                  zmin + (zID : ℚ) * I.mapRes_⟩ c)
            c)
        c)
    0

/-- A loop `while (ros::ok() and not hasCollision) { pCheck.y() += step;
hasCollision = checkCollision(pCheck, true); }` of `getInspectionLimit`: the
final `pCheck` and `hasCollision`, and the `true` answers of `ros::ok()`
that remain. -/
def limitLoop (T : InspectionWorld) (I : inspector) (step : ℚ) :
    Nat → Vector3d → Bool → Vector3d × Bool × Nat
  | 0, pCheck, hasCollision => (pCheck, hasCollision, 0)
  | life + 1, pCheck, hasCollision =>
    if hasCollision then (pCheck, hasCollision, life)
    else
      let pCheck1 := { pCheck with y := pCheck.y + step }
      limitLoop T I step life pCheck1 (checkCollision T I pCheck1 true)

/-- Locals of `getInspectionLimit` at its `return` statement. -/
structure LimitLocals where
  limitVec : List Vector3d
  pLimitPlus : Vector3d
  pLimitMinus : Vector3d

/-- The body of inspector::getInspectionLimit up to the `return`. -/
def inspectionLimitLocals (T : InspectionWorld) (I : inspector) (p : Vector3d) :
    LimitLocals :=
  let res := I.mapRes_
  let plus := limitLoop T I res T.rosOkCount p false
  let pLimitPlus := { plus.1 with y := plus.1.y - res - I.safeDist_ }
  let minus := limitLoop T I (-res) plus.2.2 p false
  let pLimitMinus := { minus.1 with y := minus.1.y + res + I.safeDist_ }
  let distPlus := T.distance p pLimitPlus
  let distMinus := T.distance p pLimitMinus
  let limitVec :=
    if distPlus ≥ distMinus then [pLimitMinus, pLimitPlus]
    else [pLimitPlus, pLimitMinus]
  let width := |pLimitPlus.y - pLimitMinus.y|
  if width ≥ I.maxTargetWidth_ then
    let diff := width - I.maxTargetWidth_
    { limitVec := limitVec
      pLimitPlus := { pLimitPlus with y := pLimitPlus.y - diff / 2 }
      pLimitMinus := { pLimitMinus with y := pLimitMinus.y + diff / 2 } }
  else
    { limitVec := limitVec, pLimitPlus := pLimitPlus, pLimitMinus := pLimitMinus }

/-- inspector::getInspectionLimit: the vector `limitVec` it returns. -/
def getInspectionLimit (T : InspectionWorld) (I : inspector) (p : Vector3d) :
    List Vector3d :=
  (inspectionLimitLocals T I p).limitVec

end inspector

/-- An inspector with map resolution 1/2, sensor range 1, a point-sized
collision box, safe distance 1/2 and maximal target width 2. -/
def demoInspector : inspector :=
  { mapRes_ := 1 / 2
    collisionBox_ := ⟨0, 0, 0⟩
    safeDist_ := 1 / 2
    maxTargetWidth_ := 2
    sensorRange_ := 1
    sensorVerticalAngle_ := 1 }

/-- A map in which the voxel `(1/2,0,0)` is unknown, the voxel `(1/4,0,0)`
and every voxel with `|y| ≥ 3` is occupied and all others are free; a ray
consists of the midpoint of its two ends; distances are sums of absolute
coordinate differences, which on a coordinate axis is the Euclidean
distance. -/
def demoInspectionWorld : InspectionWorld :=
  { search := fun q =>
      if q.x = 1 / 2 ∧ q.y = 0 ∧ q.z = 0 then none
      else some (decide ((q.x = 1 / 4 ∧ q.y = 0 ∧ q.z = 0) ∨ 3 ≤ |q.y|))
    computeRay := fun a b => [⟨(a.x + b.x) / 2, (a.y + b.y) / 2, (a.z + b.z) / 2⟩]
    distance := fun a b => |a.x - b.x| + |a.y - b.y| + |a.z - b.z|
    angleTo := fun _ _ => 0
    tan := fun _ => 0
    rosOkCount := 20
    ignoreUnknownDefault := false }

/-- The integer nearest to a rational, ties going to the even one. -/
def roundEven (y : ℚ) : ℤ :=
  if y - (⌊y⌋ : ℚ) < 1 / 2 then ⌊y⌋
  else if 1 / 2 < y - (⌊y⌋ : ℚ) then ⌊y⌋ + 1
  else if ⌊y⌋ % 2 = 0 then ⌊y⌋
  else ⌊y⌋ + 1

/-- The binary64 number nearest to a rational: 53 significant bits, round
to nearest, ties to even. The exponent range is not limited, so the value
is that of IEEE 754 wherever no overflow or underflow occurs. -/
def roundDouble (x : ℚ) : ℚ :=
  if x = 0 then 0
  else (roundEven (x / 2 ^ (Int.log 2 |x| - 52)) : ℚ) * 2 ^ (Int.log 2 |x| - 52)

/-- The sum `a + b` of two `double` values. -/
def addDouble (a b : ℚ) : ℚ := roundDouble (a + b)

/-- The `double` literal `0.1`. -/
def doubleTenth : ℚ := roundDouble (1 / 10)

/-- The value of the loop variable of `for (double t = t0; ...; t += 0.1)`
after `k` increments. -/
def loopTime (t0 : ℚ) : Nat → ℚ
  | 0 => t0
  | k + 1 => addDouble (loopTime t0 k) doubleTenth

/-- Loop of `hasCollision` with the loop variable in binary64 arithmetic:
`for (double t = trajTime_; t <= duration; t += 0.1)
if (occupied(at(t))) return true;` followed by `return false`. The first
argument bounds the number of rounds; `none` when the bound is reached
before the loop has ended. -/
def hasCollisionLoopDouble (W : World) (traj : bspline) : Nat → ℚ → Option Bool
  | 0, _ => none
  | n + 1, t =>
    if t ≤ traj.getDuration then
      if W.isInflatedOccupied (traj.atTime t) then some true
      else hasCollisionLoopDouble W traj n (addDouble t doubleTenth)
    else some false

/-- navigation::hasCollision with the loop variable in binary64 arithmetic,
run for at most the given number of rounds. -/
def navigation.hasCollisionDouble (W : World) (s : navigation) (rounds : Nat) :
    Option Bool :=
  if s.trajectoryReady_ then
    hasCollisionLoopDouble W s.trajectory_ rounds s.trajTime_
  else some false

/-- dynamicNavigation::hasCollision with the loop variable in binary64
arithmetic, run for at most the given number of rounds. -/
def dynamicNavigation.hasCollisionDouble (W : World) (s : dynamicNavigation)
    (rounds : Nat) : Option Bool :=
  if s.trajectoryReady_ then
    hasCollisionLoopDouble W s.trajectory_ rounds s.trajTime_
  else some false

/-- A spline flying along the x axis at unit speed for one and a half
seconds. -/
def demoSplineLong : bspline :=
  { atTime := fun t => ⟨t, 0, 0⟩
    derivativeAt := fun _ => ⟨1, 0, 0⟩
    derivative2At := fun _ => Vector3d.zero
    getDuration := 3 / 2 }

/-- A world whose map is inflated-occupied exactly at `x ≥ 29/20`. -/
def demoWorldWall : World :=
  { demoWorld true true true false [] with
    isInflatedOccupied := fun p => decide (29 / 20 ≤ p.x) }

/-- A static navigator one second into `demoSplineLong`. -/
def demoNavWall : navigation :=
  { demoNav false false true with trajectory_ := demoSplineLong, trajTime_ := 1 }

/-- A dynamic navigator one second into `demoSplineLong`. -/
def demoDynWall : dynamicNavigation :=
  { demoDyn false false true with trajectory_ := demoSplineLong, trajTime_ := 1 }

/-! ## The iteration bounds of the sampling loops are never the reason a loop stops -/

/-- The bound `sampleBound t0 T dt` exceeds `(T - t0) / dt`. -/
theorem sampleBound_gt (t0 T dt : ℚ) : (T - t0) / dt < (sampleBound t0 T dt : ℚ) := by
  unfold sampleBound
  have h1 : (T - t0) / dt < (⌊(T - t0) / dt⌋ : ℚ) + 1 := Int.lt_floor_add_one _
  have h2 : (⌊(T - t0) / dt⌋ : ℚ) ≤ ((Int.toNat ⌊(T - t0) / dt⌋ : ℕ) : ℚ) := by
    have h3 : ⌊(T - t0) / dt⌋ ≤ ((Int.toNat ⌊(T - t0) / dt⌋ : ℕ) : ℤ) := Int.self_le_toNat _
    exact_mod_cast h3
  push_cast
  linarith

/-- Once the number of rounds exceeds `(T - t) / 0.1`, one more round does
not change the answer of the collision loop: the loop has stopped on its
own guard `t ≤ T`. -/
theorem hasCollisionLoop_succ (W : World) (traj : bspline) (n : Nat) :
    ∀ t : ℚ, (traj.getDuration - t) / 0.1 < (n : ℚ) →
      hasCollisionLoop W traj (n + 1) t = hasCollisionLoop W traj n t := by
  induction n with
  | zero =>
    intro t h
    have ht : ¬ t ≤ traj.getDuration := by
      intro hle
      have : (0 : ℚ) ≤ (traj.getDuration - t) / 0.1 := by
        apply div_nonneg
        · linarith
        · norm_num
      simp only [Nat.cast_zero] at h
      linarith
    simp [hasCollisionLoop, ht]
  | succ n ih =>
    intro t h
    have hstep : (traj.getDuration - (t + 0.1)) / 0.1 < (n : ℚ) := by
      have : (traj.getDuration - (t + 0.1)) / 0.1 = (traj.getDuration - t) / 0.1 - 1 := by
        field_simp
        ring
      rw [this]
      push_cast at h
      linarith
    have := ih (t + 0.1) hstep
    rw [hasCollisionLoop, this]
    conv_rhs => rw [hasCollisionLoop]

/-- The collision loop gives the same answer for every number of rounds at
least `sampleBound`: its answer is that of the unbounded `for` loop. -/
theorem hasCollisionLoop_bound (W : World) (traj : bspline) (t : ℚ) (k : Nat) :
    hasCollisionLoop W traj (sampleBound t traj.getDuration 0.1 + k) t =
      hasCollisionLoop W traj (sampleBound t traj.getDuration 0.1) t := by
  induction k with
  | zero => rfl
  | succ k ih =>
    rw [← ih, ← Nat.add_assoc]
    apply hasCollisionLoop_succ
    have := sampleBound_gt t traj.getDuration 0.1
    push_cast
    have hk : (0 : ℚ) ≤ (k : ℚ) := Nat.cast_nonneg k
    linarith

/-- Once the number of rounds exceeds `(trajTime - t) / 0.1`, one more round
does not change the result of the execution-distance loop. -/
theorem executionDistanceLoop_succ (W : World) (traj : bspline) (trajTime : ℚ) (n : Nat) :
    ∀ (t : ℚ) (firstTime : Bool) (prevP : Vector3d) (total : ℚ),
      (trajTime - t) / 0.1 < (n : ℚ) →
      executionDistanceLoop W traj trajTime (n + 1) t firstTime prevP total =
        executionDistanceLoop W traj trajTime n t firstTime prevP total := by
  induction n with
  | zero =>
    intro t firstTime prevP total h
    have ht : ¬ t ≤ trajTime := by
      intro hle
      have : (0 : ℚ) ≤ (trajTime - t) / 0.1 := by
        apply div_nonneg
        · linarith
        · norm_num
      simp only [Nat.cast_zero] at h
      linarith
    simp [executionDistanceLoop, ht]
  | succ n ih =>
    intro t firstTime prevP total h
    have hstep : (trajTime - (t + 0.1)) / 0.1 < (n : ℚ) := by
      have : (trajTime - (t + 0.1)) / 0.1 = (trajTime - t) / 0.1 - 1 := by
        field_simp
        ring
      rw [this]
      push_cast at h
      linarith
    rw [executionDistanceLoop]
    conv_rhs => rw [executionDistanceLoop]
    simp only [ih (t + 0.1) _ _ _ hstep]

/-- The execution-distance loop gives the same result for every number of
rounds at least `sampleBound`. -/
theorem executionDistanceLoop_bound (W : World) (traj : bspline) (trajTime : ℚ) (k : Nat) :
    executionDistanceLoop W traj trajTime (sampleBound 0 trajTime 0.1 + k) 0 true
        Vector3d.zero 0 =
      executionDistanceLoop W traj trajTime (sampleBound 0 trajTime 0.1) 0 true
        Vector3d.zero 0 := by
  induction k with
  | zero => rfl
  | succ k ih =>
    rw [← ih, ← Nat.add_assoc]
    apply executionDistanceLoop_succ
    have := sampleBound_gt 0 trajTime 0.1
    push_cast
    have hk : (0 : ℚ) ≤ (k : ℚ) := Nat.cast_nonneg k
    linarith

/-- With a positive step, once the number of rounds exceeds `(T - t) / dt`,
one more round does not change the sampled path. -/
theorem sampleLoop_succ (f : ℚ → Pose) (T dt : ℚ) (hdt : 0 < dt) (n : Nat) :
    ∀ t : ℚ, (T - t) / dt < (n : ℚ) →
      sampleLoop f T dt (n + 1) t = sampleLoop f T dt n t := by
  induction n with
  | zero =>
    intro t h
    have ht : ¬ t ≤ T := by
      intro hle
      have : (0 : ℚ) ≤ (T - t) / dt := div_nonneg (by linarith) hdt.le
      simp only [Nat.cast_zero] at h
      linarith
    simp [sampleLoop, ht]
  | succ n ih =>
    intro t h
    have hstep : (T - (t + dt)) / dt < (n : ℚ) := by
      have : (T - (t + dt)) / dt = (T - t) / dt - 1 := by
        field_simp
        ring
      rw [this]
      push_cast at h
      linarith
    rw [sampleLoop]
    conv_rhs => rw [sampleLoop]
    rw [ih (t + dt) hstep]

/-- With a positive step the sampled path is the same for every number of
rounds at least `sampleBound`. -/
theorem sampleLoop_bound (f : ℚ → Pose) (t0 T dt : ℚ) (hdt : 0 < dt) (k : Nat) :
    sampleLoop f T dt (sampleBound t0 T dt + k) t0 =
      sampleLoop f T dt (sampleBound t0 T dt) t0 := by
  induction k with
  | zero => rfl
  | succ k ih =>
    rw [← ih, ← Nat.add_assoc]
    apply sampleLoop_succ f T dt hdt
    have := sampleBound_gt t0 T dt
    push_cast
    have hk : (0 : ℚ) ≤ (k : ℚ) := Nat.cast_nonneg k
    linarith

/-! ## Properties of the replan policy -/

/-- C1. In both navigators a `replanCheckCB` step entered with
`goalReceived_ = true` ends with `trajectoryReady_ = false`, `replan_ = true`
and `goalReceived_ = false` whatever the flags were before, and the calls it
adds to the log contain none of the reach, collision, distance or
dynamic-obstacle checks. -/
theorem C1_new_goal_step (W : World) (s : navigation) (d : dynamicNavigation)
    (hs : s.goalReceived_ = true) (hd : d.goalReceived_ = true) :
    ((navigation.replanCheckCB W s).trajectoryReady_ = false ∧
      (navigation.replanCheckCB W s).replan_ = true ∧
      (navigation.replanCheckCB W s).goalReceived_ = false ∧
      ∃ extra, (navigation.replanCheckCB W s).calls = s.calls ++ extra ∧
        ∀ c ∈ extra, c.isPolicyCheck = false) ∧
    ((dynamicNavigation.replanCheckCB W d).trajectoryReady_ = false ∧
      (dynamicNavigation.replanCheckCB W d).replan_ = true ∧
      (dynamicNavigation.replanCheckCB W d).goalReceived_ = false ∧
      ∃ extra, (dynamicNavigation.replanCheckCB W d).calls = d.calls ++ extra ∧
        ∀ c ∈ extra, c.isPolicyCheck = false) := by
  refine ⟨?_, ?_⟩
  · simp only [navigation.replanCheckCB, hs, if_true]
    by_cases h1 : (!s.noYawTurning_ && !s.useYawControl_) = true <;>
      by_cases h2 : s.useGlobalPlanner_ = true <;>
      simp [h1, h2, Call.isPolicyCheck]
  · simp only [dynamicNavigation.replanCheckCB, hd, if_true]
    by_cases h1 : (!d.useYawControl_) = true <;>
      simp [h1, Call.isPolicyCheck]

/-- C1 applied to states with a trajectory ready and no replan pending. -/
theorem C1_new_goal_step_witness :
    (demoNav true false true).goalReceived_ = true ∧
    (demoDyn true false true).goalReceived_ = true ∧
    (navigation.replanCheckCB (demoWorld true true true true [demoObstacle])
      (demoNav true false true)).replan_ = true ∧
    (dynamicNavigation.replanCheckCB (demoWorld true true true true [demoObstacle])
      (demoDyn true false true)).trajectoryReady_ = false :=
  ⟨rfl, rfl,
    (C1_new_goal_step (demoWorld true true true true [demoObstacle])
      (demoNav true false true) (demoDyn true false true) rfl rfl).1.2.1,
    (C1_new_goal_step (demoWorld true true true true [demoObstacle])
      (demoNav true false true) (demoDyn true false true) rfl rfl).2.1⟩

/-- The three vectors filled by `getDynamicObstacles` are the vectors passed
in followed by the positions, velocities and sizes of the snapshot. -/
theorem getDynamicObstacles_eq (W : World) (p v z : List Vector3d) :
    dynamicNavigation.getDynamicObstacles W p v z =
      (p ++ (W.getObstaclesInSensorRange W.PI_const).map (fun ob => ⟨ob.px, ob.py, ob.pz⟩),
       v ++ (W.getObstaclesInSensorRange W.PI_const).map (fun ob => ⟨ob.vx, ob.vy, ob.vz⟩),
       z ++ (W.getObstaclesInSensorRange W.PI_const).map
        (fun ob => ⟨ob.xsize, ob.ysize, ob.zsize⟩)) := by
  unfold dynamicNavigation.getDynamicObstacles
  generalize W.getObstaclesInSensorRange W.PI_const = l
  induction l generalizing p v z with
  | nil => simp
  | cons ob l ih => simp [List.foldl_cons, ih]

/-- `hasDynamicObstacle` answers whether the in-FOV snapshot is non-empty. -/
theorem hasDynamicObstacle_iff (W : World) :
    dynamicNavigation.hasDynamicObstacle W = true ↔
      W.getObstaclesInSensorRange W.PI_const ≠ [] := by
  unfold dynamicNavigation.hasDynamicObstacle
  rw [getDynamicObstacles_eq]
  cases h : W.getObstaclesInSensorRange W.PI_const <;> simp

/-- C2. Static navigator, `goalReceived_ = false`: with a trajectory ready
one `replanCheckCB` step sets `replan_` when `hasCollision()` holds or
`computeExecutionDistance() ≥ 3.0` and leaves it unchanged otherwise, and
does not touch `trajectoryReady_` or `goalReceived_`; with no trajectory
ready the step changes nothing. -/
theorem C2_static_triggers (W : World) (s : navigation)
    (hg : s.goalReceived_ = false) :
    (s.trajectoryReady_ = true →
      (navigation.replanCheckCB W s).replan_ =
        (if navigation.hasCollision W s = true ∨
            navigation.computeExecutionDistance W s ≥ 3.0 then true else s.replan_) ∧
      (navigation.replanCheckCB W s).trajectoryReady_ = s.trajectoryReady_ ∧
      (navigation.replanCheckCB W s).goalReceived_ = s.goalReceived_) ∧
    (s.trajectoryReady_ = false → navigation.replanCheckCB W s = s) := by
  cases s
  simp only at hg
  subst hg
  refine ⟨fun hr => ?_, fun hr => ?_⟩
  · simp only at hr
    subst hr
    simp only [navigation.replanCheckCB, navigation.hasCollision,
      navigation.computeExecutionDistance]
    split_ifs <;> simp_all
    linarith
  · simp only at hr
    subst hr
    simp [navigation.replanCheckCB]

/-- C2 applied to a state with a trajectory ready and to an idle state. -/
theorem C2_static_triggers_witness :
    ((navigation.replanCheckCB (demoWorld true true true true []) (demoNav false false true)).replan_ =
        (if navigation.hasCollision (demoWorld true true true true [])
              (demoNav false false true) = true ∨
            navigation.computeExecutionDistance (demoWorld true true true true [])
              (demoNav false false true) ≥ 3.0 then true
          else (demoNav false false true).replan_)) ∧
    navigation.replanCheckCB (demoWorld true true true true []) (demoNav false true false) =
      demoNav false true false :=
  ⟨((C2_static_triggers (demoWorld true true true true []) (demoNav false false true) rfl).1
      rfl).1,
    (C2_static_triggers (demoWorld true true true true []) (demoNav false true false) rfl).2
      rfl⟩

/-- C3. Dynamic navigator, `goalReceived_ = false` and a trajectory ready:
when the odometry position is within 0.2 of the goal the `replanCheckCB`
step clears `replan_`, `trajectoryReady_` and `goalReceived_` and evaluates
no other check (so neither a collision nor an obstacle in view raises a
trigger); otherwise `replan_` becomes true when `hasCollision()` holds, or
`computeExecutionDistance() ≥ 3.0`, or the in-FOV snapshot is non-empty, and
keeps its value when none of the three holds. -/
theorem C3_dynamic_triggers (W : World) (d : dynamicNavigation)
    (hg : d.goalReceived_ = false) (hr : d.trajectoryReady_ = true) :
    (W.norm (Vector3d.sub d.odom_.position d.goal_.position) ≤ 0.2 →
      (dynamicNavigation.replanCheckCB W d).replan_ = false ∧
      (dynamicNavigation.replanCheckCB W d).trajectoryReady_ = false ∧
      (dynamicNavigation.replanCheckCB W d).goalReceived_ = false ∧
      (dynamicNavigation.replanCheckCB W d).calls = d.calls ++ [Call.reachCheck]) ∧
    (¬ W.norm (Vector3d.sub d.odom_.position d.goal_.position) ≤ 0.2 →
      (dynamicNavigation.replanCheckCB W d).replan_ =
        (if dynamicNavigation.hasCollision W d = true ∨
            dynamicNavigation.computeExecutionDistance W d ≥ 3.0 ∨
            W.getObstaclesInSensorRange W.PI_const ≠ [] then true else d.replan_)) := by
  have hobs := hasDynamicObstacle_iff W
  cases d
  simp only at hg hr
  subst hg
  subst hr
  refine ⟨fun hn => ?_, fun hn => ?_⟩
  · simp only at hn
    simp [dynamicNavigation.replanCheckCB, hn]
  · simp only at hn
    simp only [dynamicNavigation.replanCheckCB, dynamicNavigation.hasCollision,
      dynamicNavigation.computeExecutionDistance]
    by_cases ho : dynamicNavigation.hasDynamicObstacle W = true
    · have ho2 := hobs.mp ho
      split_ifs <;> simp_all
    · have ho2 : W.getObstaclesInSensorRange W.PI_const = [] := by
        by_contra hne
        exact ho (hobs.mpr hne)
      split_ifs <;> simp_all
      linarith

/-- C3 applied to a state at its goal, in an occupied map with an obstacle
in view, and to a state five metres from its goal. -/
theorem C3_dynamic_triggers_witness :
    (dynamicNavigation.replanCheckCB (demoWorld true true true true [demoObstacle])
      demoDynAtGoal).replan_ = false ∧
    (dynamicNavigation.replanCheckCB (demoWorld true true true false [])
      (demoDyn false false true)).replan_ =
        (if dynamicNavigation.hasCollision (demoWorld true true true false [])
              (demoDyn false false true) = true ∨
            dynamicNavigation.computeExecutionDistance (demoWorld true true true false [])
              (demoDyn false false true) ≥ 3.0 ∨
            (demoWorld true true true false []).getObstaclesInSensorRange
              (demoWorld true true true false []).PI_const ≠ [] then true
          else (demoDyn false false true).replan_) :=
  ⟨((C3_dynamic_triggers (demoWorld true true true true [demoObstacle]) demoDynAtGoal
      rfl rfl).1 (by norm_num [demoWorld, demoDynAtGoal, demoDyn, Vector3d.sub, poseAt])).1,
    (C3_dynamic_triggers (demoWorld true true true false []) (demoDyn false false true)
      rfl rfl).2 (by norm_num [demoWorld, demoDyn, Vector3d.sub, poseAt])⟩

/-! ## Properties of the planner orchestrator -/

/-- The input construction of the static navigator changes none of the
flags `firstGoal_`, `goalReceived_`, `replan_`, `trajectoryReady_` and none
of `trajectory_`, `trajStartTime_`, `trajTime_`. -/
theorem nav_plannerInput_sameFlight (W : World) (s : navigation)
    (i : navigation.PlanInput) (h : navigation.plannerInput W s = some i) :
    navigation.sameFlight s i.state := by
  unfold navigation.plannerInput at h
  simp only at h
  split_ifs at h
  · cases h
    simp only [navigation.globalPlan]
    split_ifs <;> simp [navigation.sameFlight]
  · split at h
    · cases h
    · split at h
      · cases h
      · cases h
        simp [navigation.sameFlight, navigation.closeWithPoly, navigation.planPoly]
  · cases h
    simp [navigation.sameFlight]
  · split at h
    · cases h
    · cases h
      simp [navigation.sameFlight, navigation.closeWithPoly, navigation.planPoly]
  · split at h
    · cases h
    · cases h
      simp [navigation.sameFlight, navigation.closeWithPoly, navigation.planPoly]
  · split at h
    · cases h
    · cases h
      simp [navigation.sameFlight]

/-- The input construction of the dynamic navigator changes none of the
flags `firstGoal_`, `goalReceived_`, `replan_`, `trajectoryReady_` and none
of `trajectory_`, `trajStartTime_`, `trajTime_`. -/
theorem dyn_plannerInput_sameFlight (W : World) (s : dynamicNavigation)
    (i : dynamicNavigation.PlanInput) (h : dynamicNavigation.plannerInput W s = some i) :
    dynamicNavigation.sameFlight s i.state := by
  unfold dynamicNavigation.plannerInput at h
  simp only at h
  split_ifs at h
  · split at h
    · cases h
    · cases h
      simp [dynamicNavigation.sameFlight, dynamicNavigation.closeWithPoly,
        dynamicNavigation.planPoly]
  · split at h
    · cases h
    · cases h
      simp [dynamicNavigation.sameFlight, dynamicNavigation.closeWithPoly,
        dynamicNavigation.planPoly]
  · split at h
    · cases h
    · cases h
      simp [dynamicNavigation.sameFlight]

/-- A sampling loop with a positive step returns. -/
theorem samplePath_pos (f : ℚ → Pose) (t0 T dt : ℚ) (hdt : 0 < dt) :
    ∃ p, samplePath f t0 T dt = some p := by
  unfold samplePath
  rw [if_neg (by intro h; linarith [h.2])]
  exact ⟨_, rfl⟩

/-- With a positive step, `navigation::getCurrentTraj` returns. -/
theorem nav_getCurrentTraj_pos (s : navigation) (dt : ℚ) (tick : Nat)
    (hdt : 0 < dt) : ∃ r, navigation.getCurrentTraj s dt tick = some r := by
  unfold navigation.getCurrentTraj
  obtain ⟨p, hp⟩ := samplePath_pos (fun t => poseAt (s.trajectory_.atTime t))
    s.trajTime_ s.trajectory_.getDuration dt hdt
  split_ifs
  · rw [hp]
    exact ⟨_, rfl⟩
  · exact ⟨_, rfl⟩

/-- With a positive step, `dynamicNavigation::getCurrentTraj` returns. -/
theorem dyn_getCurrentTraj_pos (W : World) (s : dynamicNavigation) (dt : ℚ)
    (tick : Nat) (hdt : 0 < dt) :
    ∃ r, dynamicNavigation.getCurrentTraj W s dt tick = some r := by
  unfold dynamicNavigation.getCurrentTraj
  obtain ⟨p, hp⟩ := samplePath_pos (fun t => poseAt (s.trajectory_.atTime t))
    (W.now (tick + 1) - s.trajStartTime_) s.trajectory_.getDuration dt hdt
  split_ifs
  · simp only [hp]
    exact ⟨_, rfl⟩
  · exact ⟨_, rfl⟩

/-- A knot-spacing loop of the static navigator returns when its input
construction returns for every positive spacing and it starts from a
positive spacing. -/
theorem nav_spacingLoop_total (W : World) (startTime : ℚ)
    (input : ℚ → Nat → Option (Path × Nat))
    (hin : ∀ dt tick, 0 < dt → ∃ r, input dt tick = some r) (life : Nat) :
    ∀ r : SpacingState, 0 < r.dtTemp →
      ∃ r', navigation.spacingLoop W startTime input life r = some r' := by
  induction life with
  | zero => intro r _; exact ⟨r, rfl⟩
  | succ n ih =>
    intro r hr
    obtain ⟨⟨path, tick1⟩, hp⟩ := hin r.dtTemp (r.tick + 1) hr
    simp only [navigation.spacingLoop, hp]
    split_ifs
    · exact ⟨_, rfl⟩
    · exact ⟨_, rfl⟩
    · apply ih
      show 0 < r.dtTemp * 0.8
      have : (0 : ℚ) < 0.8 := by norm_num
      positivity

/-- A knot-spacing loop of the dynamic navigator returns when its input
construction returns for every positive spacing and it starts from a
positive spacing. -/
theorem dyn_spacingLoop_total (W : World)
    (input : ℚ → Nat → Option (Path × Nat))
    (hin : ∀ dt tick, 0 < dt → ∃ r, input dt tick = some r) (life : Nat) :
    ∀ r : SpacingState, 0 < r.dtTemp →
      ∃ r', dynamicNavigation.spacingLoop W input life r = some r' := by
  induction life with
  | zero => intro r _; exact ⟨r, rfl⟩
  | succ n ih =>
    intro r hr
    obtain ⟨⟨path, tick1⟩, hp⟩ := hin r.dtTemp r.tick hr
    simp only [dynamicNavigation.spacingLoop, hp]
    split_ifs
    · exact ⟨_, rfl⟩
    · apply ih
      show 0 < r.dtTemp * 0.8
      have : (0 : ℚ) < 0.8 := by norm_num
      positivity

/-- The declarations and the loop of a static knot-spacing search return
when `getInitTs()` is positive. -/
theorem nav_runSpacing_total (W : World) (calls : List Call)
    (input : ℚ → Nat → Option (Path × Nat))
    (hin : ∀ dt tick, 0 < dt → ∃ r, input dt tick = some r) (hts : 0 < W.getInitTs) :
    ∃ r, navigation.runSpacing W calls input = some r :=
  nav_spacingLoop_total W _ input hin _ _ hts

/-- The declarations and the loop of a dynamic knot-spacing search return
when `getInitTs()` is positive. -/
theorem dyn_runSpacing_total (W : World) (calls : List Call)
    (input : ℚ → Nat → Option (Path × Nat))
    (hin : ∀ dt tick, 0 < dt → ∃ r, input dt tick = some r) (hts : 0 < W.getInitTs) :
    ∃ r, dynamicNavigation.runSpacing W calls input = some r :=
  dyn_spacingLoop_total W input hin _ _ hts

/-- The input construction of the static navigator returns when
`getInitTs()` is positive and a global plan marked ready is not empty. -/
theorem nav_plannerInput_total (W : World) (s : navigation)
    (hts : 0 < W.getInitTs) (hpath : s.globalPlanReady_ = true → s.rrtPathMsg_ ≠ []) :
    ∃ i, navigation.plannerInput W s = some i := by
  unfold navigation.plannerInput
  simp only
  split_ifs with h1 h2 h3 h4 h5
  · exact ⟨_, rfl⟩
  · have hne : ¬ s.rrtPathMsg_.length = 0 := by
      intro h0
      exact hpath h3 (List.length_eq_zero.mp h0)
    simp only [navigation.getRestGlobalPath, if_neg hne]
    obtain ⟨r, hr⟩ := nav_runSpacing_total W
      (navigation.planPoly W s
        (s.odom_ :: List.drop
          (List.foldl (navigation.restPathStep W s.rrtPathMsg_ s.odom_.position)
            (s.rrtPathMsg_.length - 1, none) (List.range (s.rrtPathMsg_.length - 1))).1
          s.rrtPathMsg_)
        (navigation.getStartEndConditions s [])).calls
      (fun dt tick => some ((navigation.planPoly W s
        (s.odom_ :: List.drop
          (List.foldl (navigation.restPathStep W s.rrtPathMsg_ s.odom_.position)
            (s.rrtPathMsg_.length - 1, none) (List.range (s.rrtPathMsg_.length - 1))).1
          s.rrtPathMsg_)
        (navigation.getStartEndConditions s [])).polyTraj_.getTrajectory dt, tick))
      (fun _ _ _ => ⟨_, rfl⟩) hts
    simp only [hr]
    exact ⟨_, rfl⟩
  · exact ⟨_, rfl⟩
  · obtain ⟨r, hr⟩ := nav_runSpacing_total W
      (navigation.planPoly W s [s.odom_, s.goal_]
        (navigation.getStartEndConditions s [])).calls
      (fun dt tick => some ((navigation.planPoly W s [s.odom_, s.goal_]
        (navigation.getStartEndConditions s [])).polyTraj_.getTrajectory dt, tick))
      (fun _ _ _ => ⟨_, rfl⟩) hts
    simp only [hr]
    exact ⟨_, rfl⟩
  · obtain ⟨r, hr⟩ := nav_runSpacing_total W
      (navigation.planPoly W s
        [poseAt (s.trajectory_.atTime s.trajectory_.getDuration), s.goal_]
        [s.trajectory_.derivativeAt s.trajectory_.getDuration, Vector3d.zero,
          s.trajectory_.derivative2At s.trajectory_.getDuration, Vector3d.zero]).calls
      (navigation.combinedInput (navigation.planPoly W s
        [poseAt (s.trajectory_.atTime s.trajectory_.getDuration), s.goal_]
        [s.trajectory_.derivativeAt s.trajectory_.getDuration, Vector3d.zero,
          s.trajectory_.derivative2At s.trajectory_.getDuration, Vector3d.zero])
        (navigation.planPoly W s
        [poseAt (s.trajectory_.atTime s.trajectory_.getDuration), s.goal_]
        [s.trajectory_.derivativeAt s.trajectory_.getDuration, Vector3d.zero,
          s.trajectory_.derivative2At s.trajectory_.getDuration, Vector3d.zero]).polyTraj_)
      (fun dt tick hdt => by
        obtain ⟨q, hq⟩ := nav_getCurrentTraj_pos (navigation.planPoly W s
          [poseAt (s.trajectory_.atTime s.trajectory_.getDuration), s.goal_]
          [s.trajectory_.derivativeAt s.trajectory_.getDuration, Vector3d.zero,
            s.trajectory_.derivative2At s.trajectory_.getDuration, Vector3d.zero]) dt tick hdt
        simp only [navigation.combinedInput, hq]
        exact ⟨_, rfl⟩) hts
    simp only [hr]
    exact ⟨_, rfl⟩
  · obtain ⟨r, hr⟩ := nav_runSpacing_total W s.calls (navigation.getCurrentTraj s)
      (fun dt tick hdt => nav_getCurrentTraj_pos s dt tick hdt) hts
    simp only [hr]
    exact ⟨_, rfl⟩

/-- The input construction of the dynamic navigator returns when
`getInitTs()` is positive. -/
theorem dyn_plannerInput_total (W : World) (s : dynamicNavigation)
    (hts : 0 < W.getInitTs) : ∃ i, dynamicNavigation.plannerInput W s = some i := by
  have key : ∀ calls input,
      (∀ dt tick, 0 < dt → ∃ r, input dt tick = some r) →
      dynamicNavigation.runSpacing W calls input ≠ none := by
    intro calls input hin hnone
    obtain ⟨r, hr⟩ := dyn_runSpacing_total W calls input hin hts
    rw [hr] at hnone
    cases hnone
  unfold dynamicNavigation.plannerInput
  simp only
  split_ifs
  · split
    · rename_i heq
      exact absurd heq (key _ _ (fun _ _ _ => ⟨_, rfl⟩))
    · exact ⟨_, rfl⟩
  · split
    · rename_i heq
      refine absurd heq (key _ _ (fun dt tick hdt => ?_))
      obtain ⟨q, hq⟩ := dyn_getCurrentTraj_pos W
        (dynamicNavigation.planPoly W s
          [poseAt (s.trajectory_.atTime s.trajectory_.getDuration), s.goal_]
          [s.trajectory_.derivativeAt s.trajectory_.getDuration, Vector3d.zero,
            s.trajectory_.derivative2At s.trajectory_.getDuration, Vector3d.zero])
        dt tick hdt
      simp only [dynamicNavigation.combinedInput, hq]
      exact ⟨_, rfl⟩
    · exact ⟨_, rfl⟩
  · split
    · rename_i heq
      exact absurd heq
        (key _ _ (fun dt tick hdt => dyn_getCurrentTraj_pos W s dt tick hdt))
    · exact ⟨_, rfl⟩

/-- `navigation::hasCollision` reads only `trajectoryReady_`, `trajectory_`
and `trajTime_`. -/
theorem nav_hasCollision_sameFlight (W : World) (s t : navigation)
    (h : navigation.sameFlight s t) :
    navigation.hasCollision W t = navigation.hasCollision W s := by
  obtain ⟨_, _, _, h4, h5, _, h7⟩ := h
  simp only [navigation.hasCollision, h4, h5, h7]

/-- `dynamicNavigation::hasCollision` reads only `trajectoryReady_`,
`trajectory_` and `trajTime_`. -/
theorem dyn_hasCollision_sameFlight (W : World) (s t : dynamicNavigation)
    (h : dynamicNavigation.sameFlight s t) :
    dynamicNavigation.hasCollision W t = dynamicNavigation.hasCollision W s := by
  obtain ⟨_, _, _, h4, h5, _, h7⟩ := h
  simp only [dynamicNavigation.hasCollision, h4, h5, h7]

/-- Binding the input and storing the optimizer result leave the flags and
the active-trajectory record of the static navigator alone. -/
theorem nav_storePlan_sameFlight (i : navigation.PlanInput)
    (plan : Bool × Path × bspline × ℚ) :
    navigation.sameFlight i.state (navigation.storePlan (navigation.bindInput i) plan) := by
  simp [navigation.sameFlight, navigation.storePlan, navigation.bindInput]

/-- Binding the input, handing over the obstacles and storing the optimizer
result leave the flags and the active-trajectory record of the dynamic
navigator alone. -/
theorem dyn_storePlan_sameFlight (W : World)
    (i : dynamicNavigation.PlanInput) (plan : Bool × Path × bspline × ℚ) :
    dynamicNavigation.sameFlight i.state
      (dynamicNavigation.storePlan
        (dynamicNavigation.pushObstacles W (dynamicNavigation.bindInput i)) plan) := by
  simp only [dynamicNavigation.sameFlight, dynamicNavigation.storePlan,
    dynamicNavigation.pushObstacles, dynamicNavigation.bindInput]
  split_ifs <;> simp

/-- With `firstGoal_` and `replan_` set, the static `plannerCB` is the input
construction followed by the optimizer attempt. -/
theorem nav_plannerCB_eq (W : World) (s : navigation) (i : navigation.PlanInput)
    (h1 : s.firstGoal_ = true) (h2 : s.replan_ = true)
    (hi : navigation.plannerInput W s = some i) :
    navigation.plannerCB W s = navigation.plannerFinish W i := by
  simp [navigation.plannerCB, h1, h2, hi]

/-- With `firstGoal_` and `replan_` set, the dynamic `plannerCB` is the
input construction followed by the optimizer attempt. -/
theorem dyn_plannerCB_eq (W : World) (s : dynamicNavigation)
    (i : dynamicNavigation.PlanInput)
    (h1 : s.firstGoal_ = true) (h2 : s.replan_ = true)
    (hi : dynamicNavigation.plannerInput W s = some i) :
    dynamicNavigation.plannerCB W s = some (dynamicNavigation.plannerFinish W i) := by
  simp [dynamicNavigation.plannerCB, h1, h2, hi]

/-- The replan flag after the optimizer attempt of the static navigator,
entered with the flag set: it is cleared exactly when `updatePath` succeeds
and either `makePlan` succeeds or `hasCollision()` is false. -/
theorem nav_plannerFinish_replan (W : World) (i : navigation.PlanInput)
    (hρ : ∀ b, 0 < (W.makePlan b).2.2.2) (hrep : i.state.replan_ = true) :
    ∃ s', navigation.plannerFinish W i = some s' ∧
      (s'.replan_ = false ↔
        W.updatePath i.inputTraj i.startEndConditions none = true ∧
          ((W.makePlan (navigation.bindInput i).bsplineTraj_).1 = true ∨
            navigation.hasCollision W i.state = false)) := by
  have hc := nav_hasCollision_sameFlight W i.state _
    (nav_storePlan_sameFlight i (W.makePlan (navigation.bindInput i).bsplineTraj_))
  have hsf := (nav_storePlan_sameFlight i
    (W.makePlan (navigation.bindInput i).bsplineTraj_)).2.2.1
  have hpos := hρ (navigation.bindInput i).bsplineTraj_
  unfold navigation.plannerFinish
  simp only
  by_cases hu : W.updatePath i.inputTraj i.startEndConditions none = true
  · by_cases hp : (W.makePlan (navigation.bindInput i).bsplineTraj_).1 = true
    · rw [if_pos hu, if_pos hp, if_neg (by intro h; linarith [h.2])]
      exact ⟨_, rfl, by simp [navigation.acceptPlan, hu, hp]⟩
    · rw [if_pos hu, if_neg hp]
      refine ⟨_, rfl, ?_⟩
      unfold navigation.rejectPlan
      rw [hc]
      by_cases hcol : navigation.hasCollision W i.state = true
      · simp [hcol, hu, hp, hsf, hrep]
      · simp [hcol, hu, hp]
  · rw [if_neg hu]
    exact ⟨_, rfl, by simp [navigation.bindInput, hrep, hu]⟩

/-- The replan flag after the optimizer attempt of the dynamic navigator,
entered with the flag set: it is cleared exactly when `updatePath` succeeds
and either `makePlan` succeeds or `hasCollision()` is false. -/
theorem dyn_plannerFinish_replan (W : World)
    (i : dynamicNavigation.PlanInput) (hrep : i.state.replan_ = true) :
    (dynamicNavigation.plannerFinish W i).replan_ = false ↔
      W.updatePath i.inputTraj i.startEndCondition (some i.dt) = true ∧
        ((W.makePlan (dynamicNavigation.pushObstacles W
            (dynamicNavigation.bindInput i)).bsplineTraj_).1 = true ∨
          dynamicNavigation.hasCollision W i.state = false) := by
  have hc := dyn_hasCollision_sameFlight W i.state _
    (dyn_storePlan_sameFlight W i
      (W.makePlan (dynamicNavigation.pushObstacles W
        (dynamicNavigation.bindInput i)).bsplineTraj_))
  have hsf := (dyn_storePlan_sameFlight W i
      (W.makePlan (dynamicNavigation.pushObstacles W
        (dynamicNavigation.bindInput i)).bsplineTraj_)).2.2.1
  unfold dynamicNavigation.plannerFinish
  simp only
  by_cases hu : W.updatePath i.inputTraj i.startEndCondition (some i.dt) = true
  · by_cases hp : (W.makePlan (dynamicNavigation.pushObstacles W
        (dynamicNavigation.bindInput i)).bsplineTraj_).1 = true
    · rw [if_pos hu, if_pos hp]
      simp [dynamicNavigation.acceptPlan, hu, hp]
    · rw [if_pos hu, if_neg hp]
      unfold dynamicNavigation.rejectPlan
      rw [hc]
      by_cases hcol : dynamicNavigation.hasCollision W i.state = true
      · simp [hcol, hu, hp, hsf, hrep]
      · simp [hcol, hu, hp]
  · rw [if_neg hu]
    simp [dynamicNavigation.bindInput, hrep, hu]

/-- C4 (as amended). In both navigators a `plannerCB` invocation entered
with `firstGoal_` and `replan_` set returns (given a positive initial knot
spacing, a positive linear factor and, for the global branch, a non-empty
stored path) and clears `replan_` exactly when `updatePath` succeeds and
either `makePlan` succeeds or `hasCollision()` is false; when `updatePath`
fails, or `makePlan` fails with the trajectory in collision, `replan_`
stays set. An invocation entered with `replan_` clear changes nothing. -/
theorem C4_replan_flag_after_attempt (W : World) (s : navigation) (d : dynamicNavigation)
    (hts : 0 < W.getInitTs) (hρ : ∀ b, 0 < (W.makePlan b).2.2.2)
    (hpath : s.globalPlanReady_ = true → s.rrtPathMsg_ ≠ [])
    (hs1 : s.firstGoal_ = true) (hs2 : s.replan_ = true)
    (hd1 : d.firstGoal_ = true) (hd2 : d.replan_ = true) :
    (∃ i s', navigation.plannerInput W s = some i ∧ navigation.plannerCB W s = some s' ∧
      (s'.replan_ = false ↔
        W.updatePath i.inputTraj i.startEndConditions none = true ∧
          ((W.makePlan (navigation.bindInput i).bsplineTraj_).1 = true ∨
            navigation.hasCollision W s = false))) ∧
    (∃ j d', dynamicNavigation.plannerInput W d = some j ∧
      dynamicNavigation.plannerCB W d = some d' ∧
      (d'.replan_ = false ↔
        W.updatePath j.inputTraj j.startEndCondition (some j.dt) = true ∧
          ((W.makePlan (dynamicNavigation.pushObstacles W
              (dynamicNavigation.bindInput j)).bsplineTraj_).1 = true ∨
            dynamicNavigation.hasCollision W d = false))) ∧
    (∀ t : navigation, t.replan_ = false → navigation.plannerCB W t = some t) ∧
    (∀ t : dynamicNavigation, t.replan_ = false →
      dynamicNavigation.plannerCB W t = some t) := by
  refine ⟨?_, ?_, ?_, ?_⟩
  · obtain ⟨i, hi⟩ := nav_plannerInput_total W s hts hpath
    have hsf := nav_plannerInput_sameFlight W s i hi
    obtain ⟨s', hf, hiff⟩ := nav_plannerFinish_replan W i hρ (hsf.2.2.1.trans hs2)
    refine ⟨i, s', hi, ?_, ?_⟩
    · rw [nav_plannerCB_eq W s i hs1 hs2 hi, hf]
    · rw [← nav_hasCollision_sameFlight W s i.state hsf]
      exact hiff
  · obtain ⟨j, hj⟩ := dyn_plannerInput_total W d hts
    have hsf := dyn_plannerInput_sameFlight W d j hj
    refine ⟨j, _, hj, dyn_plannerCB_eq W d j hd1 hd2 hj, ?_⟩
    rw [← dyn_hasCollision_sameFlight W d j.state hsf]
    exact dyn_plannerFinish_replan W j (hsf.2.2.1.trans hd2)
  · intro t ht
    simp [navigation.plannerCB, ht]
  · intro t ht
    simp [dynamicNavigation.plannerCB, ht]

/-- C4 applied to two states with a replan pending and no trajectory, in a
world where every collaborator succeeds: both invocations clear the flag. -/
theorem C4_replan_flag_after_attempt_witness :
    (∃ s', navigation.plannerCB (demoWorld true true true false [])
        (demoNav false true false) = some s' ∧ s'.replan_ = false) ∧
    (∃ d', dynamicNavigation.plannerCB (demoWorld true true true false [])
        (demoDyn false true false) = some d' ∧ d'.replan_ = false) := by
  have h := C4_replan_flag_after_attempt (demoWorld true true true false [])
    (demoNav false true false) (demoDyn false true false)
    (by norm_num [demoWorld]) (fun b => by norm_num [demoWorld])
    (fun h => by simp [demoNav] at h) rfl rfl rfl rfl
  obtain ⟨⟨i, s', _, hs, hiff⟩, ⟨j, d', _, hd, hjff⟩, _⟩ := h
  exact ⟨⟨s', hs, hiff.mpr ⟨rfl, Or.inl rfl⟩⟩, ⟨d', hd, hjff.mpr ⟨rfl, Or.inl rfl⟩⟩⟩

/-- C4 fails as stated: in the static navigator, with `firstGoal_` and
`replan_` set, an invocation whose `updatePath` fails returns with `replan_`
still true. -/
theorem C4_counterexample :
    (demoNav false true false).firstGoal_ = true ∧
    (demoNav false true false).replan_ = true ∧
    ∃ s', navigation.plannerCB (demoWorld true false true false [])
        (demoNav false true false) = some s' ∧ s'.replan_ = true := by
  refine ⟨rfl, rfl, ?_⟩
  obtain ⟨i, hi⟩ := nav_plannerInput_total (demoWorld true false true false [])
    (demoNav false true false) (by norm_num [demoWorld]) (fun h => by simp [demoNav] at h)
  have hsf := nav_plannerInput_sameFlight _ _ i hi
  obtain ⟨s', hf, hiff⟩ := nav_plannerFinish_replan
    (demoWorld true false true false []) i (fun b => by norm_num [demoWorld])
    (hsf.2.2.1.trans rfl)
  refine ⟨s', ?_, ?_⟩
  · rw [nav_plannerCB_eq _ _ i rfl rfl hi, hf]
  · cases hr : s'.replan_
    · have := (hiff.mp hr).1
      simp [demoWorld] at this
    · rfl

/-- C5. In both navigators, when the input construction has returned and
`updatePath` and `makePlan` both succeed (with, in the static navigator, the
positive linear factor that lets the divider sampling loop end), `plannerCB`
returns with `trajectory_` the spline the optimizer holds after this
`makePlan`, `trajStartTime_` the clock reading taken in that step,
`trajectoryReady_ = true` and `replan_ = false`. -/
theorem C5_successful_plan (W : World) (s : navigation) (i : navigation.PlanInput)
    (d : dynamicNavigation) (j : dynamicNavigation.PlanInput)
    (hs1 : s.firstGoal_ = true) (hs2 : s.replan_ = true)
    (hi : navigation.plannerInput W s = some i)
    (hsu : W.updatePath i.inputTraj i.startEndConditions none = true)
    (hsp : (W.makePlan (navigation.bindInput i).bsplineTraj_).1 = true)
    (hρ : 0 < (W.makePlan (navigation.bindInput i).bsplineTraj_).2.2.2)
    (hd1 : d.firstGoal_ = true) (hd2 : d.replan_ = true)
    (hj : dynamicNavigation.plannerInput W d = some j)
    (hdu : W.updatePath j.inputTraj j.startEndCondition (some j.dt) = true)
    (hdp : (W.makePlan (dynamicNavigation.pushObstacles W
      (dynamicNavigation.bindInput j)).bsplineTraj_).1 = true) :
    (∃ s', navigation.plannerCB W s = some s' ∧
      s'.trajectory_ = (W.makePlan (navigation.bindInput i).bsplineTraj_).2.2.1 ∧
      s'.trajectory_ = s'.bsplineTraj_.trajectory ∧
      s'.trajStartTime_ = W.now i.tick ∧
      s'.trajectoryReady_ = true ∧ s'.replan_ = false) ∧
    (∃ d', dynamicNavigation.plannerCB W d = some d' ∧
      d'.trajectory_ = (W.makePlan (dynamicNavigation.pushObstacles W
        (dynamicNavigation.bindInput j)).bsplineTraj_).2.2.1 ∧
      d'.trajectory_ = d'.bsplineTraj_.trajectory ∧
      d'.trajStartTime_ = W.now j.tick ∧
      d'.trajectoryReady_ = true ∧ d'.replan_ = false) := by
  refine ⟨?_, ?_⟩
  · rw [nav_plannerCB_eq W s i hs1 hs2 hi]
    unfold navigation.plannerFinish
    simp only
    rw [if_pos hsu, if_pos hsp, if_neg (by intro h; linarith [h.2])]
    exact ⟨_, rfl, by simp [navigation.acceptPlan, navigation.storePlan]⟩
  · rw [dyn_plannerCB_eq W d j hd1 hd2 hj]
    unfold dynamicNavigation.plannerFinish
    simp only
    rw [if_pos hdu, if_pos hdp]
    exact ⟨_, rfl, by simp [dynamicNavigation.acceptPlan, dynamicNavigation.storePlan]⟩

/-- C5 applied to two states with a replan pending and no trajectory, in a
world where the spacing check, `updatePath` and `makePlan` all succeed. -/
theorem C5_successful_plan_witness :
    (∃ s', navigation.plannerCB (demoWorld true true true false [])
        (demoNav false true false) = some s' ∧
      s'.trajStartTime_ = 2 / 100 ∧ s'.trajectoryReady_ = true ∧ s'.replan_ = false) ∧
    (∃ d', dynamicNavigation.plannerCB (demoWorld true true true false [])
        (demoDyn false true false) = some d' ∧
      d'.trajStartTime_ = 0 ∧ d'.trajectoryReady_ = true ∧ d'.replan_ = false) := by
  have h := C5_successful_plan (demoWorld true true true false [])
    (demoNav false true false) demoNavInput (demoDyn false true false) demoDynInput
    rfl rfl
    (by norm_num [navigation.plannerInput, navigation.runSpacing, navigation.spacingLoop,
      navigation.closeWithPoly, navigation.planPoly, navigation.getStartEndConditions,
      demoWorld, demoNav, demoPoly, demoNavInput, poseAt])
    rfl rfl (by norm_num [demoWorld]) rfl rfl
    (by norm_num [dynamicNavigation.plannerInput, dynamicNavigation.runSpacing,
      dynamicNavigation.spacingLoop, dynamicNavigation.closeWithPoly,
      dynamicNavigation.planPoly, dynamicNavigation.getStartEndCondition,
      demoWorld, demoDyn, demoPoly, demoDynInput, poseAt])
    rfl rfl
  obtain ⟨⟨s', hs, _, _, ht, hr, hp⟩, ⟨d', hd, _, _, hdt, hdr, hdp⟩⟩ := h
  refine ⟨⟨s', hs, ?_, hr, hp⟩, ⟨d', hd, ?_, hdr, hdp⟩⟩
  · rw [ht]
    norm_num [demoWorld, demoNavInput]
  · rw [hdt]
    norm_num [demoWorld, demoDynInput]

/-- In a map with no inflated-occupied point the collision loop finds
nothing. -/
theorem hasCollisionLoop_free (W : World) (traj : bspline)
    (hfree : ∀ p, W.isInflatedOccupied p = false) (n : Nat) :
    ∀ t, hasCollisionLoop W traj n t = false := by
  induction n with
  | zero => intro t; rfl
  | succ n ih =>
    intro t
    simp [hasCollisionLoop, hfree, ih]

/-- C6. In both navigators, when `makePlan` fails while a trajectory is
active and `hasCollision()` is false, `plannerCB` returns with `trajectory_`,
`trajStartTime_` and `trajectoryReady_` as they were before the attempt and
with `replan_ = false`. -/
theorem C6_failed_plan_keeps_trajectory (W : World) (s : navigation)
    (i : navigation.PlanInput) (d : dynamicNavigation) (j : dynamicNavigation.PlanInput)
    (hs1 : s.firstGoal_ = true) (hs2 : s.replan_ = true) (hs3 : s.trajectoryReady_ = true)
    (hi : navigation.plannerInput W s = some i)
    (hsu : W.updatePath i.inputTraj i.startEndConditions none = true)
    (hsp : (W.makePlan (navigation.bindInput i).bsplineTraj_).1 = false)
    (hsc : navigation.hasCollision W s = false)
    (hd1 : d.firstGoal_ = true) (hd2 : d.replan_ = true) (hd3 : d.trajectoryReady_ = true)
    (hj : dynamicNavigation.plannerInput W d = some j)
    (hdu : W.updatePath j.inputTraj j.startEndCondition (some j.dt) = true)
    (hdp : (W.makePlan (dynamicNavigation.pushObstacles W
      (dynamicNavigation.bindInput j)).bsplineTraj_).1 = false)
    (hdc : dynamicNavigation.hasCollision W d = false) :
    (∃ s', navigation.plannerCB W s = some s' ∧
      s'.trajectory_ = s.trajectory_ ∧ s'.trajStartTime_ = s.trajStartTime_ ∧
      s'.trajectoryReady_ = true ∧ s'.replan_ = false) ∧
    (∃ d', dynamicNavigation.plannerCB W d = some d' ∧
      d'.trajectory_ = d.trajectory_ ∧ d'.trajStartTime_ = d.trajStartTime_ ∧
      d'.trajectoryReady_ = true ∧ d'.replan_ = false) := by
  refine ⟨?_, ?_⟩
  · have hsf := nav_plannerInput_sameFlight W s i hi
    have hst := nav_storePlan_sameFlight i (W.makePlan (navigation.bindInput i).bsplineTraj_)
    have hc : navigation.hasCollision W (navigation.storePlan (navigation.bindInput i)
        (W.makePlan (navigation.bindInput i).bsplineTraj_)) = false := by
      rw [nav_hasCollision_sameFlight W _ _ hst, nav_hasCollision_sameFlight W _ _ hsf, hsc]
    rw [nav_plannerCB_eq W s i hs1 hs2 hi]
    unfold navigation.plannerFinish
    simp only
    rw [if_pos hsu, if_neg (by simp [hsp])]
    refine ⟨_, rfl, ?_⟩
    unfold navigation.rejectPlan
    rw [if_neg (by simp [hc])]
    obtain ⟨_, _, _, h4, h5, h6, _⟩ := hsf
    obtain ⟨_, _, _, k4, k5, k6, _⟩ := hst
    exact ⟨k5.trans h5, k6.trans h6, (k4.trans h4).trans hs3, rfl⟩
  · have hsf := dyn_plannerInput_sameFlight W d j hj
    have hst := dyn_storePlan_sameFlight W j (W.makePlan (dynamicNavigation.pushObstacles W
      (dynamicNavigation.bindInput j)).bsplineTraj_)
    have hc : dynamicNavigation.hasCollision W (dynamicNavigation.storePlan
        (dynamicNavigation.pushObstacles W (dynamicNavigation.bindInput j))
        (W.makePlan (dynamicNavigation.pushObstacles W
          (dynamicNavigation.bindInput j)).bsplineTraj_)) = false := by
      rw [dyn_hasCollision_sameFlight W _ _ hst, dyn_hasCollision_sameFlight W _ _ hsf, hdc]
    rw [dyn_plannerCB_eq W d j hd1 hd2 hj]
    unfold dynamicNavigation.plannerFinish
    simp only
    rw [if_pos hdu, if_neg (by simp [hdp])]
    refine ⟨_, rfl, ?_⟩
    unfold dynamicNavigation.rejectPlan
    rw [if_neg (by simp [hc])]
    obtain ⟨_, _, _, h4, h5, h6, _⟩ := hsf
    obtain ⟨_, _, _, k4, k5, k6, _⟩ := hst
    exact ⟨k5.trans h5, k6.trans h6, (k4.trans h4).trans hd3, rfl⟩

/-- C6 applied to two states flying `demoSpline` in a free map, in a world
whose `makePlan` fails: the trajectory stays ready and the flag is
cleared. -/
theorem C6_failed_plan_keeps_trajectory_witness :
    (∃ s', navigation.plannerCB (demoWorld true true false false [])
        (demoNav false true true) = some s' ∧
      s'.trajectoryReady_ = true ∧ s'.replan_ = false) ∧
    (∃ d', dynamicNavigation.plannerCB (demoWorld true true false false [])
        (demoDyn false true true) = some d' ∧
      d'.trajectoryReady_ = true ∧ d'.replan_ = false) := by
  obtain ⟨i, hi⟩ := nav_plannerInput_total (demoWorld true true false false [])
    (demoNav false true true) (by norm_num [demoWorld]) (fun h => by simp [demoNav] at h)
  obtain ⟨j, hj⟩ := dyn_plannerInput_total (demoWorld true true false false [])
    (demoDyn false true true) (by norm_num [demoWorld])
  have h := C6_failed_plan_keeps_trajectory (demoWorld true true false false [])
    (demoNav false true true) i (demoDyn false true true) j
    rfl rfl rfl hi rfl rfl
    (by
      rw [navigation.hasCollision,
        if_pos (show (demoNav false true true).trajectoryReady_ = true from rfl)]
      exact hasCollisionLoop_free (demoWorld true true false false []) _ (fun _ => rfl) _ _)
    rfl rfl rfl hj rfl rfl
    (by
      rw [dynamicNavigation.hasCollision,
        if_pos (show (demoDyn false true true).trajectoryReady_ = true from rfl)]
      exact hasCollisionLoop_free (demoWorld true true false false []) _ (fun _ => rfl) _ _)
  obtain ⟨⟨s', hs, _, _, hr, hp⟩, ⟨d', hd, _, _, hdr, hdp⟩⟩ := h
  exact ⟨⟨s', hs, hr, hp⟩, ⟨d', hd, hdr, hdp⟩⟩

/-- A knot-spacing loop of the static navigator logs no `stop()`. -/
theorem nav_spacingLoop_stops (W : World) (startTime : ℚ)
    (input : ℚ → Nat → Option (Path × Nat)) (life : Nat) :
    ∀ r r' : SpacingState, navigation.spacingLoop W startTime input life r = some r' →
      r'.calls.count Call.stop = r.calls.count Call.stop := by
  induction life with
  | zero =>
    intro r r' h
    simp only [navigation.spacingLoop, Option.some.injEq] at h
    subst h
    rfl
  | succ n ih =>
    intro r r' h
    simp only [navigation.spacingLoop] at h
    split_ifs at h with h1
    · simp only [Option.some.injEq] at h
      subst h
      rfl
    · split at h
      · cases h
      · split_ifs at h with h2
        · simp only [Option.some.injEq] at h
          subst h
          simp [List.count_append, List.count_cons]
        · rw [ih _ _ h]
          simp [List.count_append, List.count_cons]

/-- A knot-spacing loop of the dynamic navigator logs no `stop()`. -/
theorem dyn_spacingLoop_stops (W : World)
    (input : ℚ → Nat → Option (Path × Nat)) (life : Nat) :
    ∀ r r' : SpacingState, dynamicNavigation.spacingLoop W input life r = some r' →
      r'.calls.count Call.stop = r.calls.count Call.stop := by
  induction life with
  | zero =>
    intro r r' h
    simp only [dynamicNavigation.spacingLoop, Option.some.injEq] at h
    subst h
    rfl
  | succ n ih =>
    intro r r' h
    simp only [dynamicNavigation.spacingLoop] at h
    split at h
    · cases h
    · split_ifs at h with h2
      · simp only [Option.some.injEq] at h
        subst h
        simp [List.count_append, List.count_cons]
      · rw [ih _ _ h]
        simp [List.count_append, List.count_cons]

/-- The input construction of the static navigator logs no `stop()`. -/
theorem nav_plannerInput_stops (W : World) (s : navigation) (i : navigation.PlanInput)
    (h : navigation.plannerInput W s = some i) :
    i.state.calls.count Call.stop = s.calls.count Call.stop := by
  unfold navigation.plannerInput at h
  simp only at h
  split_ifs at h
  · cases h
    simp only [navigation.globalPlan]
    split_ifs <;> simp [List.count_append, List.count_cons]
  · split at h
    · cases h
    · split at h
      · cases h
      · rename_i r hr
        cases h
        have he := nav_spacingLoop_stops W _ _ _ _ _ hr
        simp only [navigation.closeWithPoly, he, navigation.planPoly]
        simp [List.count_append, List.count_cons]
  · cases h
    rfl
  · split at h
    · cases h
    · rename_i r hr
      cases h
      have he := nav_spacingLoop_stops W _ _ _ _ _ hr
      simp only [navigation.closeWithPoly, he, navigation.planPoly]
      simp [List.count_append, List.count_cons]
  · split at h
    · cases h
    · rename_i r hr
      cases h
      have he := nav_spacingLoop_stops W _ _ _ _ _ hr
      simp only [navigation.closeWithPoly, he, navigation.planPoly]
      simp [List.count_append, List.count_cons]
  · split at h
    · cases h
    · rename_i r hr
      cases h
      exact nav_spacingLoop_stops W _ _ _ _ _ hr

/-- The input construction of the dynamic navigator logs no `stop()`. -/
theorem dyn_plannerInput_stops (W : World) (s : dynamicNavigation)
    (i : dynamicNavigation.PlanInput) (h : dynamicNavigation.plannerInput W s = some i) :
    i.state.calls.count Call.stop = s.calls.count Call.stop := by
  unfold dynamicNavigation.plannerInput at h
  simp only at h
  split_ifs at h
  · split at h
    · cases h
    · rename_i r hr
      cases h
      have he := dyn_spacingLoop_stops W _ _ _ _ hr
      simp only [dynamicNavigation.closeWithPoly, he, dynamicNavigation.planPoly]
      simp [List.count_append, List.count_cons]
  · split at h
    · cases h
    · rename_i r hr
      cases h
      have he := dyn_spacingLoop_stops W _ _ _ _ hr
      simp only [dynamicNavigation.closeWithPoly, he, dynamicNavigation.planPoly]
      simp [List.count_append, List.count_cons]
  · split at h
    · cases h
    · rename_i r hr
      cases h
      exact dyn_spacingLoop_stops W _ _ _ _ hr

/-- C7 (as amended). In both navigators, when `makePlan` fails: if
`hasCollision()` is true (a trajectory is active and in collision),
`plannerCB` returns with `trajectoryReady_ = false` and has called `stop()`
once; if no trajectory is active, `plannerCB` returns with
`trajectoryReady_` still false and `replan_` cleared, and has not called
`stop()`. -/
theorem C7_failed_plan_stop (W : World) (s : navigation) (i : navigation.PlanInput)
    (d : dynamicNavigation) (j : dynamicNavigation.PlanInput)
    (hs1 : s.firstGoal_ = true) (hs2 : s.replan_ = true)
    (hi : navigation.plannerInput W s = some i)
    (hsu : W.updatePath i.inputTraj i.startEndConditions none = true)
    (hsp : (W.makePlan (navigation.bindInput i).bsplineTraj_).1 = false)
    (hd1 : d.firstGoal_ = true) (hd2 : d.replan_ = true)
    (hj : dynamicNavigation.plannerInput W d = some j)
    (hdu : W.updatePath j.inputTraj j.startEndCondition (some j.dt) = true)
    (hdp : (W.makePlan (dynamicNavigation.pushObstacles W
      (dynamicNavigation.bindInput j)).bsplineTraj_).1 = false) :
    (∃ s', navigation.plannerCB W s = some s' ∧
      (navigation.hasCollision W s = true →
        s'.trajectoryReady_ = false ∧
        s'.calls.count Call.stop = s.calls.count Call.stop + 1) ∧
      (s.trajectoryReady_ = false →
        s'.trajectoryReady_ = false ∧ s'.replan_ = false ∧
        s'.calls.count Call.stop = s.calls.count Call.stop)) ∧
    (∃ d', dynamicNavigation.plannerCB W d = some d' ∧
      (dynamicNavigation.hasCollision W d = true →
        d'.trajectoryReady_ = false ∧
        d'.calls.count Call.stop = d.calls.count Call.stop + 1) ∧
      (d.trajectoryReady_ = false →
        d'.trajectoryReady_ = false ∧ d'.replan_ = false ∧
        d'.calls.count Call.stop = d.calls.count Call.stop)) := by
  refine ⟨?_, ?_⟩
  · have hsf := nav_plannerInput_sameFlight W s i hi
    have hst := nav_storePlan_sameFlight i (W.makePlan (navigation.bindInput i).bsplineTraj_)
    have hc : navigation.hasCollision W (navigation.storePlan (navigation.bindInput i)
        (W.makePlan (navigation.bindInput i).bsplineTraj_)) = navigation.hasCollision W s := by
      rw [nav_hasCollision_sameFlight W _ _ hst, nav_hasCollision_sameFlight W _ _ hsf]
    have hcnt : (navigation.storePlan (navigation.bindInput i)
        (W.makePlan (navigation.bindInput i).bsplineTraj_)).calls.count Call.stop =
        s.calls.count Call.stop := by
      rw [← nav_plannerInput_stops W s i hi]
      simp [navigation.storePlan, navigation.bindInput, List.count_append, List.count_cons]
    rw [nav_plannerCB_eq W s i hs1 hs2 hi]
    unfold navigation.plannerFinish
    simp only
    rw [if_pos hsu, if_neg (by simp [hsp])]
    refine ⟨_, rfl, ?_, ?_⟩
    · intro hcol
      unfold navigation.rejectPlan
      rw [if_pos (hc.trans hcol)]
      refine ⟨rfl, ?_⟩
      show List.count Call.stop (_ ++ [Call.hasCollision, Call.stop]) = _
      rw [List.count_append, hcnt]
      simp [List.count_cons]
    · intro hnr
      have hfree : navigation.hasCollision W s = false := by
        simp [navigation.hasCollision, hnr]
      unfold navigation.rejectPlan
      rw [if_neg (by rw [hc, hfree]; simp)]
      refine ⟨(hst.2.2.2.1.trans hsf.2.2.2.1).trans hnr, rfl, ?_⟩
      show List.count Call.stop (_ ++ [Call.hasCollision]) = _
      rw [List.count_append, hcnt]
      simp [List.count_cons]
  · have hsf := dyn_plannerInput_sameFlight W d j hj
    have hst := dyn_storePlan_sameFlight W j (W.makePlan (dynamicNavigation.pushObstacles W
      (dynamicNavigation.bindInput j)).bsplineTraj_)
    have hc : dynamicNavigation.hasCollision W (dynamicNavigation.storePlan
        (dynamicNavigation.pushObstacles W (dynamicNavigation.bindInput j))
        (W.makePlan (dynamicNavigation.pushObstacles W
          (dynamicNavigation.bindInput j)).bsplineTraj_)) =
        dynamicNavigation.hasCollision W d := by
      rw [dyn_hasCollision_sameFlight W _ _ hst, dyn_hasCollision_sameFlight W _ _ hsf]
    have hcnt : (dynamicNavigation.storePlan
        (dynamicNavigation.pushObstacles W (dynamicNavigation.bindInput j))
        (W.makePlan (dynamicNavigation.pushObstacles W
          (dynamicNavigation.bindInput j)).bsplineTraj_)).calls.count Call.stop =
        d.calls.count Call.stop := by
      rw [← dyn_plannerInput_stops W d j hj]
      simp only [dynamicNavigation.storePlan, dynamicNavigation.pushObstacles,
        dynamicNavigation.bindInput]
      split_ifs <;> simp [List.count_append, List.count_cons]
    rw [dyn_plannerCB_eq W d j hd1 hd2 hj]
    unfold dynamicNavigation.plannerFinish
    simp only
    rw [if_pos hdu, if_neg (by simp [hdp])]
    refine ⟨_, rfl, ?_, ?_⟩
    · intro hcol
      unfold dynamicNavigation.rejectPlan
      rw [if_pos (hc.trans hcol)]
      refine ⟨rfl, ?_⟩
      show List.count Call.stop (_ ++ [Call.hasCollision, Call.stop]) = _
      rw [List.count_append, hcnt]
      simp [List.count_cons]
    · intro hnr
      have hfree : dynamicNavigation.hasCollision W d = false := by
        simp [dynamicNavigation.hasCollision, hnr]
      unfold dynamicNavigation.rejectPlan
      rw [if_neg (by rw [hc, hfree]; simp)]
      refine ⟨(hst.2.2.2.1.trans hsf.2.2.2.1).trans hnr, rfl, ?_⟩
      show List.count Call.stop (_ ++ [Call.hasCollision]) = _
      rw [List.count_append, hcnt]
      simp [List.count_cons]

/-- C7 applied, with a failing `makePlan`, to a static navigator flying
`demoSpline` through an occupied map (one `stop()` is logged) and to a dynamic
navigator with no trajectory (no `stop()` is logged). -/
theorem C7_failed_plan_stop_witness :
    (∃ s', navigation.plannerCB (demoWorld true true false true [])
        (demoNav false true true) = some s' ∧
      s'.trajectoryReady_ = false ∧ s'.calls.count Call.stop = 1) ∧
    (∃ d', dynamicNavigation.plannerCB (demoWorld true true false true [])
        (demoDyn false true false) = some d' ∧
      d'.trajectoryReady_ = false ∧ d'.replan_ = false ∧
      d'.calls.count Call.stop = 0) := by
  obtain ⟨i, hi⟩ := nav_plannerInput_total (demoWorld true true false true [])
    (demoNav false true true) (by norm_num [demoWorld]) (fun h => by simp [demoNav] at h)
  obtain ⟨j, hj⟩ := dyn_plannerInput_total (demoWorld true true false true [])
    (demoDyn false true false) (by norm_num [demoWorld])
  have h := C7_failed_plan_stop (demoWorld true true false true [])
    (demoNav false true true) i (demoDyn false true false) j
    rfl rfl hi rfl rfl rfl rfl hj rfl rfl
  obtain ⟨⟨s', hs, hcol, _⟩, ⟨d', hd, _, hidle⟩⟩ := h
  have h1 := hcol (by
    simp [navigation.hasCollision, demoNav, sampleBound, hasCollisionLoop, demoWorld,
      demoSpline])
  have h2 := hidle rfl
  exact ⟨⟨s', hs, h1.1, by rw [h1.2]; rfl⟩, ⟨d', hd, h2.1, h2.2.1, by rw [h2.2.2]; rfl⟩⟩

/-- C7 fails as stated: in the static navigator with no trajectory active
and a failing `makePlan`, `plannerCB` returns without having called
`stop()`. -/
theorem C7_counterexample :
    (demoNav false true false).firstGoal_ = true ∧
    (demoNav false true false).replan_ = true ∧
    (demoNav false true false).trajectoryReady_ = false ∧
    (∀ b, ((demoWorld true true false false []).makePlan b).1 = false) ∧
    ∃ s', navigation.plannerCB (demoWorld true true false false [])
        (demoNav false true false) = some s' ∧
      Call.bsplineMakePlan ∈ s'.calls ∧ Call.stop ∉ s'.calls := by
  refine ⟨rfl, rfl, rfl, fun _ => rfl, ?_⟩
  have hi : navigation.plannerInput (demoWorld true true false false [])
      (demoNav false true false) = some demoNavInput := by
    norm_num [navigation.plannerInput, navigation.runSpacing, navigation.spacingLoop,
      navigation.closeWithPoly, navigation.planPoly, navigation.getStartEndConditions,
      demoWorld, demoNav, demoPoly, demoNavInput, poseAt]
  rw [nav_plannerCB_eq _ _ demoNavInput rfl rfl hi]
  simp [navigation.plannerFinish, navigation.rejectPlan, navigation.hasCollision,
    navigation.storePlan, navigation.bindInput, demoNavInput, demoNav, demoWorld]

/-! ## Boundary conditions -/

/-- Whenever the dynamic navigator appends a polynomial to an active
trajectory, the four conditions it hands to `updatePath` are: index 0 the
start velocity of `getStartEndCondition`, index 1 the zero end velocity of
`getStartEndCondition`, index 2 the polynomial's velocity and index 3 the
polynomial's acceleration, both at `finalTimeTemp - duration`. -/
theorem dyn_far_branch_conditions (W : World) (d : dynamicNavigation)
    (j : dynamicNavigation.PlanInput) (hr : d.trajectoryReady_ = true)
    (hfar : W.norm (Vector3d.sub (d.trajectory_.atTime d.trajectory_.getDuration)
      d.goal_.position) ≥ 0.2)
    (hj : dynamicNavigation.plannerInput W d = some j) :
    ∃ t, j.startEndCondition =
      [d.currVel_, Vector3d.zero, j.state.polyTraj_.getVel t, j.state.polyTraj_.getAcc t] := by
  unfold dynamicNavigation.plannerInput at hj
  simp only [hr, Bool.not_true, Bool.false_eq_true, if_false, if_pos hfar] at hj
  split at hj
  · cases hj
  · rename_i r _
    cases hj
    exact ⟨r.finalTimeTemp - d.trajectory_.getDuration, by
      simp [dynamicNavigation.closeWithPoly, dynamicNavigation.getStartEndCondition, hr]⟩

/-- C8, the code at the failing input. A dynamic navigator flying
`demoSpline` (terminal point four metres from the goal) with start velocity
`(1,0,0)` and start acceleration `(4,0,0)`, and a polynomial with velocity
`(2,0,0)` and acceleration `(3,0,0)`: the tuple `(v0, v_f, a0, a_f)` bound
by `updatePath` is `((1,0,0), 0, (2,0,0), (3,0,0))`, so `v_f` is still zero
and `a0` has been overwritten by the polynomial's velocity. -/
theorem C8_conditions_at_failing_input :
    ∃ d', dynamicNavigation.plannerCB (demoWorld true true true false [])
        (demoDyn false true true) = some d' ∧
      d'.bsplineTraj_.startEndConditions =
        [⟨1, 0, 0⟩, Vector3d.zero, ⟨2, 0, 0⟩, ⟨3, 0, 0⟩] ∧
      dynamicNavigation.getStartEndCondition (demoDyn false true true) [] =
        [⟨1, 0, 0⟩, Vector3d.zero, ⟨4, 0, 0⟩, Vector3d.zero] := by
  norm_num [dynamicNavigation.plannerCB, dynamicNavigation.plannerFinish,
    dynamicNavigation.acceptPlan, dynamicNavigation.storePlan,
    dynamicNavigation.pushObstacles, dynamicNavigation.bindInput,
    dynamicNavigation.getDynamicObstacles,
    dynamicNavigation.plannerInput, dynamicNavigation.runSpacing,
    dynamicNavigation.spacingLoop, dynamicNavigation.combinedInput,
    dynamicNavigation.getCurrentTraj, samplePath, sampleBound, sampleLoop,
    dynamicNavigation.closeWithPoly,
    dynamicNavigation.planPoly, dynamicNavigation.getStartEndCondition, demoWorld, demoDyn,
    demoPoly, demoSpline, Vector3d.sub, poseAt]

/-- C9. `dynamicNavigation::getStartEndCondition` appends exactly four
vectors, in the order `(v0, v_f, a0, a_f)`: `v_f = a_f = 0` always, and
`(v0, a0)` is `(currVel_, currAcc_)` when `trajectoryReady_` holds and
`(0, 0)` otherwise. -/
theorem C9_dynamic_start_end_condition (d : dynamicNavigation) (c : List Vector3d) :
    dynamicNavigation.getStartEndCondition d c =
      c ++ [if d.trajectoryReady_ = true then d.currVel_ else Vector3d.zero,
        Vector3d.zero,
        if d.trajectoryReady_ = true then d.currAcc_ else Vector3d.zero,
        Vector3d.zero] := by
  simp [dynamicNavigation.getStartEndCondition]

/-- `navigation::getStartEndConditions` appends `currVel_`, zero, `currAcc_`,
zero, whatever `trajectoryReady_` is. -/
theorem nav_getStartEndConditions_eq (s : navigation) (c : List Vector3d) :
    navigation.getStartEndConditions s c =
      c ++ [s.currVel_, Vector3d.zero, s.currAcc_, Vector3d.zero] := by
  simp [navigation.getStartEndConditions]

/-- C10, the code at the failing input. With no trajectory active
(`trajectoryReady_ = false`), `currVel_ = (1,0,0)` and `currAcc_ = (4,0,0)`,
the start velocity and start acceleration produced by
`navigation::getStartEndConditions` are `(1,0,0)` and `(4,0,0)`, not zero. -/
theorem C10_conditions_at_failing_input :
    (demoNav false true false).trajectoryReady_ = false ∧
    navigation.getStartEndConditions (demoNav false true false) [] =
      [⟨1, 0, 0⟩, Vector3d.zero, ⟨4, 0, 0⟩, Vector3d.zero] ∧
    (⟨1, 0, 0⟩ : Vector3d) ≠ Vector3d.zero := by
  refine ⟨rfl, rfl, ?_⟩
  simp [Vector3d.zero]

/-! ## Properties of the trajectory executors -/

/-- C12. `navigation::trajExeCB`, with `trajectoryReady_` set, emits one
setpoint whose position is the spline at the re-parameterized time `τ`; when
`|τ − T| ≤ 0.3` or `τ > T` its velocity and acceleration are zero and its
yaw is the odometry yaw; otherwise its velocity is the spline derivative at
`τ` times `ρ` and its acceleration the second derivative at `τ` times `ρ²`,
with `ρ` the optimizer's linear factor and `T` the spline duration. -/
theorem C12_static_executor (W : World) (s : navigation)
    (hr : s.trajectoryReady_ = true) :
    ∃ target : Target,
      (navigation.trajExeCB W s).calls = s.calls ++ [Call.updateTargetWithState target] ∧
      (navigation.trajExeCB W s).trajTime_ =
        W.getLinearReparamTime s.bsplineTraj_ (W.now 0 - s.trajStartTime_) ∧
      target.position = s.trajectory_.atTime (navigation.trajExeCB W s).trajTime_ ∧
      ((|(navigation.trajExeCB W s).trajTime_ - s.trajectory_.getDuration| ≤ 0.3 ∨
          (navigation.trajExeCB W s).trajTime_ > s.trajectory_.getDuration) →
        target.velocity = Vector3d.zero ∧ target.acceleration = Vector3d.zero ∧
        target.yaw = W.rpy_from_quaternion s.odom_.orientation) ∧
      (¬ (|(navigation.trajExeCB W s).trajTime_ - s.trajectory_.getDuration| ≤ 0.3 ∨
          (navigation.trajExeCB W s).trajTime_ > s.trajectory_.getDuration) →
        target.velocity =
          (s.trajectory_.derivativeAt (navigation.trajExeCB W s).trajTime_).smul
            s.bsplineTraj_.linearFactor ∧
        target.acceleration =
          (s.trajectory_.derivative2At (navigation.trajExeCB W s).trajTime_).smul
            (s.bsplineTraj_.linearFactor ^ 2)) := by
  refine ⟨navigation.exeTarget W (navigation.exeTime W s), ?_, ?_, ?_, ?_, ?_⟩
  · simp [navigation.trajExeCB, hr]
  · simp [navigation.trajExeCB, hr, navigation.exeTime]
  · simp only [navigation.trajExeCB, hr, if_true, navigation.exeTarget]
    split_ifs <;> rfl
  · intro h
    simp only [navigation.trajExeCB, hr, if_true] at h
    have h' : |(navigation.exeTime W s).trajTime_ -
        (navigation.exeTime W s).trajectory_.getDuration| ≤ 0.3 ∨
        (navigation.exeTime W s).trajTime_ >
          (navigation.exeTime W s).trajectory_.getDuration := h
    simp only [navigation.exeTarget, if_pos h']
    simp [Vector3d.smul, Vector3d.zero, navigation.exeTime]
  · intro h
    simp only [navigation.trajExeCB, hr, if_true] at h
    have h' : ¬ (|(navigation.exeTime W s).trajTime_ -
        (navigation.exeTime W s).trajectory_.getDuration| ≤ 0.3 ∨
        (navigation.exeTime W s).trajTime_ >
          (navigation.exeTime W s).trajectory_.getDuration) := h
    simp only [navigation.exeTarget, if_neg h']
    simp [navigation.trajExeCB, hr, navigation.exeTime]

/-- C12 applied at the start of `demoSpline` (full velocity) and at its
terminal time (velocity zeroed). -/
theorem C12_static_executor_witness :
    (∃ target : Target,
      (navigation.trajExeCB (demoWorldAt 0) (demoNav false false true)).calls =
        [Call.updateTargetWithState target] ∧
      target.velocity = ⟨1, 0, 0⟩) ∧
    (∃ target : Target,
      (navigation.trajExeCB (demoWorldAt 0) demoNavNearEnd).calls =
        [Call.updateTargetWithState target] ∧
      target.position = ⟨1, 0, 0⟩ ∧ target.velocity = Vector3d.zero) := by
  obtain ⟨t1, hc1, ht1, _, _, hv1⟩ :=
    C12_static_executor (demoWorldAt 0) (demoNav false false true) rfl
  obtain ⟨t2, hc2, ht2, hp2, hz2, _⟩ :=
    C12_static_executor (demoWorldAt 0) demoNavNearEnd rfl
  refine ⟨⟨t1, hc1, ?_⟩, ⟨t2, hc2, ?_, ?_⟩⟩
  · rw [(hv1 (by
      rw [ht1]
      norm_num [demoWorldAt, demoWorld, demoNav, demoOptimizer, demoSpline, abs_le])).1]
    simp [demoNav, demoSpline, demoOptimizer, Vector3d.smul]
  · rw [hp2, ht2]
    norm_num [demoWorldAt, demoWorld, demoNavNearEnd, demoNav, demoOptimizer, demoSpline]
  · exact (hz2 (by
      rw [ht2]
      norm_num [demoWorldAt, demoWorld, demoNavNearEnd, demoNav, demoOptimizer,
        demoSpline])).1

/-- C13 (as amended). On an executor tick of the dynamic navigator with a
trajectory ready, the spline time at which position, velocity and
acceleration are sampled is the elapsed wall time `now − trajStartTime_`
itself, without any clamp: it is at most `T` exactly when the elapsed time
is at most `T`. -/
theorem C13_dynamic_executor_time (W : World) (d : dynamicNavigation)
    (hr : d.trajectoryReady_ = true) :
    (dynamicNavigation.trajExeCB W d).trajTime_ = W.now 0 - d.trajStartTime_ ∧
    (dynamicNavigation.trajExeCB W d).calls = d.calls ++
      [Call.updateTargetWithState
        { position := d.trajectory_.atTime (W.now 0 - d.trajStartTime_)
          velocity := d.trajectory_.derivativeAt (W.now 0 - d.trajStartTime_)
          acceleration := d.trajectory_.derivative2At (W.now 0 - d.trajStartTime_)
          yaw := (dynamicNavigation.exeTarget W (dynamicNavigation.exeTime W d)).yaw }] ∧
    ((dynamicNavigation.trajExeCB W d).trajTime_ ≤ d.trajectory_.getDuration ↔
      W.now 0 - d.trajStartTime_ ≤ d.trajectory_.getDuration) := by
  have h1 : (dynamicNavigation.trajExeCB W d).trajTime_ = W.now 0 - d.trajStartTime_ := by
    simp [dynamicNavigation.trajExeCB, hr, dynamicNavigation.exeTime]
  refine ⟨h1, ?_, by rw [h1]⟩
  simp [dynamicNavigation.trajExeCB, hr, dynamicNavigation.exeTime,
    dynamicNavigation.exeTarget]

/-- C13 applied two seconds after the start of the one-second
`demoSpline`. -/
theorem C13_dynamic_executor_time_witness :
    (dynamicNavigation.trajExeCB (demoWorldAt 2) (demoDyn false false true)).trajTime_ = 2 := by
  rw [(C13_dynamic_executor_time (demoWorldAt 2) (demoDyn false false true) rfl).1]
  norm_num [demoWorldAt, demoDyn]

/-- C13 fails as stated: two seconds after the start of a trajectory of
duration one second, the dynamic executor samples the spline at time 2,
beyond the duration, and sends the position found there. -/
theorem C13_counterexample :
    (demoDyn false false true).trajectoryReady_ = true ∧
    (demoDyn false false true).trajectory_.getDuration = 1 ∧
    (dynamicNavigation.trajExeCB (demoWorldAt 2) (demoDyn false false true)).trajTime_ = 2 ∧
    ∃ target : Target,
      (dynamicNavigation.trajExeCB (demoWorldAt 2) (demoDyn false false true)).calls =
        [Call.updateTargetWithState target] ∧
      target.position = (demoDyn false false true).trajectory_.atTime 2 := by
  refine ⟨rfl, rfl, ?_, ?_⟩
  · norm_num [dynamicNavigation.trajExeCB, dynamicNavigation.exeTime, demoWorldAt, demoDyn]
  · norm_num [dynamicNavigation.trajExeCB, dynamicNavigation.exeTime,
      dynamicNavigation.exeTarget, demoWorldAt, demoDyn]

/-- C14. Every setpoint emitted by the dynamic executor with
`use_yaw_control = false`, and by the static executor with
`use_yaw_control = false` or `no_yaw_turning = true`, has the yaw extracted
from the current odometry orientation; and with `no_yaw_turning = true` a
static `replanCheckCB` step adds no `moveToOrientation` call, new goal or
not. -/
theorem C14_yaw_consistency (W : World) (s : navigation) (d : dynamicNavigation)
    (hs : s.useYawControl_ = false ∨ s.noYawTurning_ = true)
    (hd : d.useYawControl_ = false) :
    ((navigation.trajExeCB W s).calls = s.calls ∨
      ∃ target : Target,
        (navigation.trajExeCB W s).calls = s.calls ++ [Call.updateTargetWithState target] ∧
        target.yaw = W.rpy_from_quaternion s.odom_.orientation) ∧
    ((dynamicNavigation.trajExeCB W d).calls = d.calls ∨
      ∃ target : Target,
        (dynamicNavigation.trajExeCB W d).calls =
          d.calls ++ [Call.updateTargetWithState target] ∧
        target.yaw = W.rpy_from_quaternion d.odom_.orientation) ∧
    (s.noYawTurning_ = true →
      (navigation.replanCheckCB W s).calls.countP Call.isMoveToOrientation =
        s.calls.countP Call.isMoveToOrientation) := by
  refine ⟨?_, ?_, ?_⟩
  · by_cases hr : s.trajectoryReady_ = true
    · right
      refine ⟨navigation.exeTarget W (navigation.exeTime W s),
        by simp [navigation.trajExeCB, hr], ?_⟩
      have hy : (s.noYawTurning_ || !s.useYawControl_) = true := by
        rcases hs with h | h <;> simp [h]
      simp only [navigation.exeTarget]
      split_ifs with h1 h2
      · rfl
      · rfl
      · exact absurd hy h2
    · left
      simp [navigation.trajExeCB, hr]
  · by_cases hr : d.trajectoryReady_ = true
    · right
      exact ⟨dynamicNavigation.exeTarget W (dynamicNavigation.exeTime W d),
        by simp [dynamicNavigation.trajExeCB, hr],
        by simp [dynamicNavigation.exeTarget, dynamicNavigation.exeTime, hd]⟩
    · left
      simp [dynamicNavigation.trajExeCB, hr]
  · intro hn
    clear hs
    cases s
    simp only at hn
    subst hn
    simp only [navigation.replanCheckCB, Bool.not_true, Bool.false_and, Bool.false_eq_true,
      if_false]
    split_ifs <;>
      simp [List.countP_append, List.countP_cons, Call.isMoveToOrientation]

/-- C14 applied to states with a trajectory ready and `use_yaw_control =
false`; the static state is then given `no_yaw_turning = true` and a new
goal. -/
theorem C14_yaw_consistency_witness :
    (∃ target : Target,
      (navigation.trajExeCB (demoWorldAt 0) (demoNav false false true)).calls =
        [Call.updateTargetWithState target] ∧ target.yaw = 0) ∧
    (∃ target : Target,
      (dynamicNavigation.trajExeCB (demoWorldAt 0) (demoDyn false false true)).calls =
        [Call.updateTargetWithState target] ∧ target.yaw = 0) ∧
    (navigation.replanCheckCB (demoWorldAt 0)
      { demoNav true false true with noYawTurning_ := true }).calls.countP
        Call.isMoveToOrientation = 0 := by
  have h := C14_yaw_consistency (demoWorldAt 0) (demoNav false false true)
    (demoDyn false false true) (Or.inl rfl) rfl
  have h2 := (C14_yaw_consistency (demoWorldAt 0)
    { demoNav true false true with noYawTurning_ := true }
    (demoDyn false false true) (Or.inr rfl) rfl).2.2 rfl
  refine ⟨?_, ?_, h2⟩
  · rcases h.1 with hc | ⟨t, hc, hy⟩
    · simp [navigation.trajExeCB, demoNav] at hc
    · exact ⟨t, hc, hy⟩
  · rcases h.2.1 with hc | ⟨t, hc, hy⟩
    · simp [dynamicNavigation.trajExeCB, demoDyn] at hc
    · exact ⟨t, hc, hy⟩

/-! ## Properties of the state estimator -/

/-- The first `stateUpdateCB` sets the acceleration to zero and records the
time, but leaves `prevVel_` as it was; every later one divides the
difference between the new velocity and `prevVel_` by the time since the
previous update and then stores the new velocity in `prevVel_`. -/
theorem stateUpdateCB_cases (W : World) (d : dynamicNavigation) :
    (d.stateUpdateFirstTime_ = true →
      (dynamicNavigation.stateUpdateCB W d).currAcc_ = Vector3d.zero ∧
      (dynamicNavigation.stateUpdateCB W d).prevVel_ = d.prevVel_ ∧
      (dynamicNavigation.stateUpdateCB W d).prevStateTime_ = W.now 0 ∧
      (dynamicNavigation.stateUpdateCB W d).stateUpdateFirstTime_ = false) ∧
    (d.stateUpdateFirstTime_ = false →
      (dynamicNavigation.stateUpdateCB W d).currAcc_ =
        (Vector3d.sub (dynamicNavigation.stateUpdateCB W d).currVel_ d.prevVel_).sdiv
          (W.now 0 - d.prevStateTime_) ∧
      (dynamicNavigation.stateUpdateCB W d).prevVel_ =
        (dynamicNavigation.stateUpdateCB W d).currVel_ ∧
      (dynamicNavigation.stateUpdateCB W d).prevStateTime_ = W.now 0) := by
  constructor <;> intro h <;> simp [dynamicNavigation.stateUpdateCB, h]

/-- C15, the code at the failing input. A vehicle moving at the constant
world velocity `(1,0,0)`, with `prevVel_` initially `(0,0,0)`, is updated at
time 0 (first update) and at time 1. The second update sets the
acceleration to `(1,0,0)`, although the velocities computed at the two
updates are equal, so that `(v_now − v_prev)/Δt` is zero. -/
theorem C15_acceleration_at_failing_input :
    (dynamicNavigation.stateUpdateCB (demoWorldAt 0) demoDynFresh).currVel_ = ⟨1, 0, 0⟩ ∧
    (dynamicNavigation.stateUpdateCB (demoWorldAt 0) demoDynFresh).currAcc_ =
      Vector3d.zero ∧
    (dynamicNavigation.stateUpdateCB (demoWorldAt 1)
      (dynamicNavigation.stateUpdateCB (demoWorldAt 0) demoDynFresh)).currVel_ =
        ⟨1, 0, 0⟩ ∧
    (dynamicNavigation.stateUpdateCB (demoWorldAt 1)
      (dynamicNavigation.stateUpdateCB (demoWorldAt 0) demoDynFresh)).currAcc_ =
        ⟨1, 0, 0⟩ ∧
    (Vector3d.sub
      (dynamicNavigation.stateUpdateCB (demoWorldAt 1)
        (dynamicNavigation.stateUpdateCB (demoWorldAt 0) demoDynFresh)).currVel_
      (dynamicNavigation.stateUpdateCB (demoWorldAt 0) demoDynFresh).currVel_).sdiv
        (1 - 0) = Vector3d.zero := by
  norm_num [dynamicNavigation.stateUpdateCB, demoWorldAt, demoWorld, demoDynFresh, demoDyn,
    Matrix3d.mulVec, Vector3d.dot, Vector3d.sub, Vector3d.sdiv, Vector3d.zero, poseAt]

/-- C16, the code at the failing input. A static navigator with no new
goal, no replan pending and the vehicle exactly at its goal, whose active
trajectory crosses an occupied cell: one `replanCheckCB` step sets
`replan_`. -/
theorem C16_trigger_at_failing_input :
    demoNavAtGoal.goalReceived_ = false ∧
    demoNavAtGoal.replan_ = false ∧
    (demoWorld true true true true []).norm
      (Vector3d.sub demoNavAtGoal.odom_.position demoNavAtGoal.goal_.position) ≤ 0.2 ∧
    (navigation.replanCheckCB (demoWorld true true true true []) demoNavAtGoal).replan_ =
      true := by
  refine ⟨rfl, rfl, ?_, ?_⟩
  · norm_num [demoWorld, demoNavAtGoal, demoNav, Vector3d.sub, poseAt]
  · simp [navigation.replanCheckCB, navigation.hasCollision, sampleBound, hasCollisionLoop,
      demoWorld, demoNavAtGoal, demoNav, demoSpline]

/-! ## What the knot-spacing loops log -/

/-- A knot-spacing loop of the static navigator only appends calls, each of
them a spacing check on a path built by the input construction of the loop
for the spacing of that check. -/
theorem nav_spacingLoop_log (W : World) (startTime : ℚ)
    (input : ℚ → Nat → Option (Path × Nat)) (life : Nat) :
    ∀ r r' : SpacingState, navigation.spacingLoop W startTime input life r = some r' →
      ∃ extra, r'.calls = r.calls ++ extra ∧
        ∀ c ∈ extra, ∃ dt tick p tick1,
          input dt tick = some (p, tick1) ∧ c = Call.inputPathCheck p dt := by
  induction life with
  | zero =>
    intro r r' h
    simp only [navigation.spacingLoop, Option.some.injEq] at h
    subst h
    exact ⟨[], by simp, by simp⟩
  | succ n ih =>
    intro r r' h
    simp only [navigation.spacingLoop] at h
    split_ifs at h with h1
    · simp only [Option.some.injEq] at h
      subst h
      exact ⟨[], by simp, by simp⟩
    · split at h
      · cases h
      · rename_i path tick1 hin
        split_ifs at h with h2
        · simp only [Option.some.injEq] at h
          subst h
          refine ⟨[Call.inputPathCheck path r.dtTemp], rfl, ?_⟩
          intro c hc
          simp only [List.mem_singleton] at hc
          exact ⟨r.dtTemp, r.tick + 1, path, tick1, hin, hc⟩
        · obtain ⟨extra, he, hall⟩ := ih _ _ h
          refine ⟨Call.inputPathCheck path r.dtTemp :: extra, ?_, ?_⟩
          · rw [he]
            simp
          · intro c hc
            rcases List.mem_cons.mp hc with hc | hc
            · exact ⟨r.dtTemp, r.tick + 1, path, tick1, hin, hc⟩
            · exact hall c hc

/-- A knot-spacing loop of the dynamic navigator only appends calls, each
of them a spacing check on a path built by the input construction of the
loop for the spacing of that check. -/
theorem dyn_spacingLoop_log (W : World)
    (input : ℚ → Nat → Option (Path × Nat)) (life : Nat) :
    ∀ r r' : SpacingState, dynamicNavigation.spacingLoop W input life r = some r' →
      ∃ extra, r'.calls = r.calls ++ extra ∧
        ∀ c ∈ extra, ∃ dt tick p tick1,
          input dt tick = some (p, tick1) ∧ c = Call.inputPathCheck p dt := by
  induction life with
  | zero =>
    intro r r' h
    simp only [dynamicNavigation.spacingLoop, Option.some.injEq] at h
    subst h
    exact ⟨[], by simp, by simp⟩
  | succ n ih =>
    intro r r' h
    simp only [dynamicNavigation.spacingLoop] at h
    split at h
    · cases h
    · rename_i path tick1 hin
      split_ifs at h with h2
      · simp only [Option.some.injEq] at h
        subst h
        refine ⟨[Call.inputPathCheck path r.dtTemp], rfl, ?_⟩
        intro c hc
        simp only [List.mem_singleton] at hc
        exact ⟨r.dtTemp, r.tick, path, tick1, hin, hc⟩
      · obtain ⟨extra, he, hall⟩ := ih _ _ h
        refine ⟨Call.inputPathCheck path r.dtTemp :: extra, ?_, ?_⟩
        · rw [he]
          simp
        · intro c hc
          rcases List.mem_cons.mp hc with hc | hc
          · exact ⟨r.dtTemp, r.tick, path, tick1, hin, hc⟩
          · exact hall c hc

/-- A knot-spacing loop of the static navigator leaves the number of logged
calls of any kind other than the spacing check unchanged. -/
theorem nav_spacingLoop_countP (W : World) (startTime : ℚ)
    (input : ℚ → Nat → Option (Path × Nat)) (life : Nat) (q : Call → Bool)
    (hq : ∀ p dt, q (Call.inputPathCheck p dt) = false) (r r' : SpacingState)
    (h : navigation.spacingLoop W startTime input life r = some r') :
    r'.calls.countP q = r.calls.countP q := by
  obtain ⟨extra, he, hall⟩ := nav_spacingLoop_log W startTime input life r r' h
  rw [he, List.countP_append]
  have : extra.countP q = 0 := by
    rw [List.countP_eq_zero]
    intro c hc
    obtain ⟨dt, _, p, _, _, rfl⟩ := hall c hc
    simp [hq]
  omega

/-- A knot-spacing loop of the dynamic navigator leaves the number of
logged calls of any kind other than the spacing check unchanged. -/
theorem dyn_spacingLoop_countP (W : World)
    (input : ℚ → Nat → Option (Path × Nat)) (life : Nat) (q : Call → Bool)
    (hq : ∀ p dt, q (Call.inputPathCheck p dt) = false) (r r' : SpacingState)
    (h : dynamicNavigation.spacingLoop W input life r = some r') :
    r'.calls.countP q = r.calls.countP q := by
  obtain ⟨extra, he, hall⟩ := dyn_spacingLoop_log W input life r r' h
  rw [he, List.countP_append]
  have : extra.countP q = 0 := by
    rw [List.countP_eq_zero]
    intro c hc
    obtain ⟨dt, _, p, _, _, rfl⟩ := hall c hc
    simp [hq]
  omega

/-- With no global planner and no trajectory ready, the input construction
of the static navigator logs, besides spacing checks, exactly one run of the
polynomial planner on the two waypoints current pose and goal. -/
theorem nav_plannerInput_idle (W : World) (s : navigation) (i : navigation.PlanInput)
    (q : Call → Bool) (hq : ∀ p dt, q (Call.inputPathCheck p dt) = false)
    (hg : s.useGlobalPlanner_ = false) (hr : s.trajectoryReady_ = false)
    (hi : navigation.plannerInput W s = some i) :
    i.state.calls.countP q = s.calls.countP q +
      [Call.polyUpdatePath [s.odom_, s.goal_] (navigation.getStartEndConditions s []),
        Call.polyMakePlan].countP q := by
  unfold navigation.plannerInput at hi
  simp only [hg, hr, Bool.false_eq_true, if_false, Bool.not_false, if_true] at hi
  split at hi
  · cases hi
  · rename_i r hrun
    cases hi
    have := nav_spacingLoop_countP W _ _ _ q hq _ _ hrun
    simp only [navigation.closeWithPoly]
    rw [this]
    simp [navigation.planPoly, List.countP_append]

/-- With no trajectory ready, the input construction of the dynamic
navigator logs, besides spacing checks, exactly one run of the polynomial
planner on the two waypoints current pose and goal. -/
theorem dyn_plannerInput_idle (W : World) (s : dynamicNavigation)
    (i : dynamicNavigation.PlanInput)
    (q : Call → Bool) (hq : ∀ p dt, q (Call.inputPathCheck p dt) = false)
    (hr : s.trajectoryReady_ = false)
    (hi : dynamicNavigation.plannerInput W s = some i) :
    i.state.calls.countP q = s.calls.countP q +
      [Call.polyUpdatePath [s.odom_, s.goal_] (dynamicNavigation.getStartEndCondition s []),
        Call.polyMakePlan].countP q := by
  unfold dynamicNavigation.plannerInput at hi
  simp only [hr, Bool.not_false, if_true] at hi
  split at hi
  · cases hi
  · rename_i r hrun
    cases hi
    have := dyn_spacingLoop_countP W _ _ q hq _ _ hrun
    simp only [dynamicNavigation.closeWithPoly]
    rw [this]
    simp [dynamicNavigation.planPoly, List.countP_append]

/-- With no global planner and no trajectory ready, the input construction
of the static navigator returns when `getInitTs()` is positive. -/
theorem nav_plannerInput_idle_total (W : World) (s : navigation)
    (hts : 0 < W.getInitTs) (hg : s.useGlobalPlanner_ = false)
    (hr : s.trajectoryReady_ = false) :
    ∃ i, navigation.plannerInput W s = some i := by
  unfold navigation.plannerInput
  simp only [hg, hr, Bool.false_eq_true, if_false, Bool.not_false, if_true]
  split
  · rename_i heq
    obtain ⟨r, hrun⟩ := nav_runSpacing_total W
      (navigation.planPoly W s [s.odom_, s.goal_]
        (navigation.getStartEndConditions s [])).calls
      (fun dt tick => some ((navigation.planPoly W s [s.odom_, s.goal_]
        (navigation.getStartEndConditions s [])).polyTraj_.getTrajectory dt, tick))
      (fun _ _ _ => ⟨_, rfl⟩) hts
    rw [hrun] at heq
    cases heq
  · exact ⟨_, rfl⟩

/-- The state a new-goal step of the static navigator leaves: flags as in a
fresh request, configuration untouched, and no planner call logged. -/
theorem nav_newGoal_state (W : World) (s : navigation) (q : Call → Bool)
    (hq : ∀ y w, q (Call.moveToOrientation y w) = false)
    (hg : s.goalReceived_ = true) :
    (navigation.replanCheckCB W s).firstGoal_ = s.firstGoal_ ∧
    (navigation.replanCheckCB W s).replan_ = true ∧
    (navigation.replanCheckCB W s).trajectoryReady_ = false ∧
    (navigation.replanCheckCB W s).useGlobalPlanner_ = s.useGlobalPlanner_ ∧
    (navigation.replanCheckCB W s).odom_ = s.odom_ ∧
    (navigation.replanCheckCB W s).goal_ = s.goal_ ∧
    (navigation.replanCheckCB W s).calls.countP q = s.calls.countP q := by
  simp only [navigation.replanCheckCB, hg, if_true]
  by_cases h1 : (!s.noYawTurning_ && !s.useYawControl_) = true <;>
    by_cases h2 : s.useGlobalPlanner_ = true <;>
    simp [h1, h2, List.countP_append, hq]

/-- The state a new-goal step of the dynamic navigator leaves. -/
theorem dyn_newGoal_state (W : World) (s : dynamicNavigation) (q : Call → Bool)
    (hq : ∀ y w, q (Call.moveToOrientation y w) = false)
    (hg : s.goalReceived_ = true) :
    (dynamicNavigation.replanCheckCB W s).firstGoal_ = s.firstGoal_ ∧
    (dynamicNavigation.replanCheckCB W s).replan_ = true ∧
    (dynamicNavigation.replanCheckCB W s).trajectoryReady_ = false ∧
    (dynamicNavigation.replanCheckCB W s).odom_ = s.odom_ ∧
    (dynamicNavigation.replanCheckCB W s).goal_ = s.goal_ ∧
    (dynamicNavigation.replanCheckCB W s).calls.countP q = s.calls.countP q := by
  simp only [dynamicNavigation.replanCheckCB, hg, if_true]
  by_cases h1 : (!s.useYawControl_) = true <;>
    simp [h1, List.countP_append, hq]

/-- When `updatePath` and `makePlan` succeed, the optimizer attempt of the
static navigator returns with `trajectoryReady_` set, having logged one
`makePlan` and no run of the polynomial planner. -/
theorem nav_plannerFinish_success (W : World) (i : navigation.PlanInput)
    (hρ : ∀ b, 0 < (W.makePlan b).2.2.2)
    (hu : ∀ p c t, W.updatePath p c t = true) (hp : ∀ b, (W.makePlan b).1 = true) :
    ∃ s', navigation.plannerFinish W i = some s' ∧ s'.trajectoryReady_ = true ∧
      s'.calls.count Call.polyMakePlan = i.state.calls.count Call.polyMakePlan ∧
      s'.calls.count Call.bsplineMakePlan = i.state.calls.count Call.bsplineMakePlan + 1 := by
  have hpos := hρ (navigation.bindInput i).bsplineTraj_
  unfold navigation.plannerFinish
  simp only
  rw [if_pos (hu _ _ _), if_pos (hp _), if_neg (by intro h; linarith [h.2])]
  exact ⟨_, rfl, by
    simp [navigation.acceptPlan, navigation.storePlan, navigation.bindInput,
      List.count_append, List.count_cons]⟩

/-- When `updatePath` and `makePlan` succeed, the optimizer attempt of the
dynamic navigator ends with `trajectoryReady_` set, having logged one
`makePlan` and no run of the polynomial planner. -/
theorem dyn_plannerFinish_success (W : World) (i : dynamicNavigation.PlanInput)
    (hu : ∀ p c t, W.updatePath p c t = true) (hp : ∀ b, (W.makePlan b).1 = true) :
    (dynamicNavigation.plannerFinish W i).trajectoryReady_ = true ∧
    (dynamicNavigation.plannerFinish W i).calls.count Call.polyMakePlan =
      i.state.calls.count Call.polyMakePlan ∧
    (dynamicNavigation.plannerFinish W i).calls.count Call.bsplineMakePlan =
      i.state.calls.count Call.bsplineMakePlan + 1 := by
  unfold dynamicNavigation.plannerFinish
  simp only
  rw [if_pos (hu _ _ _), if_pos (hp _)]
  simp only [dynamicNavigation.acceptPlan, dynamicNavigation.storePlan,
    dynamicNavigation.pushObstacles, dynamicNavigation.bindInput]
  split_ifs <;> simp [List.count_append, List.count_cons]

/-- Whatever its outcome, the optimizer attempt of the static navigator
logs no run of the polynomial planner. -/
theorem nav_plannerFinish_poly (W : World) (i : navigation.PlanInput) (s' : navigation)
    (h : navigation.plannerFinish W i = some s') :
    s'.calls.count Call.polyMakePlan = i.state.calls.count Call.polyMakePlan := by
  unfold navigation.plannerFinish at h
  simp only at h
  split_ifs at h <;> cases h <;>
    simp only [navigation.acceptPlan, navigation.rejectPlan, navigation.storePlan,
      navigation.bindInput] <;>
    (try split_ifs) <;> simp [List.count_append, List.count_cons]

/-- Whatever its outcome, the optimizer attempt of the dynamic navigator
logs no run of the polynomial planner. -/
theorem dyn_plannerFinish_poly (W : World) (i : dynamicNavigation.PlanInput) :
    (dynamicNavigation.plannerFinish W i).calls.count Call.polyMakePlan =
      i.state.calls.count Call.polyMakePlan := by
  unfold dynamicNavigation.plannerFinish
  simp only [dynamicNavigation.acceptPlan, dynamicNavigation.rejectPlan,
    dynamicNavigation.storePlan, dynamicNavigation.pushObstacles,
    dynamicNavigation.bindInput]
  split_ifs <;> simp [List.count_append, List.count_cons]

/-! ## A goal at the current position -/

/-- C17 (as amended). In the dynamic navigator, and in the static navigator
without the global planner, every accepted goal, coincident with the current
odometry position or not, is planned for: after the new-goal step the next
`plannerCB` invocation runs the polynomial planner once and, when
`updatePath` and `makePlan` succeed, runs the optimizer and returns with
`trajectoryReady_ = true`. -/
theorem C17_coincident_goal (W1 W2 : World) (s : navigation) (d : dynamicNavigation)
    (hts : 0 < W2.getInitTs) (hρ : ∀ b, 0 < (W2.makePlan b).2.2.2)
    (hsg : s.useGlobalPlanner_ = false)
    (hs1 : s.firstGoal_ = true) (hs2 : s.goalReceived_ = true)
    (hd1 : d.firstGoal_ = true) (hd2 : d.goalReceived_ = true) :
    (∃ s', navigation.plannerCB W2 (navigation.replanCheckCB W1 s) = some s' ∧
      s'.calls.count Call.polyMakePlan = s.calls.count Call.polyMakePlan + 1 ∧
      ((∀ p c t, W2.updatePath p c t = true) → (∀ b, (W2.makePlan b).1 = true) →
        s'.trajectoryReady_ = true ∧
        s'.calls.count Call.bsplineMakePlan = s.calls.count Call.bsplineMakePlan + 1)) ∧
    (∃ d', dynamicNavigation.plannerCB W2 (dynamicNavigation.replanCheckCB W1 d) = some d' ∧
      d'.calls.count Call.polyMakePlan = d.calls.count Call.polyMakePlan + 1 ∧
      ((∀ p c t, W2.updatePath p c t = true) → (∀ b, (W2.makePlan b).1 = true) →
        d'.trajectoryReady_ = true ∧
        d'.calls.count Call.bsplineMakePlan = d.calls.count Call.bsplineMakePlan + 1)) := by
  refine ⟨?_, ?_⟩
  · obtain ⟨g1, g2, g3, g4, _, _, g7⟩ :=
      nav_newGoal_state W1 s (· == Call.polyMakePlan) (by simp) hs2
    have g8 := (nav_newGoal_state W1 s (· == Call.bsplineMakePlan) (by simp) hs2).2.2.2.2.2.2
    obtain ⟨i, hi⟩ := nav_plannerInput_idle_total W2 (navigation.replanCheckCB W1 s) hts
      (g4.trans hsg) g3
    have c1 := nav_plannerInput_idle W2 _ i (· == Call.polyMakePlan) (by simp)
      (g4.trans hsg) g3 hi
    have c2 := nav_plannerInput_idle W2 _ i (· == Call.bsplineMakePlan) (by simp)
      (g4.trans hsg) g3 hi
    rw [nav_plannerCB_eq W2 _ i (g1.trans hs1) g2 hi]
    obtain ⟨s', hf, _⟩ := nav_plannerFinish_replan W2 i hρ
      ((nav_plannerInput_sameFlight W2 _ i hi).2.2.1.trans g2)
    refine ⟨s', hf, ?_, ?_⟩
    · rw [nav_plannerFinish_poly W2 i s' hf]
      simp only [List.count] at *
      rw [c1, g7]
      simp [List.countP_cons]
    · intro hu hp
      obtain ⟨s'', hf', hr, _, hb⟩ := nav_plannerFinish_success W2 i hρ hu hp
      rw [hf] at hf'
      cases hf'
      refine ⟨hr, ?_⟩
      rw [hb]
      simp only [List.count] at *
      rw [c2, g8]
      simp [List.countP_cons]
  · obtain ⟨g1, g2, g3, _, _, g7⟩ :=
      dyn_newGoal_state W1 d (· == Call.polyMakePlan) (by simp) hd2
    have g8 := (dyn_newGoal_state W1 d (· == Call.bsplineMakePlan) (by simp) hd2).2.2.2.2.2
    obtain ⟨j, hj⟩ := dyn_plannerInput_total W2 (dynamicNavigation.replanCheckCB W1 d) hts
    have c1 := dyn_plannerInput_idle W2 _ j (· == Call.polyMakePlan) (by simp) g3 hj
    have c2 := dyn_plannerInput_idle W2 _ j (· == Call.bsplineMakePlan) (by simp) g3 hj
    rw [dyn_plannerCB_eq W2 _ j (g1.trans hd1) g2 hj]
    refine ⟨_, rfl, ?_, ?_⟩
    · rw [dyn_plannerFinish_poly W2 j]
      simp only [List.count] at *
      rw [c1, g7]
      simp [List.countP_cons]
    · intro hu hp
      obtain ⟨hr, _, hb⟩ := dyn_plannerFinish_success W2 j hu hp
      refine ⟨hr, ?_⟩
      rw [hb]
      simp only [List.count] at *
      rw [c2, g8]
      simp [List.countP_cons]

/-- C17 applied to two navigators that accept a goal at their own position,
in a world where every collaborator succeeds. -/
theorem C17_coincident_goal_witness :
    demoNavCoincident.goal_.position = demoNavCoincident.odom_.position ∧
    demoDynCoincident.goal_.position = demoDynCoincident.odom_.position ∧
    (∃ s', navigation.plannerCB (demoWorld true true true false [])
        (navigation.replanCheckCB (demoWorld true true true false []) demoNavCoincident) =
          some s' ∧
      s'.calls.count Call.polyMakePlan = 1 ∧ s'.trajectoryReady_ = true) ∧
    (∃ d', dynamicNavigation.plannerCB (demoWorld true true true false [])
        (dynamicNavigation.replanCheckCB (demoWorld true true true false [])
          demoDynCoincident) = some d' ∧
      d'.calls.count Call.polyMakePlan = 1 ∧ d'.trajectoryReady_ = true) := by
  obtain ⟨⟨s', hs, hc, hsucc⟩, ⟨d', hd, hdc, hdsucc⟩⟩ := C17_coincident_goal
    (demoWorld true true true false []) (demoWorld true true true false [])
    demoNavCoincident demoDynCoincident
    (by norm_num [demoWorld]) (fun b => by norm_num [demoWorld]) rfl rfl rfl rfl rfl
  exact ⟨rfl, rfl, ⟨s', hs, by rw [hc]; rfl, (hsucc (fun _ _ _ => rfl) (fun _ => rfl)).1⟩,
    ⟨d', hd, by rw [hdc]; rfl, (hdsucc (fun _ _ _ => rfl) (fun _ => rfl)).1⟩⟩

/-- C17 fails as stated: a static navigator accepts a goal equal to its own
position; the `plannerCB` invocation after the new-goal step runs the
polynomial planner and the optimizer for it and returns with
`trajectoryReady_ = true`. -/
theorem C17_counterexample :
    demoNavCoincident.goalReceived_ = true ∧
    demoNavCoincident.goal_.position = demoNavCoincident.odom_.position ∧
    ∃ s', navigation.plannerCB (demoWorld true true true false [])
        (navigation.replanCheckCB (demoWorld true true true false []) demoNavCoincident) =
          some s' ∧
      Call.polyMakePlan ∈ s'.calls ∧ Call.bsplineMakePlan ∈ s'.calls ∧
      s'.trajectoryReady_ = true := by
  refine ⟨rfl, rfl, ?_⟩
  norm_num [navigation.plannerCB, navigation.replanCheckCB, navigation.plannerFinish,
    navigation.acceptPlan, navigation.storePlan, navigation.bindInput,
    navigation.plannerInput, navigation.runSpacing, navigation.spacingLoop,
    navigation.closeWithPoly, navigation.planPoly, navigation.getStartEndConditions,
    demoWorld, demoNavCoincident, demoNav, demoPoly, demoSpline, demoOptimizer, poseAt]

/-! ## Rounds of the knot-spacing loops -/

/-- How a knot-spacing loop of the static navigator ends: either it made no
spacing check and left the adjusted path, `finalTimeTemp`, the spacing and
`satisfyDistanceCheck` as they were, or its last logged call is a spacing check at some spacing
`dt`, the adjusted path, `finalTimeTemp` and `satisfyDistanceCheck` are the
outputs of that check, and the spacing is `dt` if the check accepted and
`0.8 * dt` if not. -/
theorem nav_spacingLoop_last (W : World) (startTime : ℚ)
    (input : ℚ → Nat → Option (Path × Nat)) (life : Nat) :
    ∀ r r' : SpacingState, navigation.spacingLoop W startTime input life r = some r' →
      (r'.calls = r.calls ∧ r'.adjusted = r.adjusted ∧
        r'.finalTimeTemp = r.finalTimeTemp ∧ r'.dtTemp = r.dtTemp ∧
        r'.satisfyDistanceCheck = r.satisfyDistanceCheck) ∨
      ∃ p a ft dt, r'.calls.getLast? = some (Call.inputPathCheck p dt) ∧
        r'.adjusted = (W.inputPathCheck p a dt ft).2.1 ∧
        r'.finalTimeTemp = (W.inputPathCheck p a dt ft).2.2 ∧
        r'.satisfyDistanceCheck = (W.inputPathCheck p a dt ft).1 ∧
        r'.dtTemp = if (W.inputPathCheck p a dt ft).1 then dt else dt * 0.8 := by
  induction life with
  | zero =>
    intro r r' h
    simp only [navigation.spacingLoop, Option.some.injEq] at h
    subst h
    exact Or.inl ⟨rfl, rfl, rfl, rfl, rfl⟩
  | succ n ih =>
    intro r r' h
    simp only [navigation.spacingLoop] at h
    split_ifs at h with h1
    · simp only [Option.some.injEq] at h
      subst h
      exact Or.inl ⟨rfl, rfl, rfl, rfl, rfl⟩
    · split at h
      · cases h
      · rename_i path tick1 hin
        split_ifs at h with h2
        · simp only [Option.some.injEq] at h
          subst h
          exact Or.inr ⟨path, r.adjusted, r.finalTimeTemp, r.dtTemp, by simp, rfl, rfl, rfl,
            by simp [h2]⟩
        · rcases ih _ _ h with ⟨hc, ha, hf, hd, hs⟩ | hlast
          · refine Or.inr ⟨path, r.adjusted, r.finalTimeTemp, r.dtTemp, ?_, ha, hf, hs, ?_⟩
            · rw [hc]
              simp
            · rw [hd]
              simp [h2]
          · exact Or.inr hlast


/-- A knot-spacing loop of the static navigator makes no spacing check once
0.05 s have elapsed since `startTime`: a round that reads such a time
leaves the loop at once. -/
theorem nav_spacingLoop_expired (W : World) (startTime : ℚ)
    (input : ℚ → Nat → Option (Path × Nat)) (life : Nat) (r : SpacingState)
    (h : W.now r.tick - startTime ≥ 0.05) :
    navigation.spacingLoop W startTime input (life + 1) r =
      some { r with tick := r.tick + 1 } := by
  simp [navigation.spacingLoop, h]

/-- C19, the code at the failing input. The clock advances by 0.06 s
between the reading `startTime` and the first reading inside the loop, so
the loop of the static `plannerCB` ends by expiry before any spacing check:
no `inputPathCheck` is logged, the input path handed to the optimizer is
the empty path with which `adjustedInputPolyTraj` was declared, which no
spacing check returned, and `finalTime` is the uninitialised
`finalTimeTemp`. -/
theorem C19_expiry_at_failing_input :
    demoWorldSlow.now 1 - demoWorldSlow.now 0 ≥ 0.05 ∧
    ∃ i, navigation.plannerInput demoWorldSlow (demoNav false true false) = some i ∧
      i.inputTraj = [] ∧
      i.state.calls.countP Call.isInputPathCheck = 0 ∧
      i.startEndConditions =
        [⟨1, 0, 0⟩, demoPoly.getVel demoWorldSlow.uninitDouble, ⟨4, 0, 0⟩,
          demoPoly.getAcc demoWorldSlow.uninitDouble] ∧
      (navigation.bindInput i).bsplineTraj_.inputPath = [] := by
  constructor
  · norm_num [demoWorldSlow, demoWorld]
  · norm_num [navigation.plannerInput, navigation.runSpacing, navigation.spacingLoop,
      navigation.closeWithPoly, navigation.planPoly, navigation.getStartEndConditions,
      navigation.bindInput, Call.isInputPathCheck, List.countP_cons,
      demoWorldSlow, demoWorld, demoNav, demoPoly, poseAt]
/-! ## Dynamic obstacles handed to the optimizer -/

/-- The collision loop run for `n` rounds from `t` answers `true` exactly
when one of the sample times `t + 0.1 * k`, `k < n`, lies within the
duration and has an occupied position. -/
theorem hasCollisionLoop_iff (W : World) (traj : bspline) (n : Nat) :
    ∀ t : ℚ, hasCollisionLoop W traj n t = true ↔
      ∃ k : ℕ, k < n ∧ t + 0.1 * (k : ℚ) ≤ traj.getDuration ∧
        W.isInflatedOccupied (traj.atTime (t + 0.1 * (k : ℚ))) = true := by
  induction n with
  | zero =>
    intro t
    simp [hasCollisionLoop]
  | succ n ih =>
    intro t
    rw [hasCollisionLoop]
    by_cases ht : t ≤ traj.getDuration
    · rw [if_pos ht]
      by_cases ho : W.isInflatedOccupied (traj.atTime t) = true
      · rw [if_pos ho]
        simp only [true_iff]
        refine ⟨0, Nat.succ_pos n, ?_, ?_⟩
        · simpa using ht
        · simpa using ho
      · rw [if_neg ho, ih (t + 0.1)]
        constructor
        · rintro ⟨k, hk, hle, hocc⟩
          refine ⟨k + 1, Nat.succ_lt_succ hk, ?_, ?_⟩
          · push_cast
            have : t + 0.1 * ((k : ℚ) + 1) = t + 0.1 + 0.1 * (k : ℚ) := by ring
            rw [this]
            exact hle
          · push_cast
            have : t + 0.1 * ((k : ℚ) + 1) = t + 0.1 + 0.1 * (k : ℚ) := by ring
            rw [this]
            exact hocc
        · rintro ⟨k, hk, hle, hocc⟩
          cases k with
          | zero =>
            exfalso
            apply ho
            simpa using hocc
          | succ j =>
            refine ⟨j, Nat.lt_of_succ_lt_succ hk, ?_, ?_⟩
            · have : t + 0.1 + 0.1 * (j : ℚ) = t + 0.1 * (((j + 1 : ℕ)) : ℚ) := by
                push_cast
                ring
              rw [this]
              exact hle
            · have : t + 0.1 + 0.1 * (j : ℚ) = t + 0.1 * (((j + 1 : ℕ)) : ℚ) := by
                push_cast
                ring
              rw [this]
              exact hocc
    · rw [if_neg ht]
      simp only [Bool.false_eq_true, false_iff]
      rintro ⟨k, _, hle, _⟩
      apply ht
      have hk : (0 : ℚ) ≤ 0.1 * (k : ℚ) := by positivity
      linarith

/-- With the number of rounds the model gives the loop, the index bound is
no restriction: every sample time within the duration is among the rounds. -/
theorem hasCollisionLoop_sampleBound (W : World) (traj : bspline) (t : ℚ) :
    hasCollisionLoop W traj (sampleBound t traj.getDuration 0.1) t = true ↔
      ∃ k : ℕ, t + 0.1 * (k : ℚ) ≤ traj.getDuration ∧
        W.isInflatedOccupied (traj.atTime (t + 0.1 * (k : ℚ))) = true := by
  rw [hasCollisionLoop_iff]
  constructor
  · rintro ⟨k, _, hle, hocc⟩
    exact ⟨k, hle, hocc⟩
  · rintro ⟨k, hle, hocc⟩
    refine ⟨k, ?_, hle, hocc⟩
    have h1 := sampleBound_gt t traj.getDuration 0.1
    have h2 : (k : ℚ) ≤ (traj.getDuration - t) / 0.1 := by
      rw [le_div_iff₀ (by norm_num)]
      linarith
    have h3 : (k : ℚ) < (sampleBound t traj.getDuration 0.1 : ℚ) := lt_of_le_of_lt h2 h1
    exact_mod_cast h3

/-- With the additions of the loop carried out exactly, `hasCollision()`
answers true exactly when a trajectory is ready and some sample time
`trajTime_ + 0.1 * k`, `k ≥ 0` an integer, lies within the spline duration
and has an inflated-occupied spline position; it answers false when no
trajectory is ready and when `trajTime_` exceeds the duration. -/
theorem hasCollision_exact_iff (W : World) (s : navigation) (d : dynamicNavigation) :
    (navigation.hasCollision W s = true ↔
      s.trajectoryReady_ = true ∧
        ∃ k : ℕ, s.trajTime_ + 0.1 * (k : ℚ) ≤ s.trajectory_.getDuration ∧
          W.isInflatedOccupied
            (s.trajectory_.atTime (s.trajTime_ + 0.1 * (k : ℚ))) = true) ∧
    (dynamicNavigation.hasCollision W d = true ↔
      d.trajectoryReady_ = true ∧
        ∃ k : ℕ, d.trajTime_ + 0.1 * (k : ℚ) ≤ d.trajectory_.getDuration ∧
          W.isInflatedOccupied
            (d.trajectory_.atTime (d.trajTime_ + 0.1 * (k : ℚ))) = true) ∧
    ((s.trajectoryReady_ = false ∨ s.trajTime_ > s.trajectory_.getDuration) →
      navigation.hasCollision W s = false) ∧
    ((d.trajectoryReady_ = false ∨ d.trajTime_ > d.trajectory_.getDuration) →
      dynamicNavigation.hasCollision W d = false) := by
  have hs : navigation.hasCollision W s = true ↔
      s.trajectoryReady_ = true ∧
        ∃ k : ℕ, s.trajTime_ + 0.1 * (k : ℚ) ≤ s.trajectory_.getDuration ∧
          W.isInflatedOccupied
            (s.trajectory_.atTime (s.trajTime_ + 0.1 * (k : ℚ))) = true := by
    unfold navigation.hasCollision
    by_cases hr : s.trajectoryReady_ = true
    · rw [if_pos hr, hasCollisionLoop_sampleBound]
      simp [hr]
    · rw [if_neg hr]
      simp [hr]
  have hd : dynamicNavigation.hasCollision W d = true ↔
      d.trajectoryReady_ = true ∧
        ∃ k : ℕ, d.trajTime_ + 0.1 * (k : ℚ) ≤ d.trajectory_.getDuration ∧
          W.isInflatedOccupied
            (d.trajectory_.atTime (d.trajTime_ + 0.1 * (k : ℚ))) = true := by
    unfold dynamicNavigation.hasCollision
    by_cases hr : d.trajectoryReady_ = true
    · rw [if_pos hr, hasCollisionLoop_sampleBound]
      simp [hr]
    · rw [if_neg hr]
      simp [hr]
  refine ⟨hs, hd, ?_, ?_⟩
  · intro h
    rw [← Bool.not_eq_true, hs]
    rintro ⟨hr, k, hle, _⟩
    rcases h with h | h
    · rw [hr] at h
      cases h
    · have hk : (0 : ℚ) ≤ 0.1 * (k : ℚ) := by positivity
      linarith
  · intro h
    rw [← Bool.not_eq_true, hd]
    rintro ⟨hr, k, hle, _⟩
    rcases h with h | h
    · rw [hr] at h
      cases h
    · have hk : (0 : ℚ) ≤ 0.1 * (k : ℚ) := by positivity
      linarith

/-! ## The combined input path -/

/-- C25: in both navigators (static: `use_global_planner = false`), with a
trajectory active whose terminal point is at distance at least 0.2 from the
goal (0.2 included), every path handed to the spacing check is the residual
sampling of the active trajectory followed by the polynomial sampling
without its first pose; the residual sampling is a prefix of it and, for a
non-empty polynomial sampling, its length is
`|residual| + |polynomial| - 1`. -/
theorem C25_combined_path (W : World) (s : navigation) (d : dynamicNavigation)
    (i : navigation.PlanInput) (j : dynamicNavigation.PlanInput)
    (hg : s.useGlobalPlanner_ = false) (hr : s.trajectoryReady_ = true)
    (hfar : W.norm (Vector3d.sub (s.trajectory_.atTime s.trajectory_.getDuration)
      s.goal_.position) ≥ 0.2)
    (hi : navigation.plannerInput W s = some i)
    (hrd : d.trajectoryReady_ = true)
    (hfard : W.norm (Vector3d.sub (d.trajectory_.atTime d.trajectory_.getDuration)
      d.goal_.position) ≥ 0.2)
    (hj : dynamicNavigation.plannerInput W d = some j) :
    (∃ poly extra,
      poly = W.polyPlan [poseAt (s.trajectory_.atTime s.trajectory_.getDuration), s.goal_]
        [s.trajectory_.derivativeAt s.trajectory_.getDuration, Vector3d.zero,
          s.trajectory_.derivative2At s.trajectory_.getDuration, Vector3d.zero] ∧
      i.state.calls = s.calls ++
        [Call.polyUpdatePath
          [poseAt (s.trajectory_.atTime s.trajectory_.getDuration), s.goal_]
          [s.trajectory_.derivativeAt s.trajectory_.getDuration, Vector3d.zero,
            s.trajectory_.derivative2At s.trajectory_.getDuration, Vector3d.zero],
          Call.polyMakePlan] ++ extra ∧
      ∀ c ∈ extra, ∃ dt tick rest tick1 p,
        navigation.getCurrentTraj s dt tick = some (rest, tick1) ∧
        c = Call.inputPathCheck p dt ∧
        p = rest ++ (poly.getTrajectory dt).drop 1 ∧
        rest <+: p ∧
        (poly.getTrajectory dt ≠ [] →
          p.length = rest.length + (poly.getTrajectory dt).length - 1)) ∧
    (∃ poly extra,
      poly = W.polyPlan [poseAt (d.trajectory_.atTime d.trajectory_.getDuration), d.goal_]
        [d.trajectory_.derivativeAt d.trajectory_.getDuration, Vector3d.zero,
          d.trajectory_.derivative2At d.trajectory_.getDuration, Vector3d.zero] ∧
      j.state.calls = d.calls ++
        [Call.polyUpdatePath
          [poseAt (d.trajectory_.atTime d.trajectory_.getDuration), d.goal_]
          [d.trajectory_.derivativeAt d.trajectory_.getDuration, Vector3d.zero,
            d.trajectory_.derivative2At d.trajectory_.getDuration, Vector3d.zero],
          Call.polyMakePlan] ++ extra ∧
      ∀ c ∈ extra, ∃ dt tick rest tick1 p,
        dynamicNavigation.getCurrentTraj W d dt tick = some (rest, tick1) ∧
        c = Call.inputPathCheck p dt ∧
        p = rest ++ (poly.getTrajectory dt).drop 1 ∧
        rest <+: p ∧
        (poly.getTrajectory dt ≠ [] →
          p.length = rest.length + (poly.getTrajectory dt).length - 1)) := by
  have hlen : ∀ (rest q : Path), q ≠ [] →
      (rest ++ q.drop 1).length = rest.length + q.length - 1 := by
    intro rest q hq
    have : 1 ≤ q.length := List.length_pos.mpr hq
    simp only [List.length_append, List.length_drop]
    omega
  constructor
  · unfold navigation.plannerInput at hi
    simp only [hg, hr, Bool.false_eq_true, if_false, Bool.not_true, if_pos hfar] at hi
    split at hi
    · cases hi
    · rename_i r hrun
      cases hi
      obtain ⟨extra, he, hall⟩ := nav_spacingLoop_log W _ _ _ _ _ hrun
      refine ⟨_, extra, rfl, ?_, ?_⟩
      · simp only [navigation.closeWithPoly]
        rw [he]
        rfl
      · intro c hc
        obtain ⟨dt, tick, p, tick1, hin, hceq⟩ := hall c hc
        unfold navigation.combinedInput at hin
        have hsame : ∀ t, navigation.getCurrentTraj (navigation.planPoly W s
            [poseAt (s.trajectory_.atTime s.trajectory_.getDuration), s.goal_]
            [s.trajectory_.derivativeAt s.trajectory_.getDuration, Vector3d.zero,
              s.trajectory_.derivative2At s.trajectory_.getDuration, Vector3d.zero]) dt t
            = navigation.getCurrentTraj s dt t := fun _ => rfl
        rw [hsame] at hin
        split at hin
        · cases hin
        · rename_i rest tk hget
          simp only [Option.some.injEq, Prod.mk.injEq] at hin
          obtain ⟨hp, htk⟩ := hin
          subst htk
          refine ⟨dt, tick, rest, tk, p, hget, hceq, hp.symm, ?_, ?_⟩
          · rw [← hp]
            exact List.prefix_append _ _
          · intro hne
            rw [← hp]
            exact hlen _ _ hne
  · unfold dynamicNavigation.plannerInput at hj
    simp only [hrd, Bool.false_eq_true, if_false, Bool.not_true, if_pos hfard] at hj
    split at hj
    · cases hj
    · rename_i r hrun
      cases hj
      obtain ⟨extra, he, hall⟩ := dyn_spacingLoop_log W _ _ _ _ hrun
      refine ⟨_, extra, rfl, ?_, ?_⟩
      · simp only [dynamicNavigation.closeWithPoly]
        rw [he]
        rfl
      · intro c hc
        obtain ⟨dt, tick, p, tick1, hin, hceq⟩ := hall c hc
        unfold dynamicNavigation.combinedInput at hin
        have hsame : ∀ t, dynamicNavigation.getCurrentTraj W (dynamicNavigation.planPoly W d
            [poseAt (d.trajectory_.atTime d.trajectory_.getDuration), d.goal_]
            [d.trajectory_.derivativeAt d.trajectory_.getDuration, Vector3d.zero,
              d.trajectory_.derivative2At d.trajectory_.getDuration, Vector3d.zero]) dt t
            = dynamicNavigation.getCurrentTraj W d dt t := fun _ => rfl
        rw [hsame] at hin
        split at hin
        · cases hin
        · rename_i rest tk hget
          simp only [Option.some.injEq, Prod.mk.injEq] at hin
          obtain ⟨hp, htk⟩ := hin
          subst htk
          refine ⟨dt, tick, rest, tk, p, hget, hceq, hp.symm, ?_, ?_⟩
          · rw [← hp]
            exact List.prefix_append _ _
          · intro hne
            rw [← hp]
            exact hlen _ _ hne

/-- C25 applied to both navigators flying `demoSpline` with the goal exactly
0.2 beyond the end of the spline. -/
theorem C25_combined_path_witness :
    ∃ i j, navigation.plannerInput (demoWorld true true true false []) demoNavBoundary
        = some i ∧
      dynamicNavigation.plannerInput (demoWorld true true true false []) demoDynBoundary
        = some j ∧
      (demoWorld true true true false []).norm (Vector3d.sub
        (demoNavBoundary.trajectory_.atTime demoNavBoundary.trajectory_.getDuration)
        demoNavBoundary.goal_.position) = 0.2 ∧
      (∃ extra, i.state.calls =
          [Call.polyUpdatePath [poseAt ⟨1, 0, 0⟩, poseAt ⟨6 / 5, 0, 0⟩]
            [⟨1, 0, 0⟩, Vector3d.zero, Vector3d.zero, Vector3d.zero],
            Call.polyMakePlan] ++ extra ∧
        ∀ c ∈ extra, ∃ dt tick rest tick1 p,
          navigation.getCurrentTraj demoNavBoundary dt tick = some (rest, tick1) ∧
          c = Call.inputPathCheck p dt ∧
          p = rest ++ [poseAt ⟨5, 0, 0⟩]) ∧
      (∃ extra, j.state.calls =
          [Call.polyUpdatePath [poseAt ⟨1, 0, 0⟩, poseAt ⟨6 / 5, 0, 0⟩]
            [⟨1, 0, 0⟩, Vector3d.zero, Vector3d.zero, Vector3d.zero],
            Call.polyMakePlan] ++ extra ∧
        ∀ c ∈ extra, ∃ dt tick rest tick1 p,
          dynamicNavigation.getCurrentTraj (demoWorld true true true false [])
            demoDynBoundary dt tick = some (rest, tick1) ∧
          c = Call.inputPathCheck p dt ∧
          p = rest ++ [poseAt ⟨5, 0, 0⟩]) := by
  obtain ⟨i, hi⟩ := nav_plannerInput_total (demoWorld true true true false [])
    demoNavBoundary (by norm_num [demoWorld])
    (fun h => by simp [demoNavBoundary, demoNav] at h)
  obtain ⟨j, hj⟩ := dyn_plannerInput_total (demoWorld true true true false [])
    demoDynBoundary (by norm_num [demoWorld])
  have hdist : (demoWorld true true true false []).norm (Vector3d.sub
      (demoNavBoundary.trajectory_.atTime demoNavBoundary.trajectory_.getDuration)
      demoNavBoundary.goal_.position) = 0.2 := by
    norm_num [demoWorld, demoNavBoundary, demoNav, demoSpline, Vector3d.sub, poseAt]
  have hdistd : (demoWorld true true true false []).norm (Vector3d.sub
      (demoDynBoundary.trajectory_.atTime demoDynBoundary.trajectory_.getDuration)
      demoDynBoundary.goal_.position) = 0.2 := by
    norm_num [demoWorld, demoDynBoundary, demoDyn, demoSpline, Vector3d.sub, poseAt]
  obtain ⟨⟨poly, extra, hpoly, hc, hall⟩, ⟨polyd, extrad, hpolyd, hcd, halld⟩⟩ :=
    C25_combined_path (demoWorld true true true false []) demoNavBoundary demoDynBoundary
      i j rfl rfl (le_of_eq hdist.symm) hi rfl (le_of_eq hdistd.symm) hj
  have hp : ∀ dt, (poly.getTrajectory dt).drop 1 = [poseAt ⟨5, 0, 0⟩] := by
    intro dt
    rw [hpoly]
    rfl
  have hpd : ∀ dt, (polyd.getTrajectory dt).drop 1 = [poseAt ⟨5, 0, 0⟩] := by
    intro dt
    rw [hpolyd]
    rfl
  refine ⟨i, j, hi, hj, hdist, ⟨extra, ?_, ?_⟩, ⟨extrad, ?_, ?_⟩⟩
  · rw [hc]
    simp [demoNavBoundary, demoNav, demoSpline, Vector3d.zero]
  · intro c hcm
    obtain ⟨dt, tick, rest, tick1, p, h1, h2, h3, _, _⟩ := hall c hcm
    exact ⟨dt, tick, rest, tick1, p, h1, h2, by rw [h3, hp]⟩
  · rw [hcd]
    simp [demoDynBoundary, demoDyn, demoSpline, Vector3d.zero]
  · intro c hcm
    obtain ⟨dt, tick, rest, tick1, p, h1, h2, h3, _, _⟩ := halld c hcm
    exact ⟨dt, tick, rest, tick1, p, h1, h2, by rw [h3, hpd]⟩
/-! ## The rest of the global path -/

/-- The search loop of `getRestGlobalPath` over the vertices `0 .. m-1`:
either no vertex passed the guard and the accumulator is still the initial
one, or it holds the first vertex of least distance among those that
passed. -/
theorem restPath_fold (W : World) (poses : Path) (pCurr : Vector3d) (n0 : Nat) (m : Nat) :
    ((List.range m).foldl (navigation.restPathStep W poses pCurr) (n0, none) = (n0, none) ∧
      ∀ i < m, ¬ navigation.restGuard W poses pCurr i) ∨
    (∃ k < m, (List.range m).foldl (navigation.restPathStep W poses pCurr) (n0, none)
        = (k, some (navigation.restDist W poses pCurr k)) ∧
      navigation.restGuard W poses pCurr k ∧
      ∀ i < m, navigation.restGuard W poses pCurr i →
        navigation.restDist W poses pCurr k ≤ navigation.restDist W poses pCurr i ∧
        (i < k → navigation.restDist W poses pCurr k < navigation.restDist W poses pCurr i)) := by
  induction m with
  | zero =>
    left
    exact ⟨rfl, fun i hi => absurd hi (Nat.not_lt_zero i)⟩
  | succ m ih =>
    rw [List.range_succ, List.foldl_append]
    simp only [List.foldl_cons, List.foldl_nil]
    rcases ih with ⟨hacc, hnone⟩ | ⟨k, hk, hacc, hSk, hmin⟩
    · rw [hacc]
      by_cases hS : navigation.restGuard W poses pCurr m
      · right
        refine ⟨m, Nat.lt_succ_self m, ?_, hS, ?_⟩
        · unfold navigation.restPathStep
          unfold navigation.restGuard at hS
          simp only [if_pos hS]
          rfl
        · intro i hi hSi
          have him : i = m := by
            rcases Nat.lt_succ_iff_lt_or_eq.mp hi with h | h
            · exact absurd hSi (hnone i h)
            · exact h
          subst him
          exact ⟨le_refl _, fun h => absurd h (lt_irrefl _)⟩
      · left
        refine ⟨?_, ?_⟩
        · unfold navigation.restPathStep
          unfold navigation.restGuard at hS
          simp only [if_neg hS]
        · intro i hi
          rcases Nat.lt_succ_iff_lt_or_eq.mp hi with h | h
          · exact hnone i h
          · rw [h]
            exact hS
    · rw [hacc]
      right
      by_cases hS : navigation.restGuard W poses pCurr m
      · by_cases hd : navigation.restDist W poses pCurr m < navigation.restDist W poses pCurr k
        · refine ⟨m, Nat.lt_succ_self m, ?_, hS, ?_⟩
          · unfold navigation.restPathStep
            have hS2 := hS
            unfold navigation.restGuard at hS2
            simp only [if_pos hS2]
            exact if_pos hd
          · intro i hi hSi
            rcases Nat.lt_succ_iff_lt_or_eq.mp hi with h | h
            · have := (hmin i h hSi).1
              exact ⟨le_of_lt (lt_of_lt_of_le hd this), fun _ => lt_of_lt_of_le hd this⟩
            · subst h
              exact ⟨le_refl _, fun h => absurd h (lt_irrefl _)⟩
        · refine ⟨k, Nat.lt_succ_of_lt hk, ?_, hSk, ?_⟩
          · unfold navigation.restPathStep
            have hS2 := hS
            unfold navigation.restGuard at hS2
            simp only [if_pos hS2]
            exact if_neg hd
          · intro i hi hSi
            rcases Nat.lt_succ_iff_lt_or_eq.mp hi with h | h
            · exact hmin i h hSi
            · subst h
              exact ⟨not_lt.mp hd, fun h => absurd h (Nat.lt_asymm hk)⟩
      · refine ⟨k, Nat.lt_succ_of_lt hk, ?_, hSk, ?_⟩
        · unfold navigation.restPathStep
          unfold navigation.restGuard at hS
          simp only [if_neg hS]
        · intro i hi hSi
          rcases Nat.lt_succ_iff_lt_or_eq.mp hi with h | h
          · exact hmin i h hSi
          · subst h
            exact absurd hSi hS

/-- C26: for a stored global path of `n ≥ 2` vertices and every current
position, `getRestGlobalPath` returns the current odometry pose followed by
the vertices from index `k` on, where `k` is the lowest index of least
distance to the current position among the non-final vertices whose
outgoing segment makes an angle of more than `PI_const*3/4` with the vector
from the vertex to the current position, and `k = n - 1` when there is no
such vertex; the result has at least two poses, begins with the current
pose and ends with the last vertex. -/
theorem C26_rest_global_path (W : World) (s : navigation)
    (hn : 2 ≤ s.rrtPathMsg_.length) :
    ∃ k, navigation.getRestGlobalPath W s = some (s.odom_ :: s.rrtPathMsg_.drop k) ∧
      k ≤ s.rrtPathMsg_.length - 1 ∧
      ((∀ i < s.rrtPathMsg_.length - 1,
          ¬ navigation.restGuard W s.rrtPathMsg_ s.odom_.position i) →
        k = s.rrtPathMsg_.length - 1) ∧
      ((∃ i < s.rrtPathMsg_.length - 1,
          navigation.restGuard W s.rrtPathMsg_ s.odom_.position i) →
        k < s.rrtPathMsg_.length - 1 ∧
        navigation.restGuard W s.rrtPathMsg_ s.odom_.position k ∧
        ∀ i < s.rrtPathMsg_.length - 1,
          navigation.restGuard W s.rrtPathMsg_ s.odom_.position i →
            navigation.restDist W s.rrtPathMsg_ s.odom_.position k ≤
              navigation.restDist W s.rrtPathMsg_ s.odom_.position i ∧
            (i < k → navigation.restDist W s.rrtPathMsg_ s.odom_.position k <
              navigation.restDist W s.rrtPathMsg_ s.odom_.position i)) ∧
      2 ≤ (s.odom_ :: s.rrtPathMsg_.drop k).length ∧
      (s.odom_ :: s.rrtPathMsg_.drop k).head? = some s.odom_ ∧
      (s.odom_ :: s.rrtPathMsg_.drop k).getLast? = s.rrtPathMsg_.getLast? := by
  have hne : ¬ s.rrtPathMsg_.length = 0 := by omega
  have hshape : ∀ k, k ≤ s.rrtPathMsg_.length - 1 →
      2 ≤ (s.odom_ :: s.rrtPathMsg_.drop k).length ∧
      (s.odom_ :: s.rrtPathMsg_.drop k).head? = some s.odom_ ∧
      (s.odom_ :: s.rrtPathMsg_.drop k).getLast? = s.rrtPathMsg_.getLast? := by
    intro k hk
    have hlen : 1 ≤ (s.rrtPathMsg_.drop k).length := by
      rw [List.length_drop]
      omega
    refine ⟨?_, rfl, ?_⟩
    · simp only [List.length_cons]
      omega
    · have hd : s.rrtPathMsg_.drop k ≠ [] := by
        intro h
        rw [h] at hlen
        simp at hlen
      obtain ⟨a, l, hal⟩ := List.exists_cons_of_ne_nil hd
      rw [hal, List.getLast?_cons_cons, ← hal]
      conv_rhs => rw [← List.take_append_drop k s.rrtPathMsg_]
      rw [List.getLast?_append_of_ne_nil _ hd]
  rcases restPath_fold W s.rrtPathMsg_ s.odom_.position (s.rrtPathMsg_.length - 1)
      (s.rrtPathMsg_.length - 1) with ⟨hacc, hnone⟩ | ⟨k, hk, hacc, hSk, hmin⟩
  · refine ⟨s.rrtPathMsg_.length - 1, ?_, le_refl _, fun _ => rfl, ?_, hshape _ (le_refl _)⟩
    · unfold navigation.getRestGlobalPath
      rw [if_neg hne]
      simp only [hacc]
    · rintro ⟨i, hi, hSi⟩
      exact absurd hSi (hnone i hi)
  · refine ⟨k, ?_, le_of_lt hk, ?_, fun _ => ⟨hk, hSk, hmin⟩, hshape _ (le_of_lt hk)⟩
    · unfold navigation.getRestGlobalPath
      rw [if_neg hne]
      simp only [hacc]
    · intro hall
      exact absurd hSk (hall k hk)

/-- C26 applied to a navigator at `(3/2,0,0)` on a straight four-vertex
path: only the vertices beyond the vehicle pass the guard, and the rest of
the path starts at the vertex `(2,0,0)`. -/
theorem C26_rest_global_path_witness :
    2 ≤ demoNavOnPath.rrtPathMsg_.length ∧
    (∃ k, navigation.getRestGlobalPath demoWorldAngles demoNavOnPath
        = some (demoNavOnPath.odom_ :: demoNavOnPath.rrtPathMsg_.drop k) ∧
      k ≤ demoNavOnPath.rrtPathMsg_.length - 1) ∧
    navigation.getRestGlobalPath demoWorldAngles demoNavOnPath
      = some [poseAt ⟨3 / 2, 0, 0⟩, poseAt ⟨2, 0, 0⟩, poseAt ⟨3, 0, 0⟩] := by
  have hn : 2 ≤ demoNavOnPath.rrtPathMsg_.length := by
    simp [demoNavOnPath]
  obtain ⟨k, hk, hk2, _⟩ := C26_rest_global_path demoWorldAngles demoNavOnPath hn
  refine ⟨hn, ⟨k, hk, hk2⟩, ?_⟩
  norm_num [navigation.getRestGlobalPath, navigation.restPathStep, demoNavOnPath,
    demoWorldAngles, demoWorld, demoNav, poseAt, Vector3d.sub, List.range_succ,
    Vector3d.zero]
/-! ## The global planner runs once per goal -/

/-- The input construction of the static navigator either is the
global-planner round, or leaves the RRT call count and the global-plan
members unchanged. -/
theorem nav_plannerInput_global (W : World) (s : navigation) (i : navigation.PlanInput)
    (hi : navigation.plannerInput W s = some i) :
    (s.needGlobalPlan_ = true ∧ i.state = navigation.globalPlan W s) ∨
    (i.state.calls.countP Call.isRrtMakePlan = s.calls.countP Call.isRrtMakePlan ∧
      i.state.needGlobalPlan_ = s.needGlobalPlan_ ∧
      i.state.globalPlanReady_ = s.globalPlanReady_ ∧
      i.state.rrtPathMsg_ = s.rrtPathMsg_) := by
  have hq : ∀ p dt, Call.isRrtMakePlan (Call.inputPathCheck p dt) = false := fun _ _ => rfl
  unfold navigation.plannerInput at hi
  simp only at hi
  split_ifs at hi with h1 h2 h3 h4 h5
  · cases hi
    exact Or.inl ⟨h2, rfl⟩
  · right
    split at hi
    · cases hi
    · split at hi
      · cases hi
      · rename_i r hrun
        cases hi
        have := nav_spacingLoop_countP W _ _ _ _ hq _ _ hrun
        simp only [navigation.closeWithPoly]
        rw [this]
        simp [navigation.planPoly, List.countP_append, Call.isRrtMakePlan]
  · cases hi
    exact Or.inr ⟨rfl, rfl, rfl, rfl⟩
  · right
    split at hi
    · cases hi
    · rename_i r hrun
      cases hi
      have := nav_spacingLoop_countP W _ _ _ _ hq _ _ hrun
      simp only [navigation.closeWithPoly]
      rw [this]
      simp [navigation.planPoly, List.countP_append, Call.isRrtMakePlan]
  · right
    split at hi
    · cases hi
    · rename_i r hrun
      cases hi
      have := nav_spacingLoop_countP W _ _ _ _ hq _ _ hrun
      simp only [navigation.closeWithPoly]
      rw [this]
      simp [navigation.planPoly, List.countP_append, Call.isRrtMakePlan]
  · right
    split at hi
    · cases hi
    · rename_i r hrun
      cases hi
      have := nav_spacingLoop_countP W _ _ _ _ hq _ _ hrun
      simp only
      rw [this]
      simp

/-- The second part of the static `plannerCB` leaves the RRT call count and
the global-plan members unchanged. -/
theorem nav_plannerFinish_global (W : World) (i : navigation.PlanInput) (s' : navigation)
    (h : navigation.plannerFinish W i = some s') :
    s'.calls.countP Call.isRrtMakePlan = i.state.calls.countP Call.isRrtMakePlan ∧
      s'.needGlobalPlan_ = i.state.needGlobalPlan_ ∧
      s'.globalPlanReady_ = i.state.globalPlanReady_ ∧
      s'.rrtPathMsg_ = i.state.rrtPathMsg_ := by
  unfold navigation.plannerFinish at h
  simp only at h
  split_ifs at h with h1 h2 h3
  · cases h
    simp [navigation.acceptPlan, navigation.storePlan, navigation.bindInput,
      List.countP_append, Call.isRrtMakePlan]
  · cases h
    unfold navigation.rejectPlan
    split_ifs <;>
      simp [navigation.storePlan, navigation.bindInput,
        List.countP_append, Call.isRrtMakePlan]
  · cases h
    simp [navigation.bindInput, List.countP_append, Call.isRrtMakePlan]

/-- The global-planner round logs exactly one RRT call. -/
theorem nav_globalPlan_count (W : World) (s : navigation) :
    (navigation.globalPlan W s).calls.countP Call.isRrtMakePlan =
      s.calls.countP Call.isRrtMakePlan + 1 := by
  by_cases hlen : (W.rrtMakePlan s.odom_ s.goal_).length ≥ 2
  · simp only [navigation.globalPlan, if_pos hlen]
    simp [List.countP_append, Call.isRrtMakePlan]
  · simp only [navigation.globalPlan, if_neg hlen]
    simp [List.countP_append, Call.isRrtMakePlan]

/-- The global-planner round clears `needGlobalPlan_`, whatever the RRT
planner returned. -/
theorem nav_globalPlan_need (W : World) (s : navigation) :
    (navigation.globalPlan W s).needGlobalPlan_ = false := by
  by_cases hlen : (W.rrtMakePlan s.odom_ s.goal_).length ≥ 2
  · simp only [navigation.globalPlan, if_pos hlen]
  · simp only [navigation.globalPlan, if_neg hlen]

/-- The global-planner round marks the global plan ready only with a stored
path of at least two vertices. -/
theorem nav_globalPlan_ready (W : World) (s : navigation)
    (hinv : s.globalPlanReady_ = true → 2 ≤ s.rrtPathMsg_.length) :
    (navigation.globalPlan W s).globalPlanReady_ = true →
      2 ≤ (navigation.globalPlan W s).rrtPathMsg_.length := by
  by_cases hlen : (W.rrtMakePlan s.odom_ s.goal_).length ≥ 2
  · simp only [navigation.globalPlan, if_pos hlen]
    exact fun _ => hlen
  · simp only [navigation.globalPlan, if_neg hlen]
    exact hinv

/-- The static executor leaves the RRT call count and the global-plan
members unchanged. -/
theorem nav_trajExeCB_global (W : World) (s : navigation) :
    (navigation.trajExeCB W s).calls.countP Call.isRrtMakePlan =
      s.calls.countP Call.isRrtMakePlan ∧
    (navigation.trajExeCB W s).needGlobalPlan_ = s.needGlobalPlan_ ∧
    (navigation.trajExeCB W s).globalPlanReady_ = s.globalPlanReady_ ∧
    (navigation.trajExeCB W s).rrtPathMsg_ = s.rrtPathMsg_ := by
  by_cases hr : s.trajectoryReady_ = true
  · simp only [navigation.trajExeCB, if_pos hr, navigation.exeTime]
    simp [List.countP_append, Call.isRrtMakePlan]
  · simp only [navigation.trajExeCB, if_neg hr]
    simp

/-- The static policy callback never touches the stored global path, never
sets `globalPlanReady_`, and logs no RRT call. -/
theorem nav_replanCheckCB_global (W : World) (s : navigation) :
    (navigation.replanCheckCB W s).calls.countP Call.isRrtMakePlan =
      s.calls.countP Call.isRrtMakePlan ∧
    (navigation.replanCheckCB W s).rrtPathMsg_ = s.rrtPathMsg_ ∧
    ((navigation.replanCheckCB W s).globalPlanReady_ = true → s.globalPlanReady_ = true) ∧
    (s.goalReceived_ = false →
      (navigation.replanCheckCB W s).needGlobalPlan_ = s.needGlobalPlan_) := by
  by_cases hg : s.goalReceived_ = true
  · simp only [navigation.replanCheckCB, hg, if_true]
    by_cases h1 : (!s.noYawTurning_ && !s.useYawControl_) = true <;>
      by_cases h2 : s.useGlobalPlanner_ = true <;>
      simp [h1, h2, List.countP_append, Call.isRrtMakePlan]
  · simp only [navigation.replanCheckCB, if_neg hg]
    split_ifs <;> simp [List.countP_append, Call.isRrtMakePlan]

/-- One event that is not a new-goal step keeps the sum of the RRT call
count and the pending flag `needGlobalPlan_`, and never sets the flag. -/
theorem nav_step_global (s s1 : navigation) (e : navigation.Event)
    (hstep : navigation.step s e = some s1) (hnew : navigation.isNewGoalStep s e = false) :
    s1.rrtCalls + (if s1.needGlobalPlan_ then 1 else 0) =
      s.rrtCalls + (if s.needGlobalPlan_ then 1 else 0) ∧
    (s1.needGlobalPlan_ = true → s.needGlobalPlan_ = true) := by
  cases e with
  | plannerCB W =>
    simp only [navigation.step] at hstep
    unfold navigation.plannerCB at hstep
    split_ifs at hstep with h1 h2
    · cases hstep
      exact ⟨rfl, id⟩
    · split at hstep
      · cases hstep
      · rename_i i hi
        obtain ⟨f1, f2, _, _⟩ := nav_plannerFinish_global W i s1 hstep
        unfold navigation.rrtCalls
        rw [f1, f2]
        rcases nav_plannerInput_global W s i hi with ⟨hneed, hst⟩ | ⟨g1, g2, _, _⟩
        · rw [hst, hneed, nav_globalPlan_count W s, nav_globalPlan_need W s]
          simp
        · rw [g1, g2]
          exact ⟨rfl, id⟩
    · cases hstep
      exact ⟨rfl, id⟩
  | replanCheckCB W =>
    simp only [navigation.isNewGoalStep] at hnew
    simp only [navigation.step, Option.some.injEq] at hstep
    subst hstep
    obtain ⟨c1, _, _, c4⟩ := nav_replanCheckCB_global W s
    unfold navigation.rrtCalls
    rw [c1, c4 hnew]
    exact ⟨rfl, id⟩
  | trajExeCB W =>
    simp only [navigation.step, Option.some.injEq] at hstep
    subst hstep
    obtain ⟨c1, c2, _, _⟩ := nav_trajExeCB_global W s
    unfold navigation.rrtCalls
    rw [c1, c2]
    exact ⟨rfl, id⟩
  | subscribers odom goal firstGoal goalReceived =>
    simp only [navigation.step, Option.some.injEq] at hstep
    subst hstep
    exact ⟨rfl, id⟩

/-- Every event, new-goal steps included, keeps the property that a global
plan marked ready has at least two vertices. -/
theorem nav_step_ready (s s1 : navigation) (e : navigation.Event)
    (hstep : navigation.step s e = some s1)
    (hinv : s.globalPlanReady_ = true → 2 ≤ s.rrtPathMsg_.length) :
    s1.globalPlanReady_ = true → 2 ≤ s1.rrtPathMsg_.length := by
  cases e with
  | plannerCB W =>
    simp only [navigation.step] at hstep
    unfold navigation.plannerCB at hstep
    split_ifs at hstep with h1 h2
    · cases hstep
      exact hinv
    · split at hstep
      · cases hstep
      · rename_i i hi
        obtain ⟨_, _, f3, f4⟩ := nav_plannerFinish_global W i s1 hstep
        rw [f3, f4]
        rcases nav_plannerInput_global W s i hi with ⟨_, hst⟩ | ⟨_, _, g3, g4⟩
        · rw [hst]
          exact nav_globalPlan_ready W s hinv
        · rw [g3, g4]
          exact hinv
    · cases hstep
      exact hinv
  | replanCheckCB W =>
    simp only [navigation.step, Option.some.injEq] at hstep
    subst hstep
    obtain ⟨_, c2, c3, _⟩ := nav_replanCheckCB_global W s
    rw [c2]
    exact fun h => hinv (c3 h)
  | trajExeCB W =>
    simp only [navigation.step, Option.some.injEq] at hstep
    subst hstep
    obtain ⟨_, _, c3, c4⟩ := nav_trajExeCB_global W s
    rw [c3, c4]
    exact hinv
  | subscribers odom goal firstGoal goalReceived =>
    simp only [navigation.step, Option.some.injEq] at hstep
    subst hstep
    exact hinv

/-- C21: in the static navigator, over any sequence of timer firings and
subscriber writes that contains no new-goal step, the RRT planner is called
at most once, and not at all when no global plan is pending at the start (a
failed global plan is not retried); and every event keeps the property that
`globalPlanReady_` is set only while the stored `rrtPathMsg_` has at least
two vertices. -/
theorem C21_global_plan_once (es : List navigation.Event) :
    ∀ s s' : navigation, navigation.run s es = some s' →
      (navigation.noNewGoalStep s es = true →
        s'.rrtCalls ≤ s.rrtCalls + 1 ∧
        (s.needGlobalPlan_ = false → s'.rrtCalls = s.rrtCalls)) ∧
      ((s.globalPlanReady_ = true → 2 ≤ s.rrtPathMsg_.length) →
        (s'.globalPlanReady_ = true → 2 ≤ s'.rrtPathMsg_.length)) := by
  have key : ∀ (es : List navigation.Event) (s s' : navigation),
      navigation.run s es = some s' →
      (navigation.noNewGoalStep s es = true →
        s'.rrtCalls + (if s'.needGlobalPlan_ then 1 else 0) =
          s.rrtCalls + (if s.needGlobalPlan_ then 1 else 0) ∧
        (s'.needGlobalPlan_ = true → s.needGlobalPlan_ = true)) ∧
      ((s.globalPlanReady_ = true → 2 ≤ s.rrtPathMsg_.length) →
        (s'.globalPlanReady_ = true → 2 ≤ s'.rrtPathMsg_.length)) := by
    intro es
    induction es with
    | nil =>
      intro s s' hrun
      simp only [navigation.run, Option.some.injEq] at hrun
      subst hrun
      exact ⟨fun _ => ⟨rfl, id⟩, id⟩
    | cons e es ih =>
      intro s s' hrun
      simp only [navigation.run] at hrun
      split at hrun
      · cases hrun
      · rename_i s1 hstep
        obtain ⟨ih1, ih2⟩ := ih s1 s' hrun
        refine ⟨?_, fun hinv => ih2 (nav_step_ready s s1 e hstep hinv)⟩
        intro hno
        simp only [navigation.noNewGoalStep, hstep, Bool.and_eq_true,
          Bool.not_eq_true'] at hno
        obtain ⟨a1, a2⟩ := nav_step_global s s1 e hstep hno.1
        obtain ⟨b1, b2⟩ := ih1 hno.2
        exact ⟨b1.trans a1, fun h => a2 (b2 h)⟩
  intro s s' hrun
  obtain ⟨k1, k2⟩ := key es s s' hrun
  refine ⟨?_, k2⟩
  intro hno
  obtain ⟨e1, e2⟩ := k1 hno
  constructor
  · have : (if s.needGlobalPlan_ = true then 1 else 0) ≤ 1 := by split_ifs <;> omega
    omega
  · intro hneed
    have h2 : ¬ s'.needGlobalPlan_ = true := by
      intro h
      rw [e2 h] at hneed
      cases hneed
    rw [if_neg h2] at e1
    simp only [hneed, Bool.false_eq_true, if_false] at e1
    omega

/-- C21 applied to a navigator after its new-goal step in a world whose RRT
planner fails: two planner rounds with `replan_` set log one RRT call. -/
theorem C21_global_plan_once_witness :
    ∃ s', navigation.run demoNavNewGoal
        [navigation.Event.plannerCB demoWorldNoRrtNoUpdate,
          navigation.Event.plannerCB demoWorldNoRrtNoUpdate] = some s' ∧
      s'.replan_ = true ∧
      s'.rrtCalls = 1 ∧
      s'.rrtCalls ≤ demoNavNewGoal.rrtCalls + 1 ∧
      s'.globalPlanReady_ = false := by
  have hrun : navigation.run demoNavNewGoal
      [navigation.Event.plannerCB demoWorldNoRrtNoUpdate,
        navigation.Event.plannerCB demoWorldNoRrtNoUpdate] =
      some (navigation.bindInput ⟨navigation.bindInput
        ⟨navigation.globalPlan demoWorldNoRrtNoUpdate demoNavNewGoal, [],
          navigation.getStartEndConditions demoNavNewGoal [], 0⟩, [],
          navigation.getStartEndConditions demoNavNewGoal [], 0⟩) := by
    rfl
  have h := C21_global_plan_once _ _ _ hrun
  refine ⟨_, hrun, rfl, ?_, (h.1 rfl).1, rfl⟩
  simp [navigation.rrtCalls, navigation.bindInput, navigation.globalPlan,
    demoWorldNoRrtNoUpdate, demoWorld, demoNavNewGoal, demoNav, List.countP_cons,
    Call.isRrtMakePlan]

/-! ## Planner limits set by `initModules` -/

/-- C22 at its failing input: with desired velocity 1 and desired
acceleration 2 the static `initModules` hands the polynomial planner the
desired acceleration 1, the velocity value, while it hands the B-spline
optimizer the acceleration 2; the dynamic `initModules` hands the polynomial
planner the configured velocity and acceleration for every pair. -/
theorem C22_limits_at_failing_input :
    demoNavLimits.desiredVel_ = 1 ∧ demoNavLimits.desiredAcc_ = 2 ∧
    (navigation.initModules demoNavLimits).updateDesiredVel = 1 ∧
    (navigation.initModules demoNavLimits).updateDesiredAcc = 1 ∧
    (navigation.initModules demoNavLimits).updateMaxAcc = 2 ∧
    (∀ s : navigation, (navigation.initModules s).updateDesiredAcc = s.desiredVel_) ∧
    (∀ d : dynamicNavigation,
      (dynamicNavigation.initModules d).updateDesiredVel = d.desiredVel_ ∧
      (dynamicNavigation.initModules d).updateDesiredAcc = d.desiredAcc_) :=
  ⟨rfl, rfl, rfl, rfl, rfl, fun _ => rfl, fun _ => ⟨rfl, rfl⟩⟩

/-! ## The divisor of the acceleration estimate -/

/-- After any state update the next one takes the finite-difference branch,
and its divisor is the difference of the two clock readings. -/
theorem stateUpdateCB_next (W1 W2 : World) (d : dynamicNavigation) :
    (dynamicNavigation.stateUpdateCB W1 d).stateUpdateFirstTime_ = false ∧
    dynamicNavigation.stateUpdateDt W2 (dynamicNavigation.stateUpdateCB W1 d) =
      W2.now 0 - W1.now 0 ∧
    (dynamicNavigation.stateUpdateCB W2 (dynamicNavigation.stateUpdateCB W1 d)).currAcc_ =
      (Vector3d.sub ((W2.quat2RotMatrix d.odom_.orientation).mulVec d.odomTwistLinear_)
        (dynamicNavigation.stateUpdateCB W1 d).prevVel_).sdiv
        (dynamicNavigation.stateUpdateDt W2 (dynamicNavigation.stateUpdateCB W1 d)) := by
  by_cases hf : d.stateUpdateFirstTime_ = true
  · simp [dynamicNavigation.stateUpdateCB, dynamicNavigation.stateUpdateDt, hf]
  · simp [dynamicNavigation.stateUpdateCB, dynamicNavigation.stateUpdateDt, hf]

/-- C27 (as amended). For every pair of consecutive calls of
`dynamicNavigation::stateUpdateCB` whose clock readings are strictly
increasing, the second call takes the finite-difference branch and the
divisor `dt = currTime - prevStateTime_` it divides by is the difference of
the two readings, which is positive and so non-zero. -/
theorem C27_state_update_divisor (W1 W2 : World) (d : dynamicNavigation)
    (hlt : W1.now 0 < W2.now 0) :
    (dynamicNavigation.stateUpdateCB W1 d).stateUpdateFirstTime_ = false ∧
    dynamicNavigation.stateUpdateDt W2 (dynamicNavigation.stateUpdateCB W1 d) =
      W2.now 0 - W1.now 0 ∧
    0 < dynamicNavigation.stateUpdateDt W2 (dynamicNavigation.stateUpdateCB W1 d) ∧
    dynamicNavigation.stateUpdateDt W2 (dynamicNavigation.stateUpdateCB W1 d) ≠ 0 ∧
    (dynamicNavigation.stateUpdateCB W2 (dynamicNavigation.stateUpdateCB W1 d)).currAcc_ =
      (Vector3d.sub ((W2.quat2RotMatrix d.odom_.orientation).mulVec d.odomTwistLinear_)
        (dynamicNavigation.stateUpdateCB W1 d).prevVel_).sdiv
        (dynamicNavigation.stateUpdateDt W2 (dynamicNavigation.stateUpdateCB W1 d)) := by
  obtain ⟨h1, h2, h3⟩ := stateUpdateCB_next W1 W2 d
  have hpos : 0 < dynamicNavigation.stateUpdateDt W2 (dynamicNavigation.stateUpdateCB W1 d) := by
    rw [h2]
    linarith
  exact ⟨h1, h2, hpos, ne_of_gt hpos, h3⟩

/-- C27 applied to two state updates read at clock 1 and clock 2: the
divisor is 1. -/
theorem C27_state_update_divisor_witness :
    (demoWorldAt 1).now 0 < (demoWorldAt 2).now 0 ∧
    dynamicNavigation.stateUpdateDt (demoWorldAt 2)
      (dynamicNavigation.stateUpdateCB (demoWorldAt 1) (demoDyn false false false)) = 1 := by
  have hlt : (demoWorldAt 1).now 0 < (demoWorldAt 2).now 0 := by
    norm_num [demoWorldAt]
  refine ⟨hlt, ?_⟩
  rw [(C27_state_update_divisor (demoWorldAt 1) (demoWorldAt 2)
    (demoDyn false false false) hlt).2.1]
  norm_num [demoWorldAt]

/-- C27 fails as stated: two consecutive state updates, neither of them the
first, whose clock readings are non-decreasing because they are equal,
divide by `dt = 0`. -/
theorem C27_counterexample :
    (demoDyn false false false).stateUpdateFirstTime_ = false ∧
    (demoWorldAt 1).now 0 ≤ (demoWorldAt 1).now 0 ∧
    (dynamicNavigation.stateUpdateCB (demoWorldAt 1)
      (demoDyn false false false)).stateUpdateFirstTime_ = false ∧
    dynamicNavigation.stateUpdateDt (demoWorldAt 1)
      (dynamicNavigation.stateUpdateCB (demoWorldAt 1) (demoDyn false false false)) = 0 := by
  refine ⟨rfl, le_refl _, ?_, ?_⟩
  · exact (stateUpdateCB_next (demoWorldAt 1) (demoWorldAt 1) (demoDyn false false false)).1
  · rw [(stateUpdateCB_next (demoWorldAt 1) (demoWorldAt 1) (demoDyn false false false)).2.1]
    norm_num
/-! ## Where the static executor takes its linear factor from -/

/-- An integer within the range of a 32-bit `int` is its own wrapped
value. -/
theorem toInt32_eq (x : Int) (h1 : -(2 ^ 31) ≤ x) (h2 : x < 2 ^ 31) : toInt32 x = x := by
  unfold toInt32
  norm_num at h1 h2 ⊢
  omega

/-- A wrapped value lies within the range of a 32-bit `int`. -/
theorem toInt32_range (x : Int) : -(2 ^ 31) ≤ toInt32 x ∧ toInt32 x < 2 ^ 31 := by
  unfold toInt32
  norm_num
  omega

/-- C28: for trajectory data of `n ≥ 1` poses (with the member defaults
`forwardIdx = 5`, `minIdx = 3`, and `idx + 5` and `n - 1` within the range
of `int`), `getPose()`, `getPose(psCurr)` and `getPoseWithoutYaw(psCurr)`
read `trajectory.poses` at index `min(max(idx+5,3), n-1)`, which lies in
`[0, n-1]`, for the value `idx` returned by `getCurrIdx`, and set
`currTrajectory.poses` to the possibly empty suffix of `trajectory.poses`
from index `max(idx+5,3)`, preceded by `psCurr` in the two overloads that
take it. -/
theorem C28_look_ahead (W : World) (d : trajData) (psCurr : Pose)
    (hn : 1 ≤ d.trajectory.length) (hsize : (d.trajectory.length : Int) ≤ 2 ^ 31)
    (hf : d.forwardIdx = 5) (hm : d.minIdx = 3)
    (hidx : (trajData.getCurrIdx W d).1 + 5 < 2 ^ 31) :
    0 ≤ min (max ((trajData.getCurrIdx W d).1 + 5) 3) ((d.trajectory.length : Int) - 1) ∧
    min (max ((trajData.getCurrIdx W d).1 + 5) 3) ((d.trajectory.length : Int) - 1)
      ≤ (d.trajectory.length : Int) - 1 ∧
    ∃ ps, d.trajectory.get?
        (min (max ((trajData.getCurrIdx W d).1 + 5) 3)
          ((d.trajectory.length : Int) - 1)).toNat = some ps ∧
      trajData.getPose W d = some (ps,
        { (trajData.getCurrIdx W d).2 with
          currTrajectory :=
            d.trajectory.drop (max ((trajData.getCurrIdx W d).1 + 5) 3).toNat }) ∧
      trajData.getPoseCurr W d psCurr = some (ps,
        { (trajData.getCurrIdx W d).2 with
          currTrajectory := psCurr ::
            d.trajectory.drop (max ((trajData.getCurrIdx W d).1 + 5) 3).toNat }) ∧
      trajData.getPoseWithoutYaw W d psCurr =
        some ({ ps with orientation := psCurr.orientation },
          { (trajData.getCurrIdx W d).2 with
            currTrajectory := psCurr ::
              d.trajectory.drop (max ((trajData.getCurrIdx W d).1 + 5) 3).toNat }) := by
  have hr : -(2 ^ 31) ≤ (trajData.getCurrIdx W d).1 := by
    unfold trajData.getCurrIdx
    exact (toInt32_range _).1
  generalize hk : (trajData.getCurrIdx W d).1 = idx0 at hidx hr ⊢
  have htraj : (trajData.getCurrIdx W d).2.trajectory = d.trajectory := rfl
  have hfw : (trajData.getCurrIdx W d).2.forwardIdx = 5 := hf
  have hmn : (trajData.getCurrIdx W d).2.minIdx = 3 := hm
  have hahead : trajData.aheadIdx (trajData.getCurrIdx W d).2 idx0 = max (idx0 + 5) 3 := by
    unfold trajData.aheadIdx
    rw [hfw, hmn, toInt32_eq _ (by omega) hidx]
  have hnew : trajData.newIdx (trajData.getCurrIdx W d).2 (max (idx0 + 5) 3) =
      min (max (idx0 + 5) 3) ((d.trajectory.length : Int) - 1) := by
    unfold trajData.newIdx
    rw [htraj, toInt32_eq _ (by norm_num; omega) (by omega)]
  have h0 : 0 ≤ min (max (idx0 + 5) 3) ((d.trajectory.length : Int) - 1) := by
    omega
  have hle : min (max (idx0 + 5) 3) ((d.trajectory.length : Int) - 1)
      ≤ (d.trajectory.length : Int) - 1 := min_le_right _ _
  have hlt : (min (max (idx0 + 5) 3) ((d.trajectory.length : Int) - 1)).toNat
      < d.trajectory.length := by
    omega
  have hrest : trajData.restFrom (trajData.getCurrIdx W d).2 (max (idx0 + 5) 3) =
      d.trajectory.drop (max (idx0 + 5) 3).toNat := by
    unfold trajData.restFrom
    rw [if_neg (by omega), htraj]
  have hget : trajData.poseAtIdx (trajData.getCurrIdx W d).2
      (min (max (idx0 + 5) 3) ((d.trajectory.length : Int) - 1)) =
      some (d.trajectory.get ⟨_, hlt⟩) := by
    unfold trajData.poseAtIdx
    rw [if_neg (by omega), htraj]
    exact List.get?_eq_get hlt
  refine ⟨h0, hle, d.trajectory.get ⟨_, hlt⟩, List.get?_eq_get hlt, ?_, ?_, ?_⟩
  · unfold trajData.getPose
    simp only [hk, hahead, hnew, hget, hrest]
  · unfold trajData.getPoseCurr
    simp only [hk, hahead, hnew, hget, hrest]
  · unfold trajData.getPoseWithoutYaw
    simp only [hk, hahead, hnew, hget, hrest]

/-- C28 applied to ten poses one second apart, two and a half seconds after
the start: `getCurrIdx` returns 3, the pose read is the ninth, `(8,0,0)`,
and the current trajectory keeps the last two poses. -/
theorem C28_look_ahead_witness :
    (trajData.getCurrIdx (demoWorldAt (5 / 2)) demoTrajData).1 = 3 ∧
    ∃ d', trajData.getPose (demoWorldAt (5 / 2)) demoTrajData
        = some (poseAt ⟨8, 0, 0⟩, d') ∧
      d'.currTrajectory = [poseAt ⟨8, 0, 0⟩, poseAt ⟨9, 0, 0⟩] := by
  have hidx : (trajData.getCurrIdx (demoWorldAt (5 / 2)) demoTrajData).1 = 3 := by
    norm_num [trajData.getCurrIdx, demoWorldAt, demoTrajData, toInt32]
  have hlen : demoTrajData.trajectory.length = 10 := rfl
  obtain ⟨_, _, ps, hps, hget, _, _⟩ := C28_look_ahead (demoWorldAt (5 / 2)) demoTrajData
    (poseAt Vector3d.zero) (by rw [hlen]; norm_num) (by rw [hlen]; norm_num) rfl rfl
    (by rw [hidx]; norm_num)
  rw [hidx, hlen] at hps
  rw [hidx] at hget
  have h8 : (min (max ((3 : Int) + 5) 3) (((10 : ℕ) : Int) - 1)).toNat = 8 := by decide
  have h8b : (max ((3 : Int) + 5) 3).toNat = 8 := by decide
  rw [h8] at hps
  rw [h8b] at hget
  have hps2 : ps = poseAt ⟨8, 0, 0⟩ := by
    have : demoTrajData.trajectory.get? 8 = some (poseAt ⟨8, 0, 0⟩) := rfl
    rw [this] at hps
    exact (Option.some.inj hps).symm
  exact ⟨hidx, _, by rw [hget, hps2], rfl⟩
/-! ## Occlusion and inspection limits -/

/-- The loop of `hasOcclusion` answers `true` exactly when no ray point is
in collision. -/
theorem hasOcclusionLoop_iff (T : InspectionWorld) (I : inspector) (ray : List Vector3d) :
    inspector.hasOcclusionLoop T I ray = true ↔
      ∀ pRay ∈ ray, inspector.checkCollision T I pRay T.ignoreUnknownDefault = false := by
  induction ray with
  | nil => simp [inspector.hasOcclusionLoop]
  | cons q rest ih =>
    simp only [inspector.hasOcclusionLoop]
    by_cases hq : inspector.checkCollision T I q T.ignoreUnknownDefault = true
    · simp [hq]
    · simp only [hq, Bool.false_eq_true, if_false, ih, List.mem_cons, forall_eq_or_imp]
      simp only [Bool.not_eq_true] at hq
      simp [hq]

/-- C29 at its failing input. `hasOcclusion` answers `true` exactly when no
ray point is in collision, the opposite of what its name says. On the demo
map the ray from the origin to the unknown voxel `(1/2,0,0)` passes the
occupied voxel `(1/4,0,0)`: `hasOcclusion` answers `false`, and
`evaluateSample` counts that voxel, the only unknown one in range. -/
theorem C29_occlusion_at_failing_input :
    (∀ (T : InspectionWorld) (I : inspector) (p pCheck : Vector3d),
      inspector.hasOcclusion T I p pCheck = true ↔
        ∀ pRay ∈ T.computeRay p pCheck,
          inspector.checkCollision T I pRay T.ignoreUnknownDefault = false) ∧
    demoInspectionWorld.computeRay ⟨0, 0, 0⟩ ⟨1 / 2, 0, 0⟩ = [⟨1 / 4, 0, 0⟩] ∧
    inspector.checkCollision demoInspectionWorld demoInspector ⟨1 / 4, 0, 0⟩
      demoInspectionWorld.ignoreUnknownDefault = true ∧
    demoInspectionWorld.search ⟨1 / 2, 0, 0⟩ = none ∧
    inspector.inSensorRange demoInspectionWorld demoInspector ⟨0, 0, 0⟩ ⟨1 / 2, 0, 0⟩ = true ∧
    inspector.hasOcclusion demoInspectionWorld demoInspector ⟨0, 0, 0⟩ ⟨1 / 2, 0, 0⟩ = false ∧
    inspector.countSample demoInspectionWorld demoInspector ⟨0, 0, 0⟩ ⟨1 / 2, 0, 0⟩ 0 = 1 ∧
    inspector.evaluateSample demoInspectionWorld demoInspector ⟨0, 0, 0⟩ = 1 := by
  have hray : demoInspectionWorld.computeRay ⟨0, 0, 0⟩ ⟨1 / 2, 0, 0⟩ = [⟨1 / 4, 0, 0⟩] := by
    norm_num [demoInspectionWorld]
  have hcol : inspector.checkCollision demoInspectionWorld demoInspector ⟨1 / 4, 0, 0⟩
      demoInspectionWorld.ignoreUnknownDefault = true := by
    norm_num [inspector.checkCollision, inspector.checkCollisionPoint, inspector.idsUpTo,
      truncInt, toInt32, demoInspectionWorld, demoInspector]
  have hsearch : demoInspectionWorld.search ⟨1 / 2, 0, 0⟩ = none := by
    norm_num [demoInspectionWorld]
  have hin : inspector.inSensorRange demoInspectionWorld demoInspector ⟨0, 0, 0⟩
      ⟨1 / 2, 0, 0⟩ = true := by
    norm_num [inspector.inSensorRange, demoInspectionWorld, demoInspector, Vector3d.sub,
      abs_lt]
  have hocc : inspector.hasOcclusion demoInspectionWorld demoInspector ⟨0, 0, 0⟩
      ⟨1 / 2, 0, 0⟩ = false := by
    unfold inspector.hasOcclusion
    rw [hray]
    simp only [inspector.hasOcclusionLoop, hcol, if_true]
  have hcount : inspector.countSample demoInspectionWorld demoInspector ⟨0, 0, 0⟩
      ⟨1 / 2, 0, 0⟩ 0 = 1 := by
    unfold inspector.countSample
    rw [if_pos hin, hsearch]
    simp only [hocc]
    rfl
  refine ⟨?_, hray, hcol, hsearch, hin, hocc, hcount, ?_⟩
  · intro T I p pCheck
    unfold inspector.hasOcclusion
    exact hasOcclusionLoop_iff T I _
  · simp [inspector.evaluateSample, inspector.idsBelow, truncInt, toInt32,
      List.range_succ, inspector.countSample, inspector.inSensorRange,
      inspector.hasOcclusion, inspector.hasOcclusionLoop, inspector.checkCollision,
      inspector.checkCollisionPoint, inspector.idsUpTo, demoInspectionWorld,
      demoInspector, Vector3d.sub]
    norm_num [abs_lt, abs_le, le_abs]
    simp [List.range_succ]
    norm_num [abs_lt, abs_le, le_abs]

/-- The search loops of `getInspectionLimit` do not read
`maxTargetWidth_`. -/
theorem limitLoop_width (T : InspectionWorld) (I : inspector) (m step : ℚ) (life : Nat) :
    ∀ (pCheck : Vector3d) (hasCollision : Bool),
      inspector.limitLoop T { I with maxTargetWidth_ := m } step life pCheck hasCollision =
        inspector.limitLoop T I step life pCheck hasCollision := by
  induction life with
  | zero =>
    intro pCheck hasCollision
    rfl
  | succ n ih =>
    intro pCheck hasCollision
    simp only [inspector.limitLoop]
    split_ifs
    · rfl
    · rw [ih]
      rfl

/-- The vector returned by `getInspectionLimit` is filled before the width
test: it holds the unadjusted limits, the nearer one first. -/
theorem getInspectionLimit_eq (T : InspectionWorld) (I : inspector) (p : Vector3d) :
    inspector.getInspectionLimit T I p =
      if T.distance p
          { (inspector.limitLoop T I I.mapRes_ T.rosOkCount p false).1 with
            y := (inspector.limitLoop T I I.mapRes_ T.rosOkCount p false).1.y
              - I.mapRes_ - I.safeDist_ } ≥
        T.distance p
          { (inspector.limitLoop T I (-I.mapRes_)
              (inspector.limitLoop T I I.mapRes_ T.rosOkCount p false).2.2 p false).1 with
            y := (inspector.limitLoop T I (-I.mapRes_)
              (inspector.limitLoop T I I.mapRes_ T.rosOkCount p false).2.2 p false).1.y
              + I.mapRes_ + I.safeDist_ } then
        [{ (inspector.limitLoop T I (-I.mapRes_)
              (inspector.limitLoop T I I.mapRes_ T.rosOkCount p false).2.2 p false).1 with
            y := (inspector.limitLoop T I (-I.mapRes_)
              (inspector.limitLoop T I I.mapRes_ T.rosOkCount p false).2.2 p false).1.y
              + I.mapRes_ + I.safeDist_ },
          { (inspector.limitLoop T I I.mapRes_ T.rosOkCount p false).1 with
            y := (inspector.limitLoop T I I.mapRes_ T.rosOkCount p false).1.y
              - I.mapRes_ - I.safeDist_ }]
      else
        [{ (inspector.limitLoop T I I.mapRes_ T.rosOkCount p false).1 with
            y := (inspector.limitLoop T I I.mapRes_ T.rosOkCount p false).1.y
              - I.mapRes_ - I.safeDist_ },
          { (inspector.limitLoop T I (-I.mapRes_)
              (inspector.limitLoop T I I.mapRes_ T.rosOkCount p false).2.2 p false).1 with
            y := (inspector.limitLoop T I (-I.mapRes_)
              (inspector.limitLoop T I I.mapRes_ T.rosOkCount p false).2.2 p false).1.y
              + I.mapRes_ + I.safeDist_ }] := by
  unfold inspector.getInspectionLimit inspector.inspectionLimitLocals
  simp only
  split_ifs <;> rfl

/-- C30 at its failing input. `getInspectionLimit` always returns two
points, the nearer one first, and its result does not depend on
`maxTargetWidth_`. On the demo map, with walls at `y = 3` and `y = -3`,
safe distance 1/2 and `maxTargetWidth_ = 2`, the limits found are `y = 2`
and `y = -2`; the width 4 exceeds 2, the locals are moved to `y = 1` and
`y = -1`, but the vector returned still holds `y = -2` and `y = 2`, a
separation of 4. -/
theorem C30_limits_at_failing_input :
    (∀ (T : InspectionWorld) (I : inspector) (p : Vector3d),
      ∃ a b, inspector.getInspectionLimit T I p = [a, b] ∧
        T.distance p a ≤ T.distance p b) ∧
    (∀ (T : InspectionWorld) (I : inspector) (p : Vector3d) (m : ℚ),
      inspector.getInspectionLimit T { I with maxTargetWidth_ := m } p =
        inspector.getInspectionLimit T I p) ∧
    demoInspector.maxTargetWidth_ = 2 ∧
    inspector.getInspectionLimit demoInspectionWorld demoInspector ⟨0, 0, 0⟩
      = [⟨0, -2, 0⟩, ⟨0, 2, 0⟩] ∧
    (inspector.inspectionLimitLocals demoInspectionWorld demoInspector ⟨0, 0, 0⟩).pLimitPlus
      = ⟨0, 1, 0⟩ ∧
    (inspector.inspectionLimitLocals demoInspectionWorld demoInspector ⟨0, 0, 0⟩).pLimitMinus
      = ⟨0, -1, 0⟩ := by
  have hcol : ∀ y : ℚ, inspector.checkCollision demoInspectionWorld demoInspector
      ⟨0, y, 0⟩ true = decide (3 ≤ |y|) := by
    intro y
    simp [inspector.checkCollision, inspector.checkCollisionPoint, inspector.idsUpTo,
      truncInt, toInt32, demoInspectionWorld, demoInspector, List.range_succ]
  have hplus : inspector.limitLoop demoInspectionWorld demoInspector (1 / 2) 20
      ⟨0, 0, 0⟩ false = (⟨0, 3, 0⟩, true, 13) := by
    simp only [inspector.limitLoop, hcol]
    norm_num [abs_le, le_abs]
  have hminus : inspector.limitLoop demoInspectionWorld demoInspector (-(1 / 2)) 13
      ⟨0, 0, 0⟩ false = (⟨0, -3, 0⟩, true, 6) := by
    simp only [inspector.limitLoop, hcol]
    norm_num [abs_le, le_abs]
  refine ⟨?_, ?_, rfl, ?_, ?_, ?_⟩
  · intro T I p
    rw [getInspectionLimit_eq]
    split_ifs with h
    · exact ⟨_, _, rfl, h⟩
    · exact ⟨_, _, rfl, le_of_lt (not_le.mp h)⟩
  · intro T I p m
    rw [getInspectionLimit_eq, getInspectionLimit_eq]
    simp only [limitLoop_width]
  · rw [getInspectionLimit_eq]
    have h1 : demoInspector.mapRes_ = 1 / 2 := rfl
    have h2 : demoInspectionWorld.rosOkCount = 20 := rfl
    have h3 : demoInspector.safeDist_ = 1 / 2 := rfl
    rw [h1, h2, h3, hplus]
    simp only
    rw [hminus]
    norm_num [demoInspectionWorld]
  · unfold inspector.inspectionLimitLocals
    have h1 : demoInspector.mapRes_ = 1 / 2 := rfl
    have h2 : demoInspectionWorld.rosOkCount = 20 := rfl
    have h3 : demoInspector.safeDist_ = 1 / 2 := rfl
    have h4 : demoInspector.maxTargetWidth_ = 2 := rfl
    simp only [h1, h2, h3, h4, hplus, hminus]
    norm_num [demoInspectionWorld]
  · unfold inspector.inspectionLimitLocals
    have h1 : demoInspector.mapRes_ = 1 / 2 := rfl
    have h2 : demoInspectionWorld.rosOkCount = 20 := rfl
    have h3 : demoInspector.safeDist_ = 1 / 2 := rfl
    have h4 : demoInspector.maxTargetWidth_ = 2 := rfl
    simp only [h1, h2, h3, h4, hplus, hminus]
    norm_num [demoInspectionWorld]

/-! ## The run of a knot-spacing loop of the dynamic navigator -/

/-- A rational strictly within one half of an integer rounds to it. -/
theorem roundEven_eq (y : ℚ) (m : ℤ) (h : |y - (m : ℚ)| < 1 / 2) : roundEven y = m := by
  rw [abs_lt] at h
  obtain ⟨h1, h2⟩ := h
  unfold roundEven
  by_cases hm : (m : ℚ) ≤ y
  · have hf : ⌊y⌋ = m := by
      rw [Int.floor_eq_iff]
      constructor
      · exact hm
      · linarith
    rw [hf, if_pos (by linarith)]
  · have hf : ⌊y⌋ = m - 1 := by
      rw [Int.floor_eq_iff]
      push_cast
      constructor
      · linarith
      · linarith
    rw [hf]
    push_cast
    rw [if_neg (by linarith), if_pos (by linarith)]
    ring

/-- The binary64 rounding of a positive rational of binary exponent `e`
whose scaled value lies strictly within one half of the integer `m`. -/
theorem roundDouble_eq (x : ℚ) (e m : ℤ) (h1 : (2 : ℚ) ^ e ≤ x) (h2 : x < (2 : ℚ) ^ (e + 1))
    (h3 : |x / 2 ^ (e - 52) - (m : ℚ)| < 1 / 2) :
    roundDouble x = (m : ℚ) * 2 ^ (e - 52) := by
  have hpos : (0 : ℚ) < x := lt_of_lt_of_le (by positivity) h1
  have hlog : Int.log 2 |x| = e := by
    rw [abs_of_pos hpos]
    have ha : e ≤ Int.log 2 x := by
      rw [← Int.zpow_le_iff_le_log (by norm_num) hpos]
      exact_mod_cast h1
    have hb : Int.log 2 x < e + 1 := by
      rw [← Int.lt_zpow_iff_log_lt (by norm_num) hpos]
      exact_mod_cast h2
    omega
  unfold roundDouble
  rw [if_neg (ne_of_gt hpos), hlog, roundEven_eq _ m h3]

/-- The `double` literal `0.1` is `3602879701896397 / 2^55`. -/
theorem doubleTenth_eq : doubleTenth = 3602879701896397 / 36028797018963968 := by
  unfold doubleTenth
  rw [roundDouble_eq (1 / 10) (-4) 7205759403792794 (by norm_num) (by norm_num)
    (by norm_num [abs_lt])]
  norm_num

/-- Increment 1 of the loop variable started at 1: `1.0 + 0.1 = 1.1`. -/
theorem addDouble_step1 : addDouble (1) doubleTenth = 2476979795053773 / 2251799813685248 := by
  unfold addDouble
  rw [doubleTenth_eq, roundDouble_eq _ 0 4953959590107546 (by norm_num) (by norm_num)
    (by norm_num [abs_lt])]
  norm_num

/-- Increment 2 of the loop variable started at 1: `1.1 + 0.1 = 1.2000000000000002`. -/
theorem addDouble_step2 : addDouble (2476979795053773 / 2251799813685248) doubleTenth = 1351079888211149 / 1125899906842624 := by
  unfold addDouble
  rw [doubleTenth_eq, roundDouble_eq _ 0 5404319552844596 (by norm_num) (by norm_num)
    (by norm_num [abs_lt])]
  norm_num

/-- Increment 3 of the loop variable started at 1: `1.2000000000000002 + 0.1 = 1.3000000000000003`. -/
theorem addDouble_step3 : addDouble (1351079888211149 / 1125899906842624) doubleTenth = 2927339757790823 / 2251799813685248 := by
  unfold addDouble
  rw [doubleTenth_eq, roundDouble_eq _ 0 5854679515581646 (by norm_num) (by norm_num)
    (by norm_num [abs_lt])]
  norm_num

/-- Increment 4 of the loop variable started at 1: `1.3000000000000003 + 0.1 = 1.4000000000000004`. -/
theorem addDouble_step4 : addDouble (2927339757790823 / 2251799813685248) doubleTenth = 788129934789837 / 562949953421312 := by
  unfold addDouble
  rw [doubleTenth_eq, roundDouble_eq _ 0 6305039478318696 (by norm_num) (by norm_num)
    (by norm_num [abs_lt])]
  norm_num

/-- Increment 5 of the loop variable started at 1: `1.4000000000000004 + 0.1 = 1.5000000000000004`. -/
theorem addDouble_step5 : addDouble (788129934789837 / 562949953421312) doubleTenth = 3377699720527873 / 2251799813685248 := by
  unfold addDouble
  rw [doubleTenth_eq, roundDouble_eq _ 0 6755399441055746 (by norm_num) (by norm_num)
    (by norm_num [abs_lt])]
  norm_num

/-- The loop variable started one increment later is one increment ahead. -/
theorem loopTime_shift (t : ℚ) (k : Nat) :
    loopTime (addDouble t doubleTenth) k = loopTime t (k + 1) := by
  induction k with
  | zero => rfl
  | succ k ih =>
    show addDouble (loopTime (addDouble t doubleTenth) k) doubleTenth = _
    rw [ih]
    rfl

/-- One more round does not change an answer the binary64 loop has given. -/
theorem hasCollisionLoopDouble_succ (W : World) (traj : bspline) (n : Nat) :
    ∀ (t : ℚ) (b : Bool), hasCollisionLoopDouble W traj n t = some b →
      hasCollisionLoopDouble W traj (n + 1) t = some b := by
  induction n with
  | zero =>
    intro t b h
    simp [hasCollisionLoopDouble] at h
  | succ n ih =>
    intro t b h
    rw [hasCollisionLoopDouble] at h
    rw [hasCollisionLoopDouble]
    split_ifs at h ⊢ with h1 h2
    · exact h
    · exact ih _ _ h
    · exact h

/-- An answer of the binary64 loop stays the same for every larger bound on
the rounds. -/
theorem hasCollisionLoopDouble_mono (W : World) (traj : bspline) (n : Nat) (t : ℚ)
    (b : Bool) (h : hasCollisionLoopDouble W traj n t = some b) :
    ∀ m, n ≤ m → hasCollisionLoopDouble W traj m t = some b := by
  intro m hm
  induction m with
  | zero =>
    have : n = 0 := by omega
    subst this
    exact h
  | succ m ih =>
    rcases Nat.lt_or_ge n (m + 1) with hlt | hge
    · exact hasCollisionLoopDouble_succ W traj m t b (ih (by omega))
    · have : n = m + 1 := by omega
      subst this
      exact h

/-- The binary64 loop answers `true` within `n` rounds exactly when one of
the first `n` values of the loop variable has an occupied position, with
that value and all earlier ones within the duration and all earlier
positions free. -/
theorem hasCollisionLoopDouble_true (W : World) (traj : bspline) (n : Nat) :
    ∀ t : ℚ, hasCollisionLoopDouble W traj n t = some true ↔
      ∃ k, k < n ∧ (∀ j, j ≤ k → loopTime t j ≤ traj.getDuration) ∧
        (∀ j, j < k → W.isInflatedOccupied (traj.atTime (loopTime t j)) = false) ∧
        W.isInflatedOccupied (traj.atTime (loopTime t k)) = true := by
  induction n with
  | zero =>
    intro t
    simp [hasCollisionLoopDouble]
  | succ n ih =>
    intro t
    rw [hasCollisionLoopDouble]
    by_cases ht : t ≤ traj.getDuration
    · rw [if_pos ht]
      by_cases ho : W.isInflatedOccupied (traj.atTime t) = true
      · rw [if_pos ho]
        simp only [true_iff]
        refine ⟨0, Nat.succ_pos n, ?_, ?_, ho⟩
        · intro j hj
          have : j = 0 := by omega
          subst this
          exact ht
        · intro j hj
          omega
      · rw [if_neg ho, ih]
        constructor
        · rintro ⟨k, hk, hle, hfree, hocc⟩
          refine ⟨k + 1, by omega, ?_, ?_, ?_⟩
          · intro j hj
            cases j with
            | zero => exact ht
            | succ j =>
              rw [← loopTime_shift]
              exact hle j (by omega)
          · intro j hj
            cases j with
            | zero => simpa using ho
            | succ j =>
              rw [← loopTime_shift]
              exact hfree j (by omega)
          · rw [← loopTime_shift]
            exact hocc
        · rintro ⟨k, hk, hle, hfree, hocc⟩
          cases k with
          | zero => exact absurd hocc ho
          | succ k =>
            refine ⟨k, by omega, ?_, ?_, ?_⟩
            · intro j hj
              rw [loopTime_shift]
              exact hle (j + 1) (by omega)
            · intro j hj
              rw [loopTime_shift]
              exact hfree (j + 1) (by omega)
            · rw [loopTime_shift]
              exact hocc
    · rw [if_neg ht]
      constructor
      · intro h
        cases h
      · rintro ⟨k, _, hle, _, _⟩
        exact absurd (hle 0 (Nat.zero_le k)) ht

/-- The binary64 loop answers `false` within `n` rounds exactly when one of
the first `n` values of the loop variable exceeds the duration, with all
earlier values within the duration and their positions free. -/
theorem hasCollisionLoopDouble_false (W : World) (traj : bspline) (n : Nat) :
    ∀ t : ℚ, hasCollisionLoopDouble W traj n t = some false ↔
      ∃ m, m < n ∧ traj.getDuration < loopTime t m ∧
        ∀ j, j < m → loopTime t j ≤ traj.getDuration ∧
          W.isInflatedOccupied (traj.atTime (loopTime t j)) = false := by
  induction n with
  | zero =>
    intro t
    simp [hasCollisionLoopDouble]
  | succ n ih =>
    intro t
    rw [hasCollisionLoopDouble]
    by_cases ht : t ≤ traj.getDuration
    · rw [if_pos ht]
      by_cases ho : W.isInflatedOccupied (traj.atTime t) = true
      · rw [if_pos ho]
        constructor
        · intro h
          cases h
        · rintro ⟨m, _, hgt, hall⟩
          cases m with
          | zero => exact absurd ht (not_le.mpr hgt)
          | succ m =>
            have := (hall 0 (Nat.succ_pos m)).2
            rw [show loopTime t 0 = t from rfl, ho] at this
            cases this
      · rw [if_neg ho, ih]
        constructor
        · rintro ⟨m, hm, hgt, hall⟩
          refine ⟨m + 1, by omega, ?_, ?_⟩
          · rw [← loopTime_shift]
            exact hgt
          · intro j hj
            cases j with
            | zero => exact ⟨ht, by simpa using ho⟩
            | succ j =>
              rw [← loopTime_shift]
              exact hall j (by omega)
        · rintro ⟨m, hm, hgt, hall⟩
          cases m with
          | zero => exact absurd ht (not_le.mpr hgt)
          | succ m =>
            refine ⟨m, by omega, ?_, ?_⟩
            · rw [loopTime_shift]
              exact hgt
            · intro j hj
              rw [loopTime_shift]
              exact hall (j + 1) (by omega)
    · rw [if_neg ht]
      simp only [true_iff]
      exact ⟨0, Nat.succ_pos n, not_le.mp ht, fun j hj => absurd hj (Nat.not_lt_zero j)⟩

/-- What the binary64 collision loop returns, over all bounds on the
rounds: `true` exactly when some value of the loop variable has an occupied
position while it and all earlier values are within the duration; `false`
exactly when a value exceeds the duration while all earlier ones are within
it and have free positions. -/
theorem hasCollisionLoopDouble_returns (W : World) (traj : bspline) (t : ℚ) :
    ((∃ n, hasCollisionLoopDouble W traj n t = some true) ↔
      ∃ k, (∀ j, j ≤ k → loopTime t j ≤ traj.getDuration) ∧
        W.isInflatedOccupied (traj.atTime (loopTime t k)) = true) ∧
    ((∃ n, hasCollisionLoopDouble W traj n t = some false) ↔
      ∃ m, traj.getDuration < loopTime t m ∧
        ∀ j, j < m → loopTime t j ≤ traj.getDuration ∧
          W.isInflatedOccupied (traj.atTime (loopTime t j)) = false) := by
  constructor
  · constructor
    · rintro ⟨n, hn⟩
      obtain ⟨k, _, hle, _, hocc⟩ := (hasCollisionLoopDouble_true W traj n t).mp hn
      exact ⟨k, hle, hocc⟩
    · rintro ⟨k, hle, hocc⟩
      -- the first occupied value is at or before `k`
      have hex : ∃ i, i ≤ k ∧ W.isInflatedOccupied (traj.atTime (loopTime t i)) = true :=
        ⟨k, le_refl k, hocc⟩
      classical
      let i := Nat.find hex
      have hi := Nat.find_spec hex
      refine ⟨i + 1, (hasCollisionLoopDouble_true W traj (i + 1) t).mpr
        ⟨i, Nat.lt_succ_self i, ?_, ?_, hi.2⟩⟩
      · intro j hj
        exact hle j (le_trans hj hi.1)
      · intro j hj
        have := Nat.find_min hex hj
        by_contra hne
        apply this
        refine ⟨by have := hi.1; omega, ?_⟩
        simpa using hne
  · constructor
    · rintro ⟨n, hn⟩
      obtain ⟨m, _, hgt, hall⟩ := (hasCollisionLoopDouble_false W traj n t).mp hn
      exact ⟨m, hgt, hall⟩
    · rintro ⟨m, hgt, hall⟩
      exact ⟨m + 1, (hasCollisionLoopDouble_false W traj (m + 1) t).mpr
        ⟨m, Nat.lt_succ_self m, hgt, hall⟩⟩

/-- C24 (as amended). In both navigators, with the loop variable taking the
binary64 values `t_0 = trajTime_`, `t_(j+1) = t_j + 0.1`, `hasCollision()`
returns `true` exactly when a trajectory is ready and for some `k ≥ 0` the
values `t_0 .. t_k` are all within the spline duration and the map reports
inflated-occupied at the spline position of `t_k`; it returns `false` at
once when no trajectory is ready or `trajTime_` exceeds the duration, and
with a trajectory ready it returns `false` exactly when some `t_m` exceeds
the duration while all earlier values are within it and have free
positions. An answer once given does not depend on the bound on the rounds
of the model. -/
theorem C24_collision_check (W : World) (s : navigation) (d : dynamicNavigation) :
    ((∃ n, navigation.hasCollisionDouble W s n = some true) ↔
      s.trajectoryReady_ = true ∧
        ∃ k, (∀ j, j ≤ k → loopTime s.trajTime_ j ≤ s.trajectory_.getDuration) ∧
          W.isInflatedOccupied (s.trajectory_.atTime (loopTime s.trajTime_ k)) = true) ∧
    ((∃ n, dynamicNavigation.hasCollisionDouble W d n = some true) ↔
      d.trajectoryReady_ = true ∧
        ∃ k, (∀ j, j ≤ k → loopTime d.trajTime_ j ≤ d.trajectory_.getDuration) ∧
          W.isInflatedOccupied (d.trajectory_.atTime (loopTime d.trajTime_ k)) = true) ∧
    ((s.trajectoryReady_ = false ∨ s.trajTime_ > s.trajectory_.getDuration) →
      ∀ n, navigation.hasCollisionDouble W s (n + 1) = some false) ∧
    ((d.trajectoryReady_ = false ∨ d.trajTime_ > d.trajectory_.getDuration) →
      ∀ n, dynamicNavigation.hasCollisionDouble W d (n + 1) = some false) ∧
    (s.trajectoryReady_ = true →
      ((∃ n, navigation.hasCollisionDouble W s n = some false) ↔
        ∃ m, s.trajectory_.getDuration < loopTime s.trajTime_ m ∧
          ∀ j, j < m → loopTime s.trajTime_ j ≤ s.trajectory_.getDuration ∧
            W.isInflatedOccupied (s.trajectory_.atTime (loopTime s.trajTime_ j)) = false)) ∧
    (d.trajectoryReady_ = true →
      ((∃ n, dynamicNavigation.hasCollisionDouble W d n = some false) ↔
        ∃ m, d.trajectory_.getDuration < loopTime d.trajTime_ m ∧
          ∀ j, j < m → loopTime d.trajTime_ j ≤ d.trajectory_.getDuration ∧
            W.isInflatedOccupied (d.trajectory_.atTime (loopTime d.trajTime_ j)) = false)) ∧
    (∀ n b, navigation.hasCollisionDouble W s n = some b →
      ∀ m, n ≤ m → navigation.hasCollisionDouble W s m = some b) ∧
    (∀ n b, dynamicNavigation.hasCollisionDouble W d n = some b →
      ∀ m, n ≤ m → dynamicNavigation.hasCollisionDouble W d m = some b) := by
  have key : ∀ (ready : Bool) (traj : bspline) (t : ℚ)
      (f : Nat → Option Bool)
      (hf : ∀ n, f n = if ready then hasCollisionLoopDouble W traj n t else some false),
      ((∃ n, f n = some true) ↔
        ready = true ∧
          ∃ k, (∀ j, j ≤ k → loopTime t j ≤ traj.getDuration) ∧
            W.isInflatedOccupied (traj.atTime (loopTime t k)) = true) ∧
      ((ready = false ∨ t > traj.getDuration) → ∀ n, f (n + 1) = some false) ∧
      (ready = true →
        ((∃ n, f n = some false) ↔
          ∃ m, traj.getDuration < loopTime t m ∧
            ∀ j, j < m → loopTime t j ≤ traj.getDuration ∧
              W.isInflatedOccupied (traj.atTime (loopTime t j)) = false)) ∧
      (∀ n b, f n = some b → ∀ m, n ≤ m → f m = some b) := by
    intro ready traj t f hf
    cases ready with
    | false =>
      simp only [Bool.false_eq_true, if_false] at hf
      refine ⟨?_, ?_, ?_, ?_⟩
      · simp [hf]
      · intro _ n
        exact hf _
      · intro h
        cases h
      · intro n b h m _
        rw [hf] at h ⊢
        exact h
    | true =>
      simp only [if_true] at hf
      refine ⟨?_, ?_, ?_, ?_⟩
      · simp only [hf, true_and]
        exact (hasCollisionLoopDouble_returns W traj t).1
      · intro h n
        rcases h with h | h
        · cases h
        · rw [hf, hasCollisionLoopDouble, if_neg (not_le.mpr h)]
      · intro _
        simp only [hf]
        exact (hasCollisionLoopDouble_returns W traj t).2
      · intro n b h m hm
        rw [hf] at h ⊢
        exact hasCollisionLoopDouble_mono W traj n t b h m hm
  obtain ⟨a1, a2, a3, a4⟩ := key s.trajectoryReady_ s.trajectory_ s.trajTime_
    (navigation.hasCollisionDouble W s) (fun _ => rfl)
  obtain ⟨b1, b2, b3, b4⟩ := key d.trajectoryReady_ d.trajectory_ d.trajTime_
    (dynamicNavigation.hasCollisionDouble W d) (fun _ => rfl)
  exact ⟨a1, b1, a2, b2, a3, b3, a4, b4⟩

/-- C24 applied to a ready static and a ready dynamic navigator on the demo
spline in a map occupied everywhere: both report a collision, found at the
first value `t_0 = trajTime_ = 0` of the loop variable. -/
theorem C24_collision_check_witness :
    (∃ n, navigation.hasCollisionDouble (demoWorld true true true true [])
      (demoNav false false true) n = some true) ∧
    (∃ n, dynamicNavigation.hasCollisionDouble (demoWorld true true true true [])
      (demoDyn false false true) n = some true) := by
  have h := C24_collision_check (demoWorld true true true true [])
    (demoNav false false true) (demoDyn false false true)
  refine ⟨h.1.mpr ⟨rfl, 0, ?_, rfl⟩, h.2.1.mpr ⟨rfl, 0, ?_, rfl⟩⟩
  · intro j hj
    have : j = 0 := by omega
    subst this
    norm_num [loopTime, demoNav, demoSpline]
  · intro j hj
    have : j = 0 := by omega
    subst this
    norm_num [loopTime, demoDyn, demoSpline]

/-- C24 fails as stated: one second into a spline of duration 1.5 the
sample time `trajTime_ + 0.1·5 = 1.5` is within the duration and its
position `(1.5,0,0)` is inflated-occupied, so the statement asks for `true`;
but the loop variable takes the binary64 values 1, 1.1, 1.2000000000000002,
1.3000000000000003, 1.4000000000000004, whose positions are free, and then
1.5000000000000004, which exceeds the duration, and `hasCollision()`
returns `false` in both navigators. -/
theorem C24_counterexample :
    demoNavWall.trajectoryReady_ = true ∧ demoDynWall.trajectoryReady_ = true ∧
    demoNavWall.trajTime_ + 0.1 * ((5 : ℕ) : ℚ) ≤ demoNavWall.trajectory_.getDuration ∧
    demoWorldWall.isInflatedOccupied
      (demoNavWall.trajectory_.atTime (demoNavWall.trajTime_ + 0.1 * ((5 : ℕ) : ℚ))) = true ∧
    loopTime demoNavWall.trajTime_ 5 = 3377699720527873 / 2251799813685248 ∧
    demoNavWall.trajectory_.getDuration < loopTime demoNavWall.trajTime_ 5 ∧
    navigation.hasCollisionDouble demoWorldWall demoNavWall 6 = some false ∧
    dynamicNavigation.hasCollisionDouble demoWorldWall demoDynWall 6 = some false ∧
    (∀ n, navigation.hasCollisionDouble demoWorldWall demoNavWall n ≠ some true) ∧
    (∀ n, dynamicNavigation.hasCollisionDouble demoWorldWall demoDynWall n ≠ some true) := by
  have hloop : hasCollisionLoopDouble demoWorldWall demoSplineLong 6 1 = some false := by
    simp only [hasCollisionLoopDouble, addDouble_step1, addDouble_step2, addDouble_step3,
      addDouble_step4, addDouble_step5]
    norm_num [demoWorldWall, demoWorld, demoSplineLong]
  have h5 : loopTime 1 5 = 3377699720527873 / 2251799813685248 := by
    simp only [loopTime, addDouble_step1, addDouble_step2, addDouble_step3,
      addDouble_step4, addDouble_step5]
  have hnever : ∀ n, hasCollisionLoopDouble demoWorldWall demoSplineLong n 1 ≠ some true := by
    intro n hn
    rcases Nat.le_total n 6 with hle | hle
    · have := hasCollisionLoopDouble_mono _ _ n 1 true hn 6 hle
      rw [hloop] at this
      cases this
    · have := hasCollisionLoopDouble_mono _ _ 6 1 false hloop n hle
      rw [hn] at this
      cases this
  refine ⟨rfl, rfl, ?_, ?_, h5, ?_, hloop, hloop, hnever, hnever⟩
  · norm_num [demoNavWall, demoSplineLong, demoNav]
  · norm_num [demoNavWall, demoSplineLong, demoNav, demoWorldWall]
  · rw [show demoNavWall.trajTime_ = 1 from rfl, h5]
    norm_num [demoNavWall, demoSplineLong]

/-! ## The obstacle set the optimizer runs with -/

end AutoFlight
